import Mathlib

/-!
# squirrel_planning: Scene Registry, perception handlers, simulated observations

A shallow embedding of

* `knowledge_base/squirrel/SceneDatabase.cpp`
* `squirrel_interface_perception/src/RPPerceptionAction.cpp`
* `squirrel_planning_execution/src/pddl_actions/SimulatedObservePDDLAction.cpp`

Floating point coordinates are read as exact rationals.  Calls to external
collaborators (knowledge base, message store, tf, action servers) are recorded
in a trace of events; their answers are supplied by an environment record.
-/

namespace KCL_rosplan

/-! ## std::map with string keys -/

/-- Linear lookup of a key in a list of map entries. -/
def lookupEntry {V : Type} : List (String × V) → String → Option V
  | [], _ => none
  | (k', v) :: t, k => if k' = k then some v else lookupEntry t k

/-- Overwrite the value stored under a key, or add a fresh entry for it. -/
def assignEntry {V : Type} : List (String × V) → String → V → List (String × V)
  | [], k, v => [(k, v)]
  | (k', v') :: t, k, v => if k' = k then (k', v) :: t else (k', v') :: assignEntry t k v

/-- Drop the entry stored under a key. -/
def eraseEntry {V : Type} : List (String × V) → String → List (String × V)
  | [], _ => []
  | (k', v) :: t, k => if k' = k then eraseEntry t k else (k', v) :: eraseEntry t k

/-- A `std::map<std::string, V>`: a collection of entries with pairwise distinct keys.
Only lookup by key is ever used by the code, so the entries are kept in insertion order. -/
structure StdMap (V : Type) where
  entries : List (String × V)
  nodup : (entries.map Prod.fst).Nodup

namespace StdMap

/-- The default constructed map. -/
def empty {V : Type} : StdMap V := ⟨[], List.nodup_nil⟩

/-- Member `m.find(k)`: the mapped value the iterator points at, `none` for `m.end()`. -/
def find {V : Type} (m : StdMap V) (k : String) : Option V := lookupEntry m.entries k

/-- Member `m.erase(it)` for the iterator `it` returned by `m.find(k)`. -/
def erase {V : Type} (m : StdMap V) (k : String) : StdMap V :=
  ⟨eraseEntry m.entries k, by
    have sub : ∀ l : List (String × V), List.Sublist (eraseEntry l k) l := by
      intro l
      induction l with
      | nil => exact List.Sublist.slnil
      | cons a t ih =>
        obtain ⟨k', v'⟩ := a
        by_cases h : k' = k
        · simp only [eraseEntry, h, if_true]
          exact List.Sublist.cons _ ih
        · simp only [eraseEntry, h, if_false]
          exact List.Sublist.cons₂ _ ih
    exact m.nodup.sublist (List.Sublist.map _ (sub m.entries))⟩

/-- Assignment `m[k] = v`. -/
def assign {V : Type} (m : StdMap V) (k : String) (v : V) : StdMap V :=
  ⟨assignEntry m.entries k v, by
    have keys : ∀ l : List (String × V), (assignEntry l k v).map Prod.fst =
        if k ∈ l.map Prod.fst then l.map Prod.fst else l.map Prod.fst ++ [k] := by
      intro l
      induction l with
      | nil => simp [assignEntry]
      | cons a t ih =>
        obtain ⟨k', v'⟩ := a
        by_cases h : k' = k
        · subst h
          simp [assignEntry]
        · have h' : ¬ k = k' := fun e => h e.symm
          simp only [assignEntry, h, if_false, List.map_cons, ih, List.mem_cons, h', false_or]
          split <;> simp
    rw [keys]
    split
    · exact m.nodup
    · rename_i hk
      rw [List.nodup_append]
      refine ⟨m.nodup, List.nodup_singleton k, ?_⟩
      intro a ha hb
      rw [List.mem_singleton] at hb
      subst hb
      exact hk ha⟩

/-- Expression `m[k]` read as an rvalue: the stored value; an absent key is first inserted with a
value-initialised mapped value. -/
def index {V : Type} [Inhabited V] (m : StdMap V) (k : String) : V × StdMap V :=
  match m.find k with
  | some v => (v, m)
  | none => (default, m.assign k default)

end StdMap

/-! ## Messages of the Scene Registry -/

/-- A `geometry_msgs::Point`, coordinates as exact numbers. -/
structure Point where
  x : ℚ := 0
  y : ℚ := 0
  z : ℚ := 0
  deriving DecidableEq

/-- The default constructed point is the origin. -/
instance : Inhabited Point := ⟨{}⟩

/-- A `sensor_msgs::PointCloud2` payload. -/
structure PointCloud2 where
  frame_id : String := ""
  height : Nat := 0
  width : Nat := 0
  point_step : Nat := 0
  row_step : Nat := 0
  data : List Nat := []
  deriving DecidableEq

/-- The default constructed cloud is empty. -/
instance : Inhabited PointCloud2 := ⟨{}⟩

/-- A `perception_msgs::SegmentedObject`. -/
structure SegmentedObject where
  name : String
  segment : PointCloud2
  deriving DecidableEq

/-- A `perception_msgs::ObjectPosition`. -/
structure ObjectPosition where
  name : String
  position : Point
  deriving DecidableEq

/-- A `std_msgs::String`. -/
structure StringMsg where
  data : String
  deriving DecidableEq

/-- The two maps owned by the scene database. -/
structure SceneDatabase where
  clouds : StdMap PointCloud2
  positions : StdMap Point

namespace SceneDatabase

/-- The database of a freshly started node. -/
def init : SceneDatabase := ⟨StdMap.empty, StdMap.empty⟩

def addPointCloud (db : SceneDatabase) (msg : SegmentedObject) : SceneDatabase :=
  { db with clouds := db.clouds.assign msg.name msg.segment }

def removePointCloud (db : SceneDatabase) (msg : StringMsg) : SceneDatabase :=
  match db.clouds.find msg.data with
  | some _ => { db with clouds := db.clouds.erase msg.data }
  | none => db

/-- Returns the service's return value, the response's cloud and the database afterwards. -/
def getPointCloud (db : SceneDatabase) (name : String) : Bool × PointCloud2 × SceneDatabase :=
  let r := db.clouds.index name
  (true, r.1, { db with clouds := r.2 })

/-- Returns the service's return value, the response's position and the database afterwards. -/
def getPosition (db : SceneDatabase) (name : String) : Bool × Point × SceneDatabase :=
  let r := db.positions.index name
  (true, r.1, { db with positions := r.2 })

def addPosition (db : SceneDatabase) (msg : ObjectPosition) : SceneDatabase :=
  { db with positions := db.positions.assign msg.name msg.position }

def removePosition (db : SceneDatabase) (msg : StringMsg) : SceneDatabase :=
  match db.positions.find msg.data with
  | some _ => { db with positions := db.positions.erase msg.data }
  | none => db

end SceneDatabase

/-- A message arriving on the add/remove point cloud topics. -/
inductive CloudCall where
  | add (msg : SegmentedObject)
  | remove (msg : StringMsg)
  deriving DecidableEq

/-- A message arriving on the add/remove position topics. -/
inductive PositionCall where
  | add (msg : ObjectPosition)
  | remove (msg : StringMsg)
  deriving DecidableEq

def CloudCall.name : CloudCall → String
  | .add msg => msg.name
  | .remove msg => msg.data

def PositionCall.name : PositionCall → String
  | .add msg => msg.name
  | .remove msg => msg.data

/-- Run one point cloud callback. -/
def SceneDatabase.cloudCallback (db : SceneDatabase) : CloudCall → SceneDatabase
  | .add msg => db.addPointCloud msg
  | .remove msg => db.removePointCloud msg

/-- Run one position callback. -/
def SceneDatabase.positionCallback (db : SceneDatabase) : PositionCall → SceneDatabase
  | .add msg => db.addPosition msg
  | .remove msg => db.removePosition msg

/-- Run the callbacks for a sequence of point cloud messages, in arrival order. -/
def SceneDatabase.cloudCallbacks (db : SceneDatabase) (calls : List CloudCall) : SceneDatabase :=
  calls.foldl SceneDatabase.cloudCallback db

/-- Run the callbacks for a sequence of position messages, in arrival order. -/
def SceneDatabase.positionCallbacks (db : SceneDatabase) (calls : List PositionCall) :
    SceneDatabase :=
  calls.foldl SceneDatabase.positionCallback db

/-! ## Messages exchanged by the action nodes -/

/-- A `diagnostic_msgs::KeyValue`. -/
structure KeyValue where
  key : String := ""
  value : String := ""
  deriving DecidableEq, Inhabited

/-- A `rosplan_dispatch_msgs::ActionDispatch`. -/
structure ActionDispatch where
  action_id : Int := 0
  name : String := ""
  parameters : List KeyValue := []
  deriving DecidableEq, Inhabited

/-- The `knowledge_type` constants of `rosplan_knowledge_msgs::KnowledgeItem`. -/
inductive KnowledgeType where
  | INSTANCE
  | FACT
  | FUNCTION
  deriving DecidableEq, Inhabited

/-- A `rosplan_knowledge_msgs::KnowledgeItem`; the defaults are those of a
default constructed message. -/
structure KnowledgeItem where
  knowledge_type : KnowledgeType := KnowledgeType.INSTANCE
  instance_type : String := ""
  instance_name : String := ""
  attribute_name : String := ""
  values : List KeyValue := []
  is_negative : Bool := false
  deriving DecidableEq, Inhabited

/-- The `update_type` constants of `KnowledgeUpdateService::Request`. -/
inductive UpdateType where
  | ADD_KNOWLEDGE
  | ADD_GOAL
  | REMOVE_KNOWLEDGE
  | REMOVE_GOAL
  deriving DecidableEq, Inhabited

/-- A `std_msgs::Header` (without the sequence number). -/
structure Header where
  stamp : Nat := 0
  frame_id : String := ""
  deriving DecidableEq, Inhabited

/-- A `geometry_msgs::Quaternion`. -/
structure Quaternion where
  x : ℚ := 0
  y : ℚ := 0
  z : ℚ := 0
  w : ℚ := 0
  deriving DecidableEq, Inhabited

/-- A `geometry_msgs::Pose`. -/
structure Pose where
  position : Point := {}
  orientation : Quaternion := {}
  deriving DecidableEq, Inhabited

/-- A `geometry_msgs::PoseStamped`. -/
structure PoseStamped where
  header : Header := {}
  pose : Pose := {}
  deriving DecidableEq, Inhabited

/-- A `squirrel_object_perception_msgs::SceneObject`, with the height of its bounding cylinder. -/
structure SceneObject where
  header : Header := {}
  id : String := ""
  category : String := ""
  pose : Pose := {}
  bounding_cylinder_height : ℚ := 0
  deriving DecidableEq, Inhabited

/-- The response of the `FindDynamicObjects` service. -/
structure FindDynamicObjectsResponse where
  dynamic_objects_added : List SceneObject := []
  dynamic_objects_updated : List SceneObject := []
  dynamic_objects_removed : List SceneObject := []
  deriving DecidableEq, Inhabited

/-- The `look_for_object` modes of the perception goals. -/
inductive LookMode where
  | CHECK
  | EXPLORE
  deriving DecidableEq, Inhabited

/-- A `RecognizeObjectsGoal`. -/
structure RecognizeObjectsGoal where
  look_for_object : LookMode := LookMode.CHECK
  look_at_pose : PoseStamped := {}
  deriving DecidableEq, Inhabited

/-- A `LookForObjectsGoal`. -/
structure LookForObjectsGoal where
  look_for_object : LookMode := LookMode.CHECK
  id : String := ""
  deriving DecidableEq, Inhabited

/-- The result message of both perception action servers. -/
structure PerceptionResult where
  objects_added : List SceneObject := []
  objects_updated : List SceneObject := []
  used_wizard : Bool := false
  deriving DecidableEq, Inhabited

/-- An `actionlib::SimpleClientGoalState`. -/
inductive GoalState where
  | PENDING
  | ACTIVE
  | RECALLED
  | REJECTED
  | PREEMPTED
  | ABORTED
  | SUCCEEDED
  | LOST
  deriving DecidableEq, Inhabited

/-- The action clients of the perception node. -/
inductive Server where
  | examine_action_client
  | recognise_action_client
  | ptpActionClient
  deriving DecidableEq, Inhabited

/-! ## Traces of collaborator calls -/

/-- What a handler does to the outside world, one constructor per kind of call. -/
inductive Event where
  /-- Call `action_feedback_pub.publish(fb)` -/
  | feedback (action_id : Int) (status : String)
  /-- Call `find_dynamic_objects_client.call(..)` -/
  | findDynamicObjects
  /-- Call `update_knowledge_client.call(..)` -/
  | updateKnowledge (update_type : UpdateType) (knowledge : KnowledgeItem)
  /-- Call `get_instance_client.call(..)` -/
  | getInstances (type_name : String)
  /-- Call `knowledge_query_client.call(..)` -/
  | queryKnowledge (knowledge : List KnowledgeItem)
  /-- Call `get_attribute_client_.call(..)` -/
  | getAttribute (predicate_name : String)
  /-- Call `message_store.queryNamed<geometry_msgs::PoseStamped>(..)` -/
  | queryNamedPose (name : String)
  /-- Call `message_store.queryNamed<SceneObject>(..)` -/
  | queryNamedObject (name : String)
  /-- Call `message_store.insertNamed(name, pose)` -/
  | insertNamedPose (name : String) (ps : PoseStamped)
  /-- Call `message_store.insertNamed(name, object)` -/
  | insertNamedObject (name : String) (object : SceneObject)
  /-- Call `message_store.deleteID(id)` -/
  | deleteID (id : String)
  /-- Call `tfl.waitForTransform` followed by `tfl.lookupTransform` -/
  | lookupTransform
  /-- Call `client.waitForServer()` -/
  | waitForServer (server : Server)
  /-- Call `recognise_action_client.sendGoal(..)` followed by `waitForResult()` -/
  | recogniseGoal (goal : RecognizeObjectsGoal)
  /-- Call `examine_action_client.sendGoal(..)` followed by `waitForResult()` -/
  | examineGoal (goal : LookForObjectsGoal)
  /-- Call `ptpActionClient.sendGoal(..)` -/
  | ptpGoal (joints : List ℚ)
  /-- Call `ros::spinOnce()` inside the arm polling loop -/
  | spinOnce
  deriving DecidableEq

/-- The answers of the collaborators.  A call that fails answers `none` (or `false`); an
answer depends on the request only, not on the calls made before it. -/
structure Env where
  /-- return value of the call and the response as the call leaves it -/
  findDynamicObjects : Bool × FindDynamicObjectsResponse
  updateKnowledge : UpdateType → KnowledgeItem → Bool
  getInstances : String → Option (List String)
  /-- the `results` array of the response, one byte per queried item -/
  queryKnowledge : List KnowledgeItem → Option (List Nat)
  getAttribute : String → Option (List KnowledgeItem)
  queryNamedPose : String → Option (List PoseStamped)
  queryNamedObject : String → Option (List SceneObject)
  /-- the identifier the message store hands out for an inserted record -/
  insertNamed : String → String
  /-- origin of the /map to /base_link transform; `none` when tf throws -/
  lookupTransform : Option Point
  recognise : RecognizeObjectsGoal → GoalState × PerceptionResult
  examine : LookForObjectsGoal → GoalState × PerceptionResult
  /-- Value of `ros::Time::now()` -/
  now : Nat
  /-- Value of `ros::ok()` at the n-th iteration of an arm polling loop -/
  rosOk : Nat → Bool
  /-- joint positions delivered to `jointCallback` by the n-th `ros::spinOnce()`, if any -/
  jointState : Nat → Option (List ℚ)

/-- How control leaves a block of statements. -/
inductive Ctl (α : Type) where
  /-- falls through to the next statement -/
  | next (a : α)
  /-- a return statement of the enclosing function -/
  | ret
  /-- The process ends through `exit(code)` -/
  | exit (code : Int)
  /-- a polling loop is still running when the iteration budget is used up -/
  | timeout
  /-- the block ran into undefined behaviour (a write past the end of a vector) -/
  | undefined
  deriving DecidableEq

/-- Outcome of running a block: the calls made, the member variables afterwards, and how
control leaves. -/
structure Res (σ α : Type) where
  trace : List Event
  state : σ
  ctl : Ctl α

/-- Put the calls made so far in front of the calls of the rest of a block. -/
def Res.prepend {σ α : Type} (t : List Event) (r : Res σ α) : Res σ α :=
  ⟨t ++ r.trace, r.state, r.ctl⟩

/-- Continue with the next statements, unless control has left the block. -/
def Res.andThen {σ α β : Type} (r : Res σ α) (k : α → σ → Res σ β) : Res σ β :=
  match r.ctl with
  | Ctl.next a => (k a r.state).prepend r.trace
  | Ctl.ret => ⟨r.trace, r.state, Ctl.ret⟩
  | Ctl.exit code => ⟨r.trace, r.state, Ctl.exit code⟩
  | Ctl.timeout => ⟨r.trace, r.state, Ctl.timeout⟩
  | Ctl.undefined => ⟨r.trace, r.state, Ctl.undefined⟩

/-- A block of statements of a node whose member variables have type `σ`. -/
def Act (σ α : Type) : Type := Env → σ → Res σ α

namespace Act

def pure {σ α : Type} (a : α) : Act σ α := fun _ s => ⟨[], s, Ctl.next a⟩

def bind {σ α β : Type} (m : Act σ α) (f : α → Act σ β) : Act σ β := fun env s =>
  (m env s).andThen (fun a s1 => f a env s1)

instance {σ : Type} : Monad (Act σ) where
  pure := Act.pure
  bind := Act.bind

/-- Record one collaborator call. -/
def emit {σ : Type} (e : Event) : Act σ Unit := fun _ s => ⟨[e], s, Ctl.next ()⟩

/-- Read the answers of the collaborators. -/
def env {σ : Type} : Act σ Env := fun env s => ⟨[], s, Ctl.next env⟩

/-- Read the member variables. -/
def get {σ : Type} : Act σ σ := fun _ s => ⟨[], s, Ctl.next s⟩

/-- Write the member variables. -/
def set {σ : Type} (s : σ) : Act σ Unit := fun _ _ => ⟨[], s, Ctl.next ()⟩

/-- The statement `return;`. -/
def ret {σ α : Type} : Act σ α := fun _ s => ⟨[], s, Ctl.ret⟩

/-- The statement `exit(code);`. -/
def exit {σ α : Type} (code : Int) : Act σ α := fun _ s => ⟨[], s, Ctl.exit code⟩

/-- A statement with undefined behaviour. -/
def undefined {σ α : Type} : Act σ α := fun _ s => ⟨[], s, Ctl.undefined⟩

/-- Call a member function returning `void`: its `return;` resumes the caller. -/
def call {σ : Type} (m : Act σ Unit) : Act σ Unit := fun env s =>
  match (m env s).ctl with
  | Ctl.next _ => ⟨(m env s).trace, (m env s).state, Ctl.next ()⟩
  | Ctl.ret => ⟨(m env s).trace, (m env s).state, Ctl.next ()⟩
  | Ctl.exit code => ⟨(m env s).trace, (m env s).state, Ctl.exit code⟩
  | Ctl.timeout => ⟨(m env s).trace, (m env s).state, Ctl.timeout⟩
  | Ctl.undefined => ⟨(m env s).trace, (m env s).state, Ctl.undefined⟩

/-- A loop over the elements of a vector, in order. -/
def forEach {σ α : Type} : List α → (α → Act σ Unit) → Act σ Unit
  | [], _ => Act.pure ()
  | a :: t, body => Act.bind (body a) (fun _ => forEach t body)

/-- A loop over the elements of a vector that updates local variables `β`. -/
def forFold {σ α β : Type} : List α → β → (β → α → Act σ β) → Act σ β
  | [], b, _ => Act.pure b
  | a :: t, b, body => Act.bind (body b a) (fun b1 => forFold t b1 body)

end Act

/-! ## Machine numbers

A `double` is read as the exact number it stands for (a literal as the decimal number
written), and arithmetic on doubles as exact.  A `float` is represented by its exact value
too; the conversion of a double to a float rounds to 24 significant bits.  A 32-bit `int`
wraps around. -/

/-- Round to the nearest integer, a tie to the even one. -/
def roundHalfEven (x : ℚ) : ℤ :=
  if x - ⌊x⌋ < 1 / 2 then ⌊x⌋
  else if 1 / 2 < x - ⌊x⌋ then ⌊x⌋ + 1
  else if ⌊x⌋ % 2 = 0 then ⌊x⌋ else ⌊x⌋ + 1

/-- Conversion of a number to `float` (IEEE 754 binary32: 24 significant bits, exponents
from -126 to 127 with subnormal numbers below, round to nearest, a tie to the even
significand).  Plus and minus infinity are represented by 2^128 and -2^128, the first
powers of two beyond the finite floats. -/
def toFloat (q : ℚ) : ℚ :=
  if q = 0 then 0
  else
    let e : ℤ := max (Int.log 2 |q|) (-126)
    let ulp : ℚ := 2 ^ (e - 23)
    let r : ℚ := min (roundHalfEven (|q| / ulp) * ulp) (2 ^ 128)
    if q < 0 then -r else r

/-- The value a 32-bit `int` holds after an arithmetic result: two's complement
wrap-around, the behaviour of the usual targets where the C++ standard leaves signed
overflow undefined. -/
def wrapInt32 (x : Int) : Int := (x + 2147483648) % 4294967296 - 2147483648

/-! ## Nearest box selection: shared types -/

/-- Value of `std::numeric_limits<float>::max()`. -/
def FLT_MAX : ℚ := 340282346638528859811704183484516925440

/-- The local variables of the closest box loop. -/
structure Closest where
  closest_box : String := ""
  closest_box_pose : PoseStamped := {}
  min_distance_from_robot : ℚ := FLT_MAX
  deriving DecidableEq

/-- The expression on the right of `float distance = ..` in the closest box loop, computed
on doubles. -/
def squaredDistance (box_pose : PoseStamped) (origin : Point) : ℚ :=
  (box_pose.pose.position.x - origin.x) * (box_pose.pose.position.x - origin.x) +
  (box_pose.pose.position.y - origin.y) * (box_pose.pose.position.y - origin.y)

/-- The value of the variable `float distance` in the closest box loop: the squared
distance converted to float. -/
def boxDistance (box_pose : PoseStamped) (origin : Point) : ℚ :=
  toFloat (squaredDistance box_pose origin)

/-- Read `v[0]` of a vector of result bytes (0 stands in for reading an empty vector). -/
def firstResult (results : List Nat) : Nat := results.headD 0

/-! ## RPPerceptionAction -/

/-- The member variables of `RPPerceptionAction` that its callbacks write.  The counter
`polls` numbers the iterations of the arm polling loop, to index the answers of `Env`. -/
structure PerceptionState where
  db_name_map : StdMap String
  last_joint_state : List ℚ
  polls : Nat

namespace RPPerceptionAction

def publishFeedback (action_id : Int) (feedback : String) : Act PerceptionState Unit :=
  Act.emit (Event.feedback action_id feedback)

def updateObject (object : SceneObject) (newWaypoint : String) : Act PerceptionState Unit := do
  let env ← Act.env
  -- add the new object
  let k1 : KnowledgeItem :=
    { knowledge_type := KnowledgeType.INSTANCE, instance_type := "object",
      instance_name := object.id }
  Act.emit (Event.updateKnowledge UpdateType.ADD_KNOWLEDGE k1)
  -- add the new object's waypoint
  let k2 : KnowledgeItem :=
    { k1 with knowledge_type := KnowledgeType.INSTANCE, instance_type := "waypoint",
              instance_name := newWaypoint }
  Act.emit (Event.updateKnowledge UpdateType.ADD_KNOWLEDGE k2)
  -- object_at fact
  let k3 : KnowledgeItem :=
    { k2 with knowledge_type := KnowledgeType.FACT, attribute_name := "object_at",
              is_negative := false,
              values := k2.values ++ [⟨"o", object.id⟩, ⟨"wp", newWaypoint⟩] }
  Act.emit (Event.updateKnowledge UpdateType.ADD_KNOWLEDGE k3)
  -- data
  let ps : PoseStamped := { header := object.header, pose := object.pose }
  Act.emit (Event.insertNamedPose newWaypoint ps)
  let s ← Act.get
  Act.set { s with db_name_map := s.db_name_map.assign newWaypoint (env.insertNamed newWaypoint) }
  Act.emit (Event.insertNamedObject object.id object)
  let s ← Act.get
  Act.set { s with db_name_map := s.db_name_map.assign object.id (env.insertNamed object.id) }

def addObject (object : SceneObject) : Act PerceptionState Unit :=
  let wpName := "waypoint_" ++ object.id
  updateObject object wpName

def removeObject (object : SceneObject) : Act PerceptionState Unit := do
  let k : KnowledgeItem :=
    { knowledge_type := KnowledgeType.INSTANCE, instance_type := "object",
      instance_name := object.id }
  Act.emit (Event.updateKnowledge UpdateType.REMOVE_KNOWLEDGE k)
  -- data
  let s ← Act.get
  let r := s.db_name_map.index object.id
  Act.set { s with db_name_map := r.2 }
  Act.emit (Event.deleteID r.1)

/-- The parameter loop of `exploreAction`: the value of the last pair with key "wp" and
whether there is one. -/
def exploreParams (parameters : List KeyValue) : String × Bool :=
  parameters.foldl
    (fun (acc : String × Bool) p => if p.key = "wp" then (p.value, true) else acc) ("", false)

def exploreAction (msg : ActionDispatch) : Act PerceptionState Unit := do
  let env ← Act.env
  -- get waypoint ID from action dispatch
  let (explored_waypoint, foundWP) := exploreParams msg.parameters
  if !foundWP then
    Act.ret
  -- report this action is enabled
  publishFeedback msg.action_id "action enabled"
  -- find dynamic objects (a failed call is only logged)
  Act.emit Event.findDynamicObjects
  let response := env.findDynamicObjects.2
  -- add all new objects
  Act.forEach response.dynamic_objects_added (fun so => addObject so)
  -- update all new objects
  Act.forEach response.dynamic_objects_updated (fun so => updateObject so explored_waypoint)
  -- remove ghost objects
  Act.forEach response.dynamic_objects_removed (fun so => removeObject so)
  -- add the new knowledge (a failed call is only logged)
  let knowledge : KnowledgeItem :=
    { knowledge_type := KnowledgeType.FACT, attribute_name := "explored",
      values := [⟨"wp", explored_waypoint⟩] }
  Act.emit (Event.updateKnowledge UpdateType.ADD_KNOWLEDGE knowledge)
  -- report this action is achieved
  publishFeedback msg.action_id "action achieved"

/-- The parameter loop of `lookAtObject`: the value of the last pair with key "o" and
whether there is one. -/
def lookAtParams (parameters : List KeyValue) : String × Bool :=
  parameters.foldl
    (fun (acc : String × Bool) p => if p.key = "o" then (p.value, true) else acc) ("", false)

/-- The expression assigned to `success` after a perception goal finished. -/
def goalSuccess (state : GoalState) (result : PerceptionResult) : Bool :=
  state == GoalState.SUCCEEDED && result.objects_added.length + result.objects_updated.length > 0

def lookAtObject (msg : ActionDispatch) : Act PerceptionState Unit := do
  let env ← Act.env
  -- get object ID from action dispatch
  let (object_id, foundObject) := lookAtParams msg.parameters
  if !foundObject then
    Act.ret
  -- publish feedback (enabled)
  publishFeedback msg.action_id "action enabled"
  -- Get the object pose.
  let ss := object_id ++ "_wp"
  Act.emit (Event.queryNamedPose ss)
  let results ← (match env.queryNamedPose ss with
    | some results =>
      if results.length < 1 then do
        publishFeedback msg.action_id "action failed"
        Act.ret
      else Act.pure results
    | none => do
      publishFeedback msg.action_id "action failed"
      Act.ret)
  let object_wp : PoseStamped := results.headD {}
  Act.emit (Event.waitForServer Server.recognise_action_client)
  let perceptionGoal : RecognizeObjectsGoal :=
    { look_for_object := LookMode.EXPLORE, look_at_pose := object_wp }
  Act.emit (Event.recogniseGoal perceptionGoal)
  let (state, result) := env.recognise perceptionGoal
  let success := goalSuccess state result
  if success then
    Act.forEach result.objects_added (fun ci =>
      let so1 : SceneObject :=
        if result.used_wizard then
          { ci with pose := object_wp.pose, bounding_cylinder_height := 2 / 10 }
        else ci
      let so : SceneObject :=
        { so1 with header := { frame_id := "/map", stamp := env.now },
                   id := object_id, category := object_id }
      addObject so)
  else if state ≠ GoalState.SUCCEEDED then do
    publishFeedback msg.action_id "action failed"
    Act.ret
  else do
    publishFeedback msg.action_id "action failed"
    Act.ret
  -- publish feedback
  publishFeedback msg.action_id "action achieved"

/-- The body of the loop over the box instances in `examineObject`. -/
def closestBoxStep (action_id : Int) (origin : Point) (acc : Closest) (ci : String) :
    Act PerceptionState Closest := do
  let env ← Act.env
  -- fetch position of the box from message store
  let box_loc := ci ++ "_location"
  Act.emit (Event.queryNamedPose box_loc)
  let results ← (match env.queryNamedPose box_loc with
    | some results =>
      if results.length < 1 then do
        publishFeedback action_id "action failed"
        Act.ret
      else Act.pure results
    | none => do
      publishFeedback action_id "action failed"
      Act.ret)
  let box_pose : PoseStamped := results.headD {}
  let distance := boxDistance box_pose origin
  if distance < acc.min_distance_from_robot then
    Act.pure { closest_box := ci, closest_box_pose := box_pose,
               min_distance_from_robot := distance }
  else
    Act.pure acc

/-- The loop over the box instances in `examineObject`, started with the initial values of
`closest_box`, `closest_box_pose` and `min_distance_from_robot`. -/
def closestBoxLoop (action_id : Int) (origin : Point) (instances : List String) :
    Act PerceptionState Closest :=
  Act.forFold instances {} (closestBoxStep action_id origin)

def examineObject (msg : ActionDispatch) : Act PerceptionState Unit := do
  let env ← Act.env
  -- publish feedback (enabled)
  publishFeedback msg.action_id "action enabled"
  Act.emit (Event.waitForServer Server.recognise_action_client)
  -- Locate the location of the robot.
  Act.emit Event.lookupTransform
  let origin ← (match env.lookupTransform with
    | some origin => Act.pure origin
    | none => do
      publishFeedback msg.action_id "action failed"
      Act.ret)
  -- Get all boxes and their poses, pick the one that is closest.
  Act.emit (Event.getInstances "box")
  let instances ← (match env.getInstances "box" with
    | some instances => Act.pure instances
    | none => do
      publishFeedback msg.action_id "action failed"
      Act.ret)
  let closest ← closestBoxLoop msg.action_id origin instances
  let perceptionGoal : RecognizeObjectsGoal :=
    { look_for_object := LookMode.EXPLORE, look_at_pose := closest.closest_box_pose }
  Act.emit (Event.recogniseGoal perceptionGoal)
  let (state, result) := env.recognise perceptionGoal
  let success := goalSuccess state result
  if success then
    Act.forEach result.objects_added (fun ci =>
      let so : SceneObject := { ci with id := ci.category }
      addObject so)
  else if state ≠ GoalState.SUCCEEDED then do
    publishFeedback msg.action_id "action failed"
    Act.ret
  else do
    publishFeedback msg.action_id "action failed"
    Act.ret
  -- publish feedback
  publishFeedback msg.action_id "action achieved"

/-- The fact queried and written by `updateType`. -/
def belongsIn (o b : String) (is_negative : Bool) : KnowledgeItem :=
  { knowledge_type := KnowledgeType.FACT, attribute_name := "belongs_in",
    values := [⟨"o", o⟩, ⟨"b", b⟩], is_negative := is_negative }

/-- The body of the first loop of `updateType`: ask whether the recognised category belongs
in the box, and remember the box if it does. -/
def updateTypeQuery (object_rec_name : String) (found_box box : String) :
    Act PerceptionState String := do
  let env ← Act.env
  let knowledge_item := belongsIn object_rec_name box false
  -- Check if this fact is true.
  Act.emit (Event.queryKnowledge [knowledge_item])
  match env.queryKnowledge [knowledge_item] with
  | none => Act.exit 1
  | some results =>
    if firstResult results ≠ 1 then Act.pure found_box else Act.pure box

/-- The body of the second loop of `updateType`: a failed call is only logged. -/
def updateTypeAssert (object_id found_box : String) (box : String) :
    Act PerceptionState Unit := do
  -- Make if of that type.
  Act.emit (Event.updateKnowledge UpdateType.ADD_KNOWLEDGE
    (belongsIn object_id box (decide (box ≠ found_box))))
  Act.emit (Event.updateKnowledge UpdateType.REMOVE_KNOWLEDGE
    (belongsIn object_id box (decide (box = found_box))))

def updateType (object_id object_rec_name : String) : Act PerceptionState Unit := do
  let env ← Act.env
  -- First we get all the possible types of toys that we can encounter.
  Act.emit (Event.getInstances "box")
  let instances ← (match env.getInstances "box" with
    | some instances => Act.pure instances
    | none => Act.ret)
  let found_box ← Act.forFold instances "" (updateTypeQuery object_rec_name)
  -- Add new type, if necessary.
  if found_box ≠ "" then
    Act.forEach instances (updateTypeAssert object_id found_box)

/-- The local variables written by the parameter loop of `examineAction`. -/
structure ExamineParams where
  objectID : String := ""
  wpID : String := ""
  fromID : String := ""
  foundObject : Bool := false

/-- The parameter loop of `examineAction`. -/
def examineParams (parameters : List KeyValue) : ExamineParams :=
  parameters.foldl
    (fun (acc : ExamineParams) p =>
      let acc1 := if p.key = "view" then { acc with wpID := p.value } else acc
      let acc2 := if p.key = "from" then { acc1 with fromID := p.value } else acc1
      if p.key = "o" then { acc2 with objectID := p.value, foundObject := true } else acc2)
    {}

def examineAction (msg : ActionDispatch) : Act PerceptionState Unit := do
  let env ← Act.env
  -- get waypoint ID from action dispatch
  let ps := examineParams msg.parameters
  if !ps.foundObject then
    Act.ret
  -- publish feedback (enabled)
  publishFeedback msg.action_id "action enabled"
  Act.emit (Event.waitForServer Server.examine_action_client)
  let perceptionGoal : LookForObjectsGoal :=
    { look_for_object := LookMode.EXPLORE, id := ps.objectID }
  Act.emit (Event.examineGoal perceptionGoal)
  let (state, result) := env.examine perceptionGoal
  let success := goalSuccess state result
  -- update classifiable_from in the knowledge base.
  let knowledge_item : KnowledgeItem :=
    { knowledge_type := KnowledgeType.FACT, attribute_name := "classifiable_from",
      is_negative := !success,
      values := [⟨"from", ps.fromID⟩, ⟨"view", ps.wpID⟩, ⟨"o", ps.objectID⟩] }
  Act.emit (Event.updateKnowledge UpdateType.ADD_KNOWLEDGE knowledge_item)
  if !env.updateKnowledge UpdateType.ADD_KNOWLEDGE knowledge_item then
    Act.exit (-1)
  -- Remove the opposite option from the knowledge base.
  let knowledge_item : KnowledgeItem :=
    { knowledge_item with is_negative := !knowledge_item.is_negative }
  Act.emit (Event.updateKnowledge UpdateType.REMOVE_KNOWLEDGE knowledge_item)
  if !env.updateKnowledge UpdateType.REMOVE_KNOWLEDGE knowledge_item then
    Act.exit (-1)
  if success then do
    if result.objects_added.length > 0 then
      Act.call (updateType ps.objectID (result.objects_added.headD {}).category)
    if result.objects_updated.length > 0 then
      Act.call (updateType ps.objectID (result.objects_updated.headD {}).category)
    -- add all new objects
    Act.forEach result.objects_added (fun so => addObject so)
    -- update all new objects
    Act.forEach result.objects_updated (fun so => updateObject so ps.wpID)
  else if state ≠ GoalState.SUCCEEDED then do
    publishFeedback msg.action_id "action failed"
    Act.ret
  -- publish feedback
  publishFeedback msg.action_id "action achieved"

/-- The check at the end of one iteration of `waitForArm`: no joint from index 3 on is
further than `error` from its goal. -/
def armDone (goal last : List ℚ) (error : ℚ) : Bool :=
  (List.range (min goal.length last.length)).all
    (fun i => decide (i < 3) || decide (|goal.getD i 0 - last.getD i 0| ≤ error))

/-- The polling loop of `waitForArm`, run for at most `fuel` iterations. -/
def waitForArm (goal_state : List ℚ) (error : ℚ) : Nat → Act PerceptionState Unit
  | 0 => fun _ s => ⟨[], s, Ctl.timeout⟩
  | fuel + 1 => do
    let env ← Act.env
    let s ← Act.get
    if !env.rosOk s.polls then
      Act.pure ()
    else do
      Act.emit Event.spinOnce
      let last := (env.jointState s.polls).getD s.last_joint_state
      Act.set { s with last_joint_state := last, polls := s.polls + 1 }
      -- Check whether we have reached the goal location yet.
      if armDone goal_state last error then
        Act.pure ()
      else
        waitForArm goal_state error fuel

/-- Arm manipulation: the statements after the first `return true;` are never reached.
The writes `data_arm.data[3]` to `data_arm.data[7]` are past the end of the vector when the
last joint state has fewer than 8 positions: undefined behaviour. -/
def extendArm (fuel : Nat) : Act PerceptionState Bool := do
  let s ← Act.get
  if s.last_joint_state.length < 8 then
    Act.undefined
  let data_arm := ((((s.last_joint_state.set 3 (3 / 2)).set 4 (86 / 100)).set 5 0).set 6
    (-16 / 10)).set 7 (-18 / 10)
  Act.emit (Event.ptpGoal data_arm)
  Act.emit (Event.ptpGoal data_arm)
  waitForArm data_arm (toFloat (5 / 100)) fuel
  Act.pure true

/-- Arm manipulation: the statements after the first `return true;` are never reached.
The writes `data_arm.data[3]` to `data_arm.data[7]` are past the end of the vector when the
last joint state has fewer than 8 positions: undefined behaviour. -/
def retractArm (fuel : Nat) : Act PerceptionState Bool := do
  let s ← Act.get
  if s.last_joint_state.length < 8 then
    Act.undefined
  let data_arm := ((((s.last_joint_state.set 3 (7 / 10)).set 4 (16 / 10)).set 5 0).set 6
    (-17 / 10)).set 7 (-18 / 10)
  Act.emit (Event.ptpGoal data_arm)
  Act.emit (Event.ptpGoal data_arm)
  waitForArm data_arm (toFloat (5 / 100)) fuel
  Act.pure true

/-- The parameter loop of `examineObjectInHandAction`: the value of the last pair with
key "o", the empty string when there is none. -/
def inHandParams (parameters : List KeyValue) : String :=
  parameters.foldl (fun (acc : String) p => if p.key = "o" then p.value else acc) ""

/-- The handler of examine_object_in_hand; each arm polling loop runs for at most `fuel`
iterations. -/
def examineObjectInHandAction (fuel : Nat) (msg : ActionDispatch) :
    Act PerceptionState Unit := do
  let env ← Act.env
  -- get waypoint ID from action dispatch
  let objectID := inHandParams msg.parameters
  if objectID = "" then
    Act.ret
  -- publish feedback (enabled)
  publishFeedback msg.action_id "action enabled"
  Act.emit (Event.waitForServer Server.examine_action_client)
  let extended ← extendArm fuel
  if !extended then do
    publishFeedback msg.action_id "action failed"
    Act.ret
  let perceptionGoal : LookForObjectsGoal :=
    { look_for_object := LookMode.EXPLORE, id := objectID }
  Act.emit (Event.examineGoal perceptionGoal)
  let (state, result) := env.examine perceptionGoal
  let success := goalSuccess state result
  if success then do
    if result.objects_added.length > 0 then
      Act.call (updateType objectID (result.objects_added.headD {}).category)
    if result.objects_updated.length > 0 then
      Act.call (updateType objectID (result.objects_updated.headD {}).category)
  else if state ≠ GoalState.SUCCEEDED then do
    publishFeedback msg.action_id "action failed"
    Act.ret
  let retracted ← retractArm fuel
  if !retracted then do
    publishFeedback msg.action_id "action failed"
    Act.ret
  -- publish feedback
  publishFeedback msg.action_id "action achieved"

/-- The action dispatch callback of the perception node. -/
def dispatchCallback (fuel : Nat) (msg : ActionDispatch) : Act PerceptionState Unit := do
  -- ignore non-perception actions
  if msg.name = "explore_waypoint" then Act.call (exploreAction msg)
  if msg.name = "observe-classifiable_from" then Act.call (examineAction msg)
  if msg.name = "look_at_object" then Act.call (lookAtObject msg)
  if msg.name = "examine_object" then Act.call (examineObject msg)
  if msg.name = "examine_object_in_hand" then Act.call (examineObjectInHandAction fuel msg)

end RPPerceptionAction

/-! ## SimulatedObservePDDLAction -/

/-- The variables of `SimulatedObservePDDLAction` that outlive a callback: the member
`sort_for_` and the function-local static `call_counter`. -/
structure SimulatedState where
  sort_for_ : Int
  /-- a 32-bit `int` -/
  call_counter : Int

namespace SimulatedObservePDDLAction

/-- The constructor: `sort_for_` first receives the return value of
`getParam("sort_for", sort_for_)` and is then overwritten with 3. -/
def init (sort_for_param : Option Int) : SimulatedState :=
  let s0 : SimulatedState :=
    { sort_for_ := if sort_for_param.isSome then 1 else 0, call_counter := 0 }
  { s0 with sort_for_ := 3 }

/-- The action name after `std::transform(.., tolower)`. -/
def normalise (name : String) : String := ⟨name.data.map Char.toLower⟩

/-- The body of the loop over the box instances in the observe-toy_at_right_box branch. -/
def closestBoxStep (action_id : Int) (origin : Point) (acc : Closest) (ci : String) :
    Act SimulatedState Closest := do
  let env ← Act.env
  -- fetch position of the box from message store
  let box_loc := ci ++ "_location"
  Act.emit (Event.queryNamedPose box_loc)
  let results ← (match env.queryNamedPose box_loc with
    | some results =>
      if results.length < 1 then do
        Act.emit (Event.feedback action_id "action failed")
        Act.ret
      else Act.pure results
    | none => do
      Act.emit (Event.feedback action_id "action failed")
      Act.ret)
  let box_pose : PoseStamped := results.headD {}
  let distance := boxDistance box_pose origin
  if distance < acc.min_distance_from_robot then
    Act.pure { closest_box := ci, closest_box_pose := box_pose,
               min_distance_from_robot := distance }
  else
    Act.pure acc

/-- The loop over the box instances in the observe-toy_at_right_box branch, started with the
initial values of `closest_box`, `closest_box_pose` and `min_distance_from_robot`. -/
def closestBoxLoop (action_id : Int) (origin : Point) (instances : List String) :
    Act SimulatedState Closest :=
  Act.forFold instances {} (closestBoxStep action_id origin)

/-- The objects named by an "o" argument of some `tidy` fact. -/
def tidiedObjects (attributes : List KnowledgeItem) : List String :=
  attributes.flatMap (fun knowledge_item =>
    (knowledge_item.values.filter (fun key_value => decide ("o" = key_value.key))).map
      (fun key_value => key_value.value))

/-- The condition guarding the belongs_in query of an object, as the code computes it. -/
def nearBox (object_pose : Pose) (closest_box_pose : PoseStamped) : Bool :=
  decide ((object_pose.position.x - closest_box_pose.pose.position.x) *
      (object_pose.position.x - closest_box_pose.pose.position.x) -
    (object_pose.position.y - closest_box_pose.pose.position.y) *
      (object_pose.position.y - closest_box_pose.pose.position.y) < 3 / 2)

/-- The body of the loop over the object instances in the observe-toy_at_right_box branch. -/
def toyStep (action_id : Int) (closest : Closest) (tidied_objects : List String)
    (object_name : String) : Act SimulatedState Unit := do
  let env ← Act.env
  if object_name ∈ tidied_objects then
    Act.pure ()
  else do
    -- fetch position of the box from message store
    Act.emit (Event.queryNamedObject object_name)
    let results ← (match env.queryNamedObject object_name with
      | some results =>
        if results.length < 1 then do
          Act.emit (Event.feedback action_id "action failed")
          Act.ret
        else Act.pure results
      | none => do
        Act.emit (Event.feedback action_id "action failed")
        Act.ret)
    -- check whether it is close enough to the box we are interested in to be relevant.
    let object_pose : Pose := (results.headD {}).pose
    if nearBox object_pose closest.closest_box_pose then do
      -- Check if the untidied toy belong in this box.
      let knowledge_item : KnowledgeItem :=
        { knowledge_type := KnowledgeType.FACT, attribute_name := "belongs_in",
          values := [⟨"o", object_name⟩, ⟨"b", closest.closest_box⟩] }
      Act.emit (Event.queryKnowledge [knowledge_item])
      let query_results ← (match env.queryKnowledge [knowledge_item] with
        | some query_results => Act.pure query_results
        | none => Act.exit 1)
      -- Add the new knowledge.
      let knowledge_item : KnowledgeItem :=
        { knowledge_item with values := [], knowledge_type := KnowledgeType.FACT,
                              attribute_name := "toy_at_right_box",
                              is_negative := decide (firstResult query_results = 0) }
      Act.emit (Event.updateKnowledge UpdateType.ADD_KNOWLEDGE knowledge_item)
      if !env.updateKnowledge UpdateType.ADD_KNOWLEDGE knowledge_item then
        Act.exit (-1)
      -- Remove the opposite option from the knowledge base.
      let knowledge_item : KnowledgeItem :=
        { knowledge_item with is_negative := !knowledge_item.is_negative }
      Act.emit (Event.updateKnowledge UpdateType.REMOVE_KNOWLEDGE knowledge_item)
      if !env.updateKnowledge UpdateType.REMOVE_KNOWLEDGE knowledge_item then
        Act.exit (-1)

/-- The observe-sorting_done branch. -/
def sortingDone : Act SimulatedState Unit := do
  let env ← Act.env
  let s ← Act.get
  let call_counter := wrapInt32 (s.call_counter + 1)
  Act.set { s with call_counter := call_counter }
  -- Add the new knowledge.
  let knowledge_item : KnowledgeItem :=
    { knowledge_type := KnowledgeType.FACT, attribute_name := "sorting_done",
      is_negative := decide (call_counter < s.sort_for_) }
  Act.emit (Event.updateKnowledge UpdateType.ADD_KNOWLEDGE knowledge_item)
  if !env.updateKnowledge UpdateType.ADD_KNOWLEDGE knowledge_item then
    Act.exit (-1)
  -- Remove the opposite option from the knowledge base (a failed call is only logged).
  let knowledge_item : KnowledgeItem :=
    { knowledge_item with is_negative := !knowledge_item.is_negative }
  Act.emit (Event.updateKnowledge UpdateType.REMOVE_KNOWLEDGE knowledge_item)

/-- The observe-toy_at_right_box branch. -/
def toyAtRightBox (action_id : Int) : Act SimulatedState Unit := do
  let env ← Act.env
  -- Locate the location of the robot.
  Act.emit Event.lookupTransform
  let origin ← (match env.lookupTransform with
    | some origin => Act.pure origin
    | none => do
      Act.emit (Event.feedback action_id "action failed")
      Act.ret)
  -- Get all boxes and their poses, pick the one that is closest.
  Act.emit (Event.getInstances "box")
  let boxes ← (match env.getInstances "box" with
    | some instances => Act.pure instances
    | none => do
      Act.emit (Event.feedback action_id "action failed")
      Act.ret)
  let closest ← closestBoxLoop action_id origin boxes
  -- Get all toys and check if any of these toys are near the box and not tidied.
  Act.emit (Event.getInstances "object")
  let objects ← (match env.getInstances "object" with
    | some instances => Act.pure instances
    | none => do
      Act.emit (Event.feedback action_id "action failed")
      Act.ret)
  -- Fetch all the objects.
  Act.emit (Event.getAttribute "tidy")
  let attributes ← (match env.getAttribute "tidy" with
    | some attributes => Act.pure attributes
    | none => do
      Act.emit (Event.feedback action_id "action failed")
      Act.ret)
  let tidied_objects := tidiedObjects attributes
  Act.forEach objects (toyStep action_id closest tidied_objects)

/-- The action dispatch callback of the simulated observation node. -/
def dispatchCallback (msg : ActionDispatch) : Act SimulatedState Unit := do
  let normalised_action_name := normalise msg.name
  -- Check if this action is to be handled by this class.
  if normalised_action_name ≠ "observe-has_commanded" ∧
      normalised_action_name ≠ "observe-is_of_type" ∧
      normalised_action_name ≠ "observe-holding" ∧
      normalised_action_name ≠ "observe-sorting_done" ∧
      normalised_action_name ≠ "observe-is_examined" ∧
      normalised_action_name ≠ "observe-belongs_in" ∧
      normalised_action_name ≠ "observe-toy_at_right_box" ∧
      normalised_action_name ≠ "jump" ∧
      normalised_action_name ≠ "check_belongs_in" ∧
      normalised_action_name ≠ "finish" ∧
      normalised_action_name ≠ "next_observation" then
    Act.ret
  -- Report this action is enabled and completed successfully.
  Act.emit (Event.feedback msg.action_id "action enabled")
  if normalised_action_name = "observe-sorting_done" then
    sortingDone
  else if normalised_action_name = "observe-toy_at_right_box" then
    toyAtRightBox msg.action_id
  Act.emit (Event.feedback msg.action_id "action achieved")

end SimulatedObservePDDLAction

/-! ## Reading traces -/

/-- All feedback events of a trace, in order. -/
def feedbacks (t : List Event) : List (Int × String) :=
  t.filterMap (fun e => match e with
    | Event.feedback i status => some (i, status)
    | _ => none)

/-- The knowledge base updates of a trace, in order. -/
def updatesOf (t : List Event) : List (UpdateType × KnowledgeItem) :=
  t.filterMap (fun e => match e with
    | Event.updateKnowledge u k => some (u, k)
    | _ => none)

/-- The goals sent to the recognizer action server, in order. -/
def recogniseGoalsOf (t : List Event) : List RecognizeObjectsGoal :=
  t.filterMap (fun e => match e with
    | Event.recogniseGoal g => some g
    | _ => none)

/-- The updates of a trace that concern the fact with the given predicate name. -/
def factUpdates (attribute_name : String) (t : List Event) :
    List (UpdateType × KnowledgeItem) :=
  (updatesOf t).filter (fun u =>
    decide (u.2.knowledge_type = KnowledgeType.FACT ∧ u.2.attribute_name = attribute_name))

/-- The updates of a trace that concern an instance of the given type. -/
def instanceUpdates (instance_type : String) (t : List Event) :
    List (UpdateType × KnowledgeItem) :=
  (updatesOf t).filter (fun u =>
    decide (u.2.knowledge_type = KnowledgeType.INSTANCE ∧ u.2.instance_type = instance_type))

/-- The perception node right after start: nothing inserted, no joint state received. -/
def PerceptionState.init : PerceptionState :=
  { db_name_map := StdMap.empty, last_joint_state := [], polls := 0 }

/-- The first record the message store answers for the location of a box. -/
def boxPose (env : Env) (b : String) : PoseStamped :=
  ((env.queryNamedPose (b ++ "_location")).getD []).headD {}

/-- One comparison of the closest box loop, on the stored pose of the box. -/
def pickBox (env : Env) (origin : Point) (acc : Closest) (b : String) : Closest :=
  if boxDistance (boxPose env b) origin < acc.min_distance_from_robot then
    { closest_box := b, closest_box_pose := boxPose env b,
      min_distance_from_robot := boxDistance (boxPose env b) origin }
  else acc

/-- The three knowledge base updates of `updateObject`, in call order. -/
def objectUpdates (object : SceneObject) (newWaypoint : String) :
    List (UpdateType × KnowledgeItem) :=
  [(UpdateType.ADD_KNOWLEDGE,
      { knowledge_type := KnowledgeType.INSTANCE, instance_type := "object",
        instance_name := object.id }),
   (UpdateType.ADD_KNOWLEDGE,
      { knowledge_type := KnowledgeType.INSTANCE, instance_type := "waypoint",
        instance_name := newWaypoint }),
   (UpdateType.ADD_KNOWLEDGE,
      { knowledge_type := KnowledgeType.FACT, instance_type := "waypoint",
        instance_name := newWaypoint, attribute_name := "object_at",
        values := [⟨"o", object.id⟩, ⟨"wp", newWaypoint⟩], is_negative := false })]

/-- The member variables after `updateObject`. -/
def afterUpdateObject (env : Env) (s : PerceptionState) (object : SceneObject)
    (newWaypoint : String) : PerceptionState :=
  let m1 := s.db_name_map.assign newWaypoint (env.insertNamed newWaypoint)
  let m2 := m1.assign object.id (env.insertNamed object.id)
  { s with db_name_map := m2 }

/-- Whether an event is a knowledge base update of the fact with the given predicate name. -/
def isFactUpdate (attribute_name : String) : Event → Bool
  | Event.updateKnowledge _ k =>
    decide (k.knowledge_type = KnowledgeType.FACT ∧ k.attribute_name = attribute_name)
  | _ => false

/-- Every call a block can make, from any state and with any answers, satisfies `P`. -/
def Act.Quiet {σ α : Type} (P : Event → Prop) (m : Act σ α) : Prop :=
  ∀ env s, ∀ e ∈ (m env s).trace, P e

/-- The pair of calls that asserts a fact: ADD of the item, then REMOVE of the same item
with the opposite polarity. -/
def assertPair (item : KnowledgeItem) : List (UpdateType × KnowledgeItem) :=
  [(UpdateType.ADD_KNOWLEDGE, item),
   (UpdateType.REMOVE_KNOWLEDGE, { item with is_negative := !item.is_negative })]

/-- The classifiable_from fact that `examineAction` adds: negative exactly when the
perception goal did not succeed with an object. -/
def classifiableFrom (env : Env) (msg : ActionDispatch) : KnowledgeItem :=
  { knowledge_type := KnowledgeType.FACT, attribute_name := "classifiable_from",
    is_negative :=
      !RPPerceptionAction.goalSuccess
        (env.examine { look_for_object := LookMode.EXPLORE,
                       id := (RPPerceptionAction.examineParams msg.parameters).objectID }).1
        (env.examine { look_for_object := LookMode.EXPLORE,
                       id := (RPPerceptionAction.examineParams msg.parameters).objectID }).2,
    values := [⟨"from", (RPPerceptionAction.examineParams msg.parameters).fromID⟩,
               ⟨"view", (RPPerceptionAction.examineParams msg.parameters).wpID⟩,
               ⟨"o", (RPPerceptionAction.examineParams msg.parameters).objectID⟩] }

/-- The sorting_done fact that the next observe-sorting_done dispatch adds. -/
def sortingDoneItem (s : SimulatedState) : KnowledgeItem :=
  { knowledge_type := KnowledgeType.FACT, attribute_name := "sorting_done",
    is_negative := decide (wrapInt32 (s.call_counter + 1) < s.sort_for_) }

/-- The explored fact that `exploreAction` adds. -/
def exploredItem (w : String) : KnowledgeItem :=
  { knowledge_type := KnowledgeType.FACT, attribute_name := "explored",
    values := [⟨"wp", w⟩], is_negative := false }

/-- The toy_at_right_box fact that `toyStep` adds after a belongs_in query answered with
the given result bytes. -/
def toyAtRightBoxItem (query_results : List Nat) : KnowledgeItem :=
  { knowledge_type := KnowledgeType.FACT, attribute_name := "toy_at_right_box",
    values := [], is_negative := decide (firstResult query_results = 0) }

/-- The feedback discipline of a block that runs after "action enabled": when the block
falls through it has published exactly `post`, and when it returns from the handler it
has published exactly "action failed" for the action. -/
structure Act.Proto {σ α : Type} (id : Int) (post : List (Int × String)) (m : Act σ α) :
    Prop where
  run : ∀ env s,
    ((∀ a, (m env s).ctl = Ctl.next a → feedbacks (m env s).trace = post)) ∧
    ((m env s).ctl = Ctl.ret → feedbacks (m env s).trace = [(id, "action failed")])

/-- The feedback discipline of a whole handler: its first call is the publication of
"action enabled"; a run that falls through the end has published exactly enabled and
achieved, a run that returns early has published exactly enabled and failed. -/
structure Act.HandlerOK {σ α : Type} (id : Int) (m : Act σ α) : Prop where
  run : ∀ env s,
    (m env s).trace.head? = some (Event.feedback id "action enabled") ∧
    ((∀ a, (m env s).ctl = Ctl.next a →
      feedbacks (m env s).trace = [(id, "action enabled"), (id, "action achieved")])) ∧
    ((m env s).ctl = Ctl.ret →
      feedbacks (m env s).trace = [(id, "action enabled"), (id, "action failed")])

/-- The action names the simulated observation node handles. -/
def SimulatedObservePDDLAction.recognised : List String :=
  ["observe-has_commanded", "observe-is_of_type", "observe-holding", "observe-sorting_done",
   "observe-is_examined", "observe-belongs_in", "observe-toy_at_right_box", "jump",
   "check_belongs_in", "finish", "next_observation"]

/-- The feedback discipline of one run of a handler for the action `id`: the first call is
the publication of "action enabled"; a run that reaches the end of the handler has published
exactly enabled and achieved, a run that returns early exactly enabled and failed. -/
def FeedbackDiscipline {σ : Type} (id : Int) (r : Res σ Unit) : Prop :=
  r.trace.head? = some (Event.feedback id "action enabled") ∧
  (r.ctl = Ctl.next () →
    feedbacks r.trace = [(id, "action enabled"), (id, "action achieved")]) ∧
  (r.ctl = Ctl.ret →
    feedbacks r.trace = [(id, "action enabled"), (id, "action failed")])

/-- The action names of the perception node's dispatch table. -/
def RPPerceptionAction.handled : List String :=
  ["explore_waypoint", "observe-classifiable_from", "look_at_object", "examine_object",
   "examine_object_in_hand"]

/-- The action names the simulated observation node only acknowledges. -/
def SimulatedObservePDDLAction.acknowledged : List String :=
  ["observe-has_commanded", "observe-is_of_type", "observe-holding", "observe-is_examined",
   "observe-belongs_in", "jump", "check_belongs_in", "finish", "next_observation"]

/-- The node's life: the dispatch callback runs once for each message, in arrival order,
until one run ends the process. -/
def SimulatedObservePDDLAction.spin (msgs : List ActionDispatch) : Act SimulatedState Unit :=
  Act.forEach msgs (fun msg => Act.call (SimulatedObservePDDLAction.dispatchCallback msg))

/-- The number of observe-sorting_done dispatches among the messages. -/
def SimulatedObservePDDLAction.sortingDoneCount (msgs : List ActionDispatch) : Nat :=
  (msgs.filter (fun msg =>
    decide (SimulatedObservePDDLAction.normalise msg.name = "observe-sorting_done"))).length

/-- The value of `call_counter` after n more observe-sorting_done dispatches. -/
def SimulatedObservePDDLAction.counterAfter (n : Nat) (call_counter : Int) : Int :=
  (fun c => wrapInt32 (c + 1))^[n] call_counter

/-- The value of `data_arm.data` in `extendArm` after the five writes, for a joint vector
with at least 8 positions. -/
def RPPerceptionAction.extendedJoints (position : List ℚ) : List ℚ :=
  ((((position.set 3 (3 / 2)).set 4 (86 / 100)).set 5 0).set 6 (-16 / 10)).set 7 (-18 / 10)

/-- The value of `data_arm.data` in `retractArm` after the five writes, for a joint vector
with at least 8 positions. -/
def RPPerceptionAction.retractedJoints (position : List ℚ) : List ℚ :=
  ((((position.set 3 (7 / 10)).set 4 (16 / 10)).set 5 0).set 6 (-17 / 10)).set 7 (-18 / 10)

/-- The fact sorting_done with the given polarity. -/
def sortingDoneFact (is_negative : Bool) : KnowledgeItem :=
  { knowledge_type := KnowledgeType.FACT, attribute_name := "sorting_done",
    is_negative := is_negative }

/-- A block that leaves the member variables as they are. -/
structure Act.Keeps {σ α : Type} (m : Act σ α) : Prop where
  run : ∀ env s, (m env s).state = s

/-- A block that always falls through to the next statement. -/
structure Act.Runs {σ α : Type} (m : Act σ α) : Prop where
  run : ∀ env s, ∃ a, (m env s).ctl = Ctl.next a

/-- Whether the knowledge base answers that the category belongs in the box: the query
call succeeds and the first result byte is 1. -/
def RPPerceptionAction.holdsFor (env : Env) (object_rec_name box : String) : Bool :=
  match env.queryKnowledge [RPPerceptionAction.belongsIn object_rec_name box false] with
  | some results => decide (firstResult results = 1)
  | none => false

/-- The value of `found_box` after the first loop of `updateType` when every query call
succeeds, started from `found_box`. -/
def RPPerceptionAction.foundBox (env : Env) (object_rec_name : String) (found_box : String)
    (boxes : List String) : String :=
  boxes.foldl
    (fun found_box box =>
      if RPPerceptionAction.holdsFor env object_rec_name box then box else found_box)
    found_box

/-- The calls of the second loop of `updateType`. -/
def RPPerceptionAction.belongsInCalls (object_id found_box : String) (boxes : List String) :
    List Event :=
  boxes.flatMap (fun box =>
    [Event.updateKnowledge UpdateType.ADD_KNOWLEDGE
       (RPPerceptionAction.belongsIn object_id box (decide (box ≠ found_box))),
     Event.updateKnowledge UpdateType.REMOVE_KNOWLEDGE
       (RPPerceptionAction.belongsIn object_id box (decide (box = found_box)))])

/-- The pose the message store holds for an object: that of the first record it answers. -/
def SimulatedObservePDDLAction.objectPose (env : Env) (object_name : String) : Pose :=
  (((env.queryNamedObject object_name).getD []).headD {}).pose

/-- Whether the object loop of observe-toy_at_right_box goes on to the belongs_in query for
an object: it is not tidied and passes the closeness test as the code computes it. -/
def SimulatedObservePDDLAction.relevant (env : Env) (closest : Closest)
    (tidied_objects : List String) (object_name : String) : Bool :=
  decide (object_name ∉ tidied_objects) &&
    SimulatedObservePDDLAction.nearBox (SimulatedObservePDDLAction.objectPose env object_name)
      closest.closest_box_pose

/-- The result bytes the knowledge base answers to the belongs_in query for an object and
the closest box. -/
def SimulatedObservePDDLAction.belongsAnswer (env : Env) (closest_box object_name : String) :
    List Nat :=
  (env.queryKnowledge [RPPerceptionAction.belongsIn object_name closest_box false]).getD []

/-- The updates of the object loop of observe-toy_at_right_box when every call succeeds:
one ADD/REMOVE pair for each relevant object, in list order. -/
def SimulatedObservePDDLAction.toyUpdates (env : Env) (closest : Closest)
    (tidied_objects : List String) (objects : List String) :
    List (UpdateType × KnowledgeItem) :=
  (objects.filter (SimulatedObservePDDLAction.relevant env closest tidied_objects)).flatMap
    (fun o => assertPair (toyAtRightBoxItem
      (SimulatedObservePDDLAction.belongsAnswer env closest.closest_box o)))

/-- The fact of the last ADD call among the updates, if there is one. -/
def lastAsserted (updates : List (UpdateType × KnowledgeItem)) : Option KnowledgeItem :=
  ((updates.filter (fun u => decide (u.1 = UpdateType.ADD_KNOWLEDGE))).getLast?).map Prod.snd

/-! ## Sample inputs -/

/-- A registry holding one cloud and one position under the name "cup". -/
def SceneDatabase.sample : SceneDatabase :=
  (SceneDatabase.init.addPointCloud ⟨"cup", { height := 1 }⟩).addPosition
    ⟨"cup", { x := 1, y := 2, z := 3 }⟩

/-- Collaborators that know nothing: every query fails or comes back empty, every update
succeeds. -/
def Env.quiet : Env :=
  { findDynamicObjects := (true, {}),
    updateKnowledge := fun _ _ => true,
    getInstances := fun _ => none,
    queryKnowledge := fun _ => none,
    getAttribute := fun _ => none,
    queryNamedPose := fun _ => none,
    queryNamedObject := fun _ => none,
    insertNamed := fun name => "id_" ++ name,
    lookupTransform := none,
    recognise := fun _ => (GoalState.ABORTED, {}),
    examine := fun _ => (GoalState.ABORTED, {}),
    now := 0,
    rosOk := fun _ => true,
    jointState := fun _ => none }

/-- A pose at planar position (x, y). -/
def poseAt (x y : ℚ) : PoseStamped :=
  { header := { frame_id := "/map" }, pose := { position := { x := x, y := y } } }

/-- The robot stands at the origin; box1 is stored at (3, 4), box2 at (1, 0) and box3 at
(0, 1). -/
def Env.threeBoxes : Env :=
  { Env.quiet with
    lookupTransform := some {},
    getInstances := fun t => if t = "box" then some ["box1", "box2", "box3"] else none,
    queryNamedPose := fun name =>
      if name = "box1_location" then some [poseAt 3 4]
      else if name = "box2_location" then some [poseAt 1 0]
      else if name = "box3_location" then some [poseAt 0 1]
      else none }

/-- Two boxes stored equally far away, at x = 2^70, further than the largest float. -/
def Env.farBoxes : Env :=
  { Env.quiet with
    lookupTransform := some {},
    getInstances := fun t => if t = "box" then some ["box1", "box2"] else none,
    queryNamedPose := fun name =>
      if name = "box1_location" then some [poseAt (2 ^ 70) 0]
      else if name = "box2_location" then some [poseAt (2 ^ 70) 0]
      else none }

/-- The robot is located, the knowledge base lists no box, and the recognizer reports one
object wherever it is sent. -/
def Env.noBoxes : Env :=
  { Env.quiet with
    lookupTransform := some {},
    getInstances := fun t => if t = "box" then some [] else none,
    recognise := fun _ =>
      (GoalState.SUCCEEDED, { objects_added := [{ id := "obj1", category := "cup" }] }) }

/-- The robot is located and two boxes are listed; box1 is stored at (1, 0), the location of
box2, which would be further away, is not stored. -/
def Env.missingBox : Env :=
  { Env.quiet with
    lookupTransform := some {},
    getInstances := fun t => if t = "box" then some ["box1", "box2"] else none,
    queryNamedPose := fun name => if name = "box1_location" then some [poseAt 1 0] else none }

/-- The detection service reports one added object, "obj1", and nothing else. -/
def Env.oneAdded : Env :=
  { Env.quiet with
    findDynamicObjects := (true, { dynamic_objects_added := [{ id := "obj1" }] }) }

/-- An observe-sorting_done dispatch of action 8. -/
def sortingDoneDispatch : ActionDispatch := ⟨8, "observe-sorting_done", []⟩

/-- Collaborators whose detection service call and knowledge base updates all fail. -/
def Env.failing : Env :=
  { Env.quiet with
    findDynamicObjects := (false, {}),
    updateKnowledge := fun _ _ => false }

/-- The perception node with a joint state of eight positions, all zero, received. -/
def PerceptionState.armReady : PerceptionState :=
  { db_name_map := StdMap.empty, last_joint_state := [0, 0, 0, 0, 0, 0, 0, 0], polls := 0 }

/-- An examine_object_in_hand dispatch of action 7 for the object "cup1". -/
def inHandDispatch : ActionDispatch := ⟨7, "examine_object_in_hand", [⟨"o", "cup1"⟩]⟩

/-- The robot stands among three boxes, the waypoint of "cup1" is stored, and both
perception servers report SUCCEEDED with no object added and none updated.  The arm arrives
at once: the first joint state delivered is the extended pose, every later one the retracted
pose. -/
def Env.emptyResult : Env :=
  { Env.threeBoxes with
    queryNamedPose := fun name =>
      if name = "cup1_wp" then some [poseAt 1 1] else Env.threeBoxes.queryNamedPose name,
    recognise := fun _ => (GoalState.SUCCEEDED, {}),
    examine := fun _ => (GoalState.SUCCEEDED, {}),
    jointState := fun n =>
      if n = 0 then some [0, 0, 0, 3 / 2, 86 / 100, 0, -16 / 10, -18 / 10]
      else some [0, 0, 0, 7 / 10, 16 / 10, 0, -17 / 10, -18 / 10] }

/-- The scene of `Env.emptyResult` with both perception servers aborting every goal. -/
def Env.goalAborted : Env :=
  { Env.emptyResult with
    recognise := fun _ => (GoalState.ABORTED, {}),
    examine := fun _ => (GoalState.ABORTED, {}) }

/-- Two boxes are known and the category "cup" belongs in box2 only. -/
def Env.cupInBox2 : Env :=
  { Env.quiet with
    getInstances := fun t => if t = "box" then some ["box1", "box2"] else none,
    queryKnowledge := fun ks =>
      some [if ks = [RPPerceptionAction.belongsIn "cup" "box2" false] then 1 else 0] }

/-- Two boxes are known, one of them under the empty name, and the category "cup" belongs
in that one only. -/
def Env.unnamedBox : Env :=
  { Env.quiet with
    getInstances := fun t => if t = "box" then some ["", "box2"] else none,
    queryKnowledge := fun ks =>
      some [if ks = [RPPerceptionAction.belongsIn "cup" "" false] then 1 else 0] }

/-- The examine server recognises one object of category "cup", which belongs in the only
known box; every belongs_in update call fails and every other update call succeeds. -/
def Env.belongsInUpdatesFail : Env :=
  { Env.quiet with
    examine := fun _ =>
      (GoalState.SUCCEEDED, { objects_added := [{ id := "obj1", category := "cup" }] }),
    getInstances := fun t => if t = "box" then some ["box1"] else none,
    queryKnowledge := fun _ => some [1],
    updateKnowledge := fun _ k => decide (k.attribute_name ≠ "belongs_in") }

/-- An observe-classifiable_from dispatch of action 7 for the object "cup1". -/
def classifyDispatch : ActionDispatch :=
  ⟨7, "observe-classifiable_from", [⟨"o", "cup1"⟩, ⟨"view", "wp1"⟩, ⟨"from", "wp2"⟩]⟩

/-- A knowledge base that accepts every ADD and refuses every REMOVE. -/
def Env.removeFails : Env :=
  { Env.quiet with
    updateKnowledge := fun u _ => decide (u = UpdateType.ADD_KNOWLEDGE) }

/-- An observe-classifiable_from dispatch of action 7 that carries the object only. -/
def objectOnlyDispatch : ActionDispatch :=
  ⟨7, "observe-classifiable_from", [⟨"o", "cup1"⟩]⟩

/-- A scene object stored at planar position (x, y). -/
def toyAt (x y : ℚ) : SceneObject := { pose := { position := { x := x, y := y } } }

/-- An observe-toy_at_right_box dispatch of action 9. -/
def toyDispatch : ActionDispatch := ⟨9, "observe-toy_at_right_box", []⟩

/-- The robot stands at the only box, box1, at the origin.  Two untidied toys lie one unit
from the box: toy1, which does not belong in box1, and toy2, which does. -/
def Env.twoToys : Env :=
  { Env.quiet with
    lookupTransform := some {},
    getInstances := fun t =>
      if t = "box" then some ["box1"]
      else if t = "object" then some ["toy1", "toy2"] else none,
    queryNamedPose := fun name => if name = "box1_location" then some [poseAt 0 0] else none,
    getAttribute := fun _ => some [],
    queryNamedObject := fun name =>
      if name = "toy1" then some [toyAt 1 0]
      else if name = "toy2" then some [toyAt 0 1] else none,
    queryKnowledge := fun ks =>
      some [if ks = [RPPerceptionAction.belongsIn "toy2" "box1" false] then 1 else 0] }

/-- The scene of `Env.twoToys` with the knowledge base listing the toys in the other
order. -/
def Env.twoToysSwapped : Env :=
  { Env.twoToys with
    getInstances := fun t =>
      if t = "box" then some ["box1"]
      else if t = "object" then some ["toy2", "toy1"] else none }

/-- The robot stands at the only box, box1, at the origin.  The only toy lies 100 units
away along the y axis and does not belong in box1. -/
def Env.farToy : Env :=
  { Env.quiet with
    lookupTransform := some {},
    getInstances := fun t =>
      if t = "box" then some ["box1"]
      else if t = "object" then some ["toy1"] else none,
    queryNamedPose := fun name => if name = "box1_location" then some [poseAt 0 0] else none,
    getAttribute := fun _ => some [],
    queryNamedObject := fun name => if name = "toy1" then some [toyAt 0 100] else none,
    queryKnowledge := fun _ => some [0] }

/-- Two boxes are known and the category "cup" belongs in both. -/
def Env.cupInBothBoxes : Env :=
  { Env.quiet with
    getInstances := fun t => if t = "box" then some ["box1", "box2"] else none,
    queryKnowledge := fun _ => some [1] }

/-- Two boxes are known and the category "cup" belongs in neither. -/
def Env.cupInNoBox : Env :=
  { Env.quiet with
    getInstances := fun t => if t = "box" then some ["box1", "box2"] else none,
    queryKnowledge := fun _ => some [0] }

/-- Two boxes are known, the second under the empty name, and the category "cup" belongs
in both. -/
def Env.lastBoxUnnamed : Env :=
  { Env.quiet with
    getInstances := fun t => if t = "box" then some ["box1", ""] else none,
    queryKnowledge := fun _ => some [1] }

/-- The robot stands at the origin; box1 is stored at x = 1 + 2^-31, box2 and box3 are both
stored at x = 1, all on the x axis. -/
def Env.nearTie : Env :=
  { Env.quiet with
    lookupTransform := some {},
    getInstances := fun t => if t = "box" then some ["box1", "box2", "box3"] else none,
    queryNamedPose := fun name =>
      if name = "box1_location" then some [poseAt (1 + 1 / 2 ^ 31) 0]
      else if name = "box2_location" then some [poseAt 1 0]
      else if name = "box3_location" then some [poseAt 1 0]
      else none }

/-! # Theorems -/

/-! ## Facts about machine numbers -/

theorem roundHalfEven_intCast (z : ℤ) : roundHalfEven (z : ℚ) = z := by
  simp [roundHalfEven]

theorem roundHalfEven_mono {x y : ℚ} (h : x ≤ y) : roundHalfEven x ≤ roundHalfEven y := by
  have hfl : ⌊x⌋ ≤ ⌊y⌋ := Int.floor_mono h
  have hx0 := Int.floor_le x
  have hx1 := Int.lt_floor_add_one x
  have hy0 := Int.floor_le y
  have hy1 := Int.lt_floor_add_one y
  rcases lt_or_eq_of_le hfl with hlt | heq
  · have h1 : roundHalfEven x ≤ ⌊x⌋ + 1 := by
      unfold roundHalfEven; split_ifs <;> omega
    have h2 : ⌊y⌋ ≤ roundHalfEven y := by
      unfold roundHalfEven; split_ifs <;> omega
    omega
  · unfold roundHalfEven
    rw [← heq]
    have hxy : x - ⌊x⌋ ≤ y - ⌊x⌋ := by linarith
    split_ifs <;> first | omega | (exfalso; linarith)

theorem le_roundHalfEven {x : ℚ} {z : ℤ} (h : (z : ℚ) ≤ x) : z ≤ roundHalfEven x := by
  have := roundHalfEven_mono h
  rwa [roundHalfEven_intCast] at this

theorem roundHalfEven_le {x : ℚ} {z : ℤ} (h : x ≤ (z : ℚ)) : roundHalfEven x ≤ z := by
  have := roundHalfEven_mono h
  rwa [roundHalfEven_intCast] at this

theorem roundHalfEven_eq_of_abs_lt {x : ℚ} {n : ℤ} (h : |x - n| < 1 / 2) :
    roundHalfEven x = n := by
  rw [abs_lt] at h
  obtain ⟨h1, h2⟩ := h
  rcases le_or_lt (n : ℚ) x with hx | hx
  · have hf : ⌊x⌋ = n := by
      rw [Int.floor_eq_iff]
      constructor <;> linarith
    unfold roundHalfEven
    rw [hf, if_pos (by linarith)]
  · have hf : ⌊x⌋ = n - 1 := by
      rw [Int.floor_eq_iff]
      push_cast
      constructor <;> linarith
    unfold roundHalfEven
    rw [hf, if_neg (by push_cast; linarith), if_pos (by push_cast; linarith)]
    omega

theorem toFloat_zero : toFloat 0 = 0 := by simp [toFloat]

theorem toFloat_of_pos {q : ℚ} (hq : 0 < q) :
    toFloat q =
      min ((roundHalfEven (q / (2 : ℚ) ^ (max (Int.log 2 q) (-126) - 23)) : ℚ) *
        (2 : ℚ) ^ (max (Int.log 2 q) (-126) - 23)) (2 ^ 128) := by
  simp [toFloat, hq.ne', abs_of_pos hq, not_lt.mpr hq.le]

theorem log_two_eq {q : ℚ} {z : ℤ} (hq : 0 < q) (hlo : (2 : ℚ) ^ z ≤ q)
    (hhi : q < (2 : ℚ) ^ (z + 1)) : Int.log 2 q = z := by
  have h1 : z ≤ Int.log 2 q := by
    have := (Int.zpow_le_iff_le_log (b := 2) (by norm_num) hq (x := z)).1 (by exact_mod_cast hlo)
    exact this
  have h2 : Int.log 2 q < z + 1 := by
    have := (Int.lt_zpow_iff_log_lt (b := 2) (by norm_num) hq (x := z + 1)).1
      (by exact_mod_cast hhi)
    exact this
  omega

/-- Evaluation of `toFloat` on a positive number in the normal range that is not halfway
between two floats. -/
theorem toFloat_eq {q : ℚ} (e n : ℤ) (hq : 0 < q) (he : -126 ≤ e)
    (hlo : (2 : ℚ) ^ e ≤ q) (hhi : q < (2 : ℚ) ^ (e + 1))
    (hn : |q / (2 : ℚ) ^ (e - 23) - n| < 1 / 2)
    (hfin : (n : ℚ) * (2 : ℚ) ^ (e - 23) ≤ 2 ^ 128) :
    toFloat q = n * (2 : ℚ) ^ (e - 23) := by
  rw [toFloat_of_pos hq, log_two_eq hq hlo hhi, max_eq_left he,
    roundHalfEven_eq_of_abs_lt hn, min_eq_left hfin]

theorem toFloat_nonneg {q : ℚ} (hq : 0 ≤ q) : 0 ≤ toFloat q := by
  rcases eq_or_lt_of_le hq with h | h
  · rw [← h, toFloat_zero]
  · rw [toFloat_of_pos h]
    apply le_min
    · apply mul_nonneg
      · have : (0 : ℤ) ≤ roundHalfEven (q / (2 : ℚ) ^ (max (Int.log 2 q) (-126) - 23)) :=
          le_roundHalfEven (by
            simp only [Int.cast_zero]
            positivity)
        exact_mod_cast this
      · positivity
    · positivity

theorem lt_two_zpow_exponent (q : ℚ) :
    q < (2 : ℚ) ^ (max (Int.log 2 q) (-126) + 1) := by
  have h1 : q < (2 : ℚ) ^ (Int.log 2 q + 1) := by
    have := Int.lt_zpow_succ_log_self (b := 2) (by norm_num) q
    exact_mod_cast this
  refine lt_of_lt_of_le h1 ?_
  apply zpow_le_zpow_right₀ (by norm_num)
  have := le_max_left (Int.log 2 q) (-126)
  omega

theorem two_zpow_exponent_le {q : ℚ} (hq : 0 < q) (h : -126 ≤ Int.log 2 q) :
    (2 : ℚ) ^ (max (Int.log 2 q) (-126)) ≤ q := by
  rw [max_eq_left h]
  have := Int.zpow_log_le_self (b := 2) (by norm_num) hq
  exact_mod_cast this

/-- The rounded significand times the unit is at most the next power of two. -/
theorem rounded_le (q : ℚ) :
    (roundHalfEven (q / (2 : ℚ) ^ (max (Int.log 2 q) (-126) - 23)) : ℚ) *
      (2 : ℚ) ^ (max (Int.log 2 q) (-126) - 23) ≤
    (2 : ℚ) ^ (max (Int.log 2 q) (-126) + 1) := by
  set e := max (Int.log 2 q) (-126) with he
  have hu : (0 : ℚ) < (2 : ℚ) ^ (e - 23) := by positivity
  have hx : q / (2 : ℚ) ^ (e - 23) ≤ ((2 ^ 24 : ℤ) : ℚ) := by
    rw [div_le_iff₀ hu]
    have h1 := (lt_two_zpow_exponent q).le
    rw [← he] at h1
    have h2 : ((2 ^ 24 : ℤ) : ℚ) * (2 : ℚ) ^ (e - 23) = (2 : ℚ) ^ (e + 1) := by
      have h3 : (2 : ℚ) ^ (e + 1) = (2 : ℚ) ^ (24 : ℤ) * (2 : ℚ) ^ (e - 23) := by
        rw [← zpow_add₀ (by norm_num)]
        congr 1
        ring
      rw [h3]
      norm_num
    rw [h2]
    exact h1
  have hr : (roundHalfEven (q / (2 : ℚ) ^ (e - 23)) : ℚ) ≤ ((2 ^ 24 : ℤ) : ℚ) := by
    exact_mod_cast roundHalfEven_le hx
  calc (roundHalfEven (q / (2 : ℚ) ^ (e - 23)) : ℚ) * (2 : ℚ) ^ (e - 23)
      ≤ ((2 ^ 24 : ℤ) : ℚ) * (2 : ℚ) ^ (e - 23) := mul_le_mul_of_nonneg_right hr hu.le
    _ = (2 : ℚ) ^ (e + 1) := by
      have h3 : (2 : ℚ) ^ (e + 1) = (2 : ℚ) ^ (24 : ℤ) * (2 : ℚ) ^ (e - 23) := by
        rw [← zpow_add₀ (by norm_num)]
        congr 1
        ring
      rw [h3]
      norm_num

/-- In the normal range the rounded significand times the unit is at least the power of
two below the number. -/
theorem le_rounded {q : ℚ} (hq : 0 < q) (h : -126 ≤ Int.log 2 q) :
    (2 : ℚ) ^ (max (Int.log 2 q) (-126)) ≤
    (roundHalfEven (q / (2 : ℚ) ^ (max (Int.log 2 q) (-126) - 23)) : ℚ) *
      (2 : ℚ) ^ (max (Int.log 2 q) (-126) - 23) := by
  have h0 := two_zpow_exponent_le hq h
  set e := max (Int.log 2 q) (-126) with he
  have hu : (0 : ℚ) < (2 : ℚ) ^ (e - 23) := by positivity
  have h2 : ((2 ^ 23 : ℤ) : ℚ) * (2 : ℚ) ^ (e - 23) = (2 : ℚ) ^ e := by
    have h3 : (2 : ℚ) ^ e = (2 : ℚ) ^ (23 : ℤ) * (2 : ℚ) ^ (e - 23) := by
      rw [← zpow_add₀ (by norm_num)]
      congr 1
      ring
    rw [h3]
    norm_num
  have hx : ((2 ^ 23 : ℤ) : ℚ) ≤ q / (2 : ℚ) ^ (e - 23) := by
    rw [le_div_iff₀ hu, h2]
    exact h0
  have hr : ((2 ^ 23 : ℤ) : ℚ) ≤ (roundHalfEven (q / (2 : ℚ) ^ (e - 23)) : ℚ) := by
    exact_mod_cast le_roundHalfEven hx
  calc (2 : ℚ) ^ e = ((2 ^ 23 : ℤ) : ℚ) * (2 : ℚ) ^ (e - 23) := h2.symm
    _ ≤ _ := mul_le_mul_of_nonneg_right hr hu.le

/-- Conversion to float is monotone on the non-negative numbers. -/
theorem toFloat_mono {q q' : ℚ} (hq : 0 ≤ q) (h : q ≤ q') : toFloat q ≤ toFloat q' := by
  rcases eq_or_lt_of_le hq with h0 | h0
  · rw [← h0, toFloat_zero]
    exact toFloat_nonneg (le_trans hq h)
  have hq' : 0 < q' := lt_of_lt_of_le h0 h
  rw [toFloat_of_pos h0, toFloat_of_pos hq']
  apply min_le_min_right
  have hlog : Int.log 2 q ≤ Int.log 2 q' := Int.log_mono_right h0 h
  have hE : max (Int.log 2 q) (-126) ≤ max (Int.log 2 q') (-126) := max_le_max_right _ hlog
  rcases eq_or_lt_of_le hE with heq | hlt
  · rw [← heq]
    apply mul_le_mul_of_nonneg_right _ (by positivity)
    have : roundHalfEven (q / (2 : ℚ) ^ (max (Int.log 2 q) (-126) - 23)) ≤
        roundHalfEven (q' / (2 : ℚ) ^ (max (Int.log 2 q) (-126) - 23)) :=
      roundHalfEven_mono (div_le_div_of_nonneg_right h (by positivity))
    exact_mod_cast this
  · have hnorm : -126 ≤ Int.log 2 q' := by
      by_contra hc
      rw [max_eq_right (le_of_lt (not_le.mp hc))] at hlt
      have := le_max_right (Int.log 2 q) (-126)
      omega
    refine le_trans (rounded_le q) (le_trans ?_ (le_rounded hq' hnorm))
    apply zpow_le_zpow_right₀ (by norm_num)
    omega

/-- Numbers from 2^128 on convert to infinity. -/
theorem toFloat_overflow {q : ℚ} (h : (2 : ℚ) ^ 128 ≤ q) : toFloat q = 2 ^ 128 := by
  have hq : 0 < q := lt_of_lt_of_le (by positivity) h
  have hlog : (128 : ℤ) ≤ Int.log 2 q :=
    (Int.zpow_le_iff_le_log (b := 2) (by norm_num) hq (x := 128)).1 (by exact_mod_cast h)
  rw [toFloat_of_pos hq]
  apply min_eq_right
  refine le_trans ?_ (le_rounded hq (by omega))
  rw [max_eq_left (by omega : (-126 : ℤ) ≤ Int.log 2 q)]
  calc (2 : ℚ) ^ 128 = (2 : ℚ) ^ (128 : ℤ) := by norm_num
    _ ≤ (2 : ℚ) ^ Int.log 2 q := zpow_le_zpow_right₀ (by norm_num) hlog

/-- Every result of the conversion is at most the representation of infinity. -/
theorem toFloat_le_infinity {q : ℚ} (hq : 0 ≤ q) : toFloat q ≤ 2 ^ 128 := by
  rcases eq_or_lt_of_le hq with h | h
  · rw [← h, toFloat_zero]; positivity
  · rw [toFloat_of_pos h]
    exact min_le_right _ _

theorem toFloat_one : toFloat 1 = 1 := by
  rw [toFloat_eq 0 (2 ^ 23) (by norm_num) (by norm_num) (by norm_num) (by norm_num)
    (by norm_num) (by norm_num)]
  norm_num

theorem toFloat_twentyfive : toFloat 25 = 25 := by
  rw [toFloat_eq 4 (25 * 2 ^ 19) (by norm_num) (by norm_num) (by norm_num) (by norm_num)
    (by norm_num) (by norm_num)]
  norm_num

theorem toFloat_tenthousand : toFloat 10000 = 10000 := by
  rw [toFloat_eq 13 (10000 * 2 ^ 10) (by norm_num) (by norm_num) (by norm_num) (by norm_num)
    (by norm_num) (by norm_num)]
  norm_num

theorem toFloat_near_one : toFloat ((1 + 1 / 2 ^ 31) * (1 + 1 / 2 ^ 31)) = 1 := by
  rw [toFloat_eq 0 (2 ^ 23) (by norm_num) (by norm_num) (by norm_num) (by norm_num)
    (by rw [abs_lt]; constructor <;> norm_num) (by norm_num)]
  norm_num

theorem wrapInt32_of_range {x : Int} (h0 : -2147483648 ≤ x) (h1 : x < 2147483648) :
    wrapInt32 x = x := by
  unfold wrapInt32
  omega

theorem wrapInt32_wrapInt32_add (x y : Int) :
    wrapInt32 (wrapInt32 x + y) = wrapInt32 (x + y) := by
  unfold wrapInt32
  omega

/-! ## Facts about std::map -/

theorem lookupEntry_assignEntry {V : Type} (l : List (String × V)) (k k' : String) (v : V) :
    lookupEntry (assignEntry l k v) k' = if k = k' then some v else lookupEntry l k' := by
  induction l with
  | nil => simp [assignEntry, lookupEntry]
  | cons a t ih =>
    obtain ⟨a, w⟩ := a
    by_cases h : a = k
    · subst h
      by_cases h' : a = k' <;> simp [assignEntry, lookupEntry, h']
    · by_cases h' : a = k'
      · subst h'
        have : ¬ k = a := fun e => h e.symm
        simp [assignEntry, lookupEntry, h, this]
      · simp [assignEntry, lookupEntry, h, h', ih]

theorem lookupEntry_eraseEntry {V : Type} (l : List (String × V)) (k k' : String) :
    lookupEntry (eraseEntry l k) k' = if k = k' then none else lookupEntry l k' := by
  induction l with
  | nil => simp [eraseEntry, lookupEntry]
  | cons a t ih =>
    obtain ⟨a, w⟩ := a
    by_cases h : a = k
    · subst h
      by_cases h' : a = k'
      · subst h'
        simpa [eraseEntry] using ih
      · simp [eraseEntry, lookupEntry, h', ih]
    · by_cases h' : a = k'
      · subst h'
        have : ¬ k = a := fun e => h e.symm
        simp [eraseEntry, lookupEntry, h, this]
      · simp [eraseEntry, lookupEntry, h, h', ih]

theorem eraseEntry_absent {V : Type} (l : List (String × V)) (k : String)
    (h : lookupEntry l k = none) : eraseEntry l k = l := by
  induction l with
  | nil => rfl
  | cons a t ih =>
    obtain ⟨a, w⟩ := a
    by_cases h' : a = k
    · simp [lookupEntry, h'] at h
    · simp only [lookupEntry, h', if_false] at h
      simp [eraseEntry, h', ih h]

theorem lookupEntry_none_of_not_mem {V : Type} (l : List (String × V)) (k : String)
    (h : k ∉ l.map Prod.fst) : lookupEntry l k = none := by
  induction l with
  | nil => rfl
  | cons a t ih =>
    obtain ⟨a, w⟩ := a
    simp only [List.map_cons, List.mem_cons, not_or] at h
    have h1 : ¬ a = k := fun e => h.1 e.symm
    simp [lookupEntry, h1, ih h.2]

theorem length_eraseEntry {V : Type} (l : List (String × V)) (k : String) (v : V)
    (hn : (l.map Prod.fst).Nodup) (h : lookupEntry l k = some v) :
    (eraseEntry l k).length + 1 = l.length := by
  induction l with
  | nil => simp [lookupEntry] at h
  | cons a t ih =>
    obtain ⟨a, w⟩ := a
    simp only [List.map_cons, List.nodup_cons] at hn
    by_cases h' : a = k
    · subst h'
      simp [eraseEntry, eraseEntry_absent t a (lookupEntry_none_of_not_mem t a hn.1)]
    · simp only [lookupEntry, h', if_false] at h
      simp [eraseEntry, h', ih hn.2 h]

theorem mem_eraseEntry {V : Type} (l : List (String × V)) (k : String) (e : String × V) :
    e ∈ eraseEntry l k ↔ e ∈ l ∧ e.1 ≠ k := by
  induction l with
  | nil => simp [eraseEntry]
  | cons a t ih =>
    obtain ⟨a, w⟩ := a
    by_cases h' : a = k
    · subst h'
      simp only [eraseEntry, if_true, ih, List.mem_cons]
      constructor
      · rintro ⟨h1, h2⟩
        exact ⟨Or.inr h1, h2⟩
      · rintro ⟨h1 | h1, h2⟩
        · subst h1
          exact absurd rfl h2
        · exact ⟨h1, h2⟩
    · simp only [eraseEntry, h', if_false, ih, List.mem_cons]
      constructor
      · rintro (h1 | ⟨h1, h2⟩)
        · subst h1
          exact ⟨Or.inl rfl, h'⟩
        · exact ⟨Or.inr h1, h2⟩
      · rintro ⟨h1 | h1, h2⟩
        · exact Or.inl h1
        · exact Or.inr ⟨h1, h2⟩

theorem StdMap.ext_entries {V : Type} (m m' : StdMap V) (h : m.entries = m'.entries) :
    m = m' := by
  cases m; cases m'; cases h; rfl

theorem StdMap.find_assign {V : Type} (m : StdMap V) (k k' : String) (v : V) :
    (m.assign k v).find k' = if k = k' then some v else m.find k' :=
  lookupEntry_assignEntry m.entries k k' v

theorem StdMap.find_erase {V : Type} (m : StdMap V) (k k' : String) :
    (m.erase k).find k' = if k = k' then none else m.find k' :=
  lookupEntry_eraseEntry m.entries k k'

theorem StdMap.index_fst {V : Type} [Inhabited V] (m : StdMap V) (k : String) :
    (m.index k).1 = (m.find k).getD default := by
  unfold StdMap.index
  cases h : m.find k <;> simp

/-! ## Scene Registry -/

theorem SceneDatabase.find_cloudCallback (db : SceneDatabase) (c : CloudCall) (n : String) :
    (db.cloudCallback c).clouds.find n =
      match c with
      | CloudCall.add msg => if msg.name = n then some msg.segment else db.clouds.find n
      | CloudCall.remove msg => if msg.data = n then none else db.clouds.find n := by
  cases c with
  | add msg => simp [cloudCallback, addPointCloud, StdMap.find_assign]
  | remove msg =>
    simp only [cloudCallback, removePointCloud]
    cases h : db.clouds.find msg.data with
    | some v => simp [StdMap.find_erase]
    | none =>
      by_cases hn : msg.data = n
      · subst hn; simp [h]
      · simp [hn]

theorem SceneDatabase.find_cloudCallbacks_untouched (calls : List CloudCall) (n : String) :
    ∀ db : SceneDatabase, (∀ c ∈ calls, c.name ≠ n) →
      (db.cloudCallbacks calls).clouds.find n = db.clouds.find n := by
  induction calls with
  | nil => intro db _; rfl
  | cons c t ih =>
    intro db h
    have hc := h c (List.mem_cons_self c t)
    have ht := ih (db.cloudCallback c) (fun c' hc' => h c' (List.mem_cons_of_mem c hc'))
    simp only [cloudCallbacks, List.foldl_cons] at ht ⊢
    rw [ht, find_cloudCallback]
    cases c <;> simp_all [CloudCall.name]

theorem SceneDatabase.find_cloudCallbacks_no_add (calls : List CloudCall) (n : String) :
    ∀ db : SceneDatabase, (∀ m, CloudCall.add m ∈ calls → m.name ≠ n) →
      db.clouds.find n = none → (db.cloudCallbacks calls).clouds.find n = none := by
  induction calls with
  | nil => intro db _ h; exact h
  | cons c t ih =>
    intro db h h0
    have ht := ih (db.cloudCallback c) (fun m hm => h m (List.mem_cons_of_mem c hm))
    simp only [cloudCallbacks, List.foldl_cons] at ht ⊢
    apply ht
    rw [find_cloudCallback]
    cases c with
    | add msg =>
      have := h msg (List.mem_cons_self _ t)
      simp [this, h0]
    | remove msg => simp [h0]

theorem SceneDatabase.cloudCallbacks_append (db : SceneDatabase) (pre : List CloudCall)
    (c : CloudCall) (post : List CloudCall) :
    db.cloudCallbacks (pre ++ c :: post) =
      ((db.cloudCallbacks pre).cloudCallback c).cloudCallbacks post := by
  simp [cloudCallbacks, List.foldl_append]

/-- C1: after any sequence of addPointCloud/removePointCloud calls on the empty registry,
getPointCloud reports success; it returns the cloud of an add for the name that no later add
or remove for the name follows, and the empty cloud when the name was never added or no add
follows a remove of it. -/
theorem getPointCloud_reflects_last_write (calls : List CloudCall) (n : String) :
    ((SceneDatabase.init.cloudCallbacks calls).getPointCloud n).1 = true ∧
    (∀ pre post msg, calls = pre ++ CloudCall.add msg :: post → msg.name = n →
      (∀ c ∈ post, c.name ≠ n) →
      ((SceneDatabase.init.cloudCallbacks calls).getPointCloud n).2.1 = msg.segment) ∧
    ((∀ msg, CloudCall.add msg ∈ calls → msg.name ≠ n) →
      ((SceneDatabase.init.cloudCallbacks calls).getPointCloud n).2.1 = {}) ∧
    (∀ pre post msg, calls = pre ++ CloudCall.remove msg :: post → msg.data = n →
      (∀ m, CloudCall.add m ∈ post → m.name ≠ n) →
      ((SceneDatabase.init.cloudCallbacks calls).getPointCloud n).2.1 = {}) := by
  refine ⟨rfl, ?_, ?_, ?_⟩
  · intro pre post msg hc hn hpost
    subst hc
    simp only [SceneDatabase.getPointCloud, StdMap.index_fst,
      SceneDatabase.cloudCallbacks_append]
    rw [SceneDatabase.find_cloudCallbacks_untouched post n _ hpost,
      SceneDatabase.find_cloudCallback]
    simp [hn]
  · intro h
    simp only [SceneDatabase.getPointCloud, StdMap.index_fst]
    rw [SceneDatabase.find_cloudCallbacks_no_add calls n SceneDatabase.init h rfl]
    rfl
  · intro pre post msg hc hn hpost
    subst hc
    simp only [SceneDatabase.getPointCloud, StdMap.index_fst,
      SceneDatabase.cloudCallbacks_append]
    rw [SceneDatabase.find_cloudCallbacks_no_add post n _ hpost]
    · rfl
    · rw [SceneDatabase.find_cloudCallback]
      simp [hn]

/-- C1 at a concrete call sequence: one part for each of the three cases. -/
theorem getPointCloud_reflects_last_write_witness :
    ((SceneDatabase.init.cloudCallbacks
        [CloudCall.add ⟨"cup", { height := 1, width := 2, data := [7] }⟩,
         CloudCall.remove ⟨"box"⟩]).getPointCloud "cup").2.1
      = { height := 1, width := 2, data := [7] } ∧
    ((SceneDatabase.init.cloudCallbacks
        [CloudCall.add ⟨"cup", { height := 1, width := 2, data := [7] }⟩,
         CloudCall.remove ⟨"box"⟩]).getPointCloud "toy").2.1 = {} ∧
    ((SceneDatabase.init.cloudCallbacks
        [CloudCall.add ⟨"cup", { height := 1, width := 2, data := [7] }⟩,
         CloudCall.remove ⟨"cup"⟩]).getPointCloud "cup").2.1 = {} :=
  ⟨(getPointCloud_reflects_last_write _ "cup").2.1 [] [CloudCall.remove ⟨"box"⟩]
      ⟨"cup", { height := 1, width := 2, data := [7] }⟩ rfl rfl
      (by simp [CloudCall.name]),
   (getPointCloud_reflects_last_write _ "toy").2.2.1 (by simp),
   (getPointCloud_reflects_last_write _ "cup").2.2.2
      [CloudCall.add ⟨"cup", { height := 1, width := 2, data := [7] }⟩] [] ⟨"cup"⟩ rfl rfl
      (by simp)⟩

/-- C2: removing a name that is not a key leaves the whole registry as it was; removing a
stored name leaves the other map alone, removes that one entry (the name is no longer a key
and the map has one entry less) and keeps every other entry. -/
theorem remove_absent_is_noop_present_removes_one (db : SceneDatabase) (name : String) :
    (db.clouds.find name = none → db.removePointCloud ⟨name⟩ = db) ∧
    (db.positions.find name = none → db.removePosition ⟨name⟩ = db) ∧
    (∀ v, db.clouds.find name = some v →
      (db.removePointCloud ⟨name⟩).positions = db.positions ∧
      (db.removePointCloud ⟨name⟩).clouds.find name = none ∧
      (db.removePointCloud ⟨name⟩).clouds.entries.length + 1 = db.clouds.entries.length ∧
      (∀ e, e ∈ (db.removePointCloud ⟨name⟩).clouds.entries ↔
        e ∈ db.clouds.entries ∧ e.1 ≠ name) ∧
      (∀ k, k ≠ name → (db.removePointCloud ⟨name⟩).clouds.find k = db.clouds.find k)) ∧
    (∀ v, db.positions.find name = some v →
      (db.removePosition ⟨name⟩).clouds = db.clouds ∧
      (db.removePosition ⟨name⟩).positions.find name = none ∧
      (db.removePosition ⟨name⟩).positions.entries.length + 1 = db.positions.entries.length ∧
      (∀ e, e ∈ (db.removePosition ⟨name⟩).positions.entries ↔
        e ∈ db.positions.entries ∧ e.1 ≠ name) ∧
      (∀ k, k ≠ name →
        (db.removePosition ⟨name⟩).positions.find k = db.positions.find k)) := by
  refine ⟨?_, ?_, ?_, ?_⟩
  · intro h
    simp [SceneDatabase.removePointCloud, h]
  · intro h
    simp [SceneDatabase.removePosition, h]
  · intro v h
    have e : db.removePointCloud ⟨name⟩ = { db with clouds := db.clouds.erase name } := by
      simp [SceneDatabase.removePointCloud, h]
    rw [e]
    refine ⟨rfl, ?_, ?_, ?_, ?_⟩
    · simp [StdMap.find_erase]
    · exact length_eraseEntry db.clouds.entries name v db.clouds.nodup h
    · intro e
      exact mem_eraseEntry db.clouds.entries name e
    · intro k hk
      have : ¬ name = k := fun e => hk e.symm
      simp [StdMap.find_erase, this]
  · intro v h
    have e : db.removePosition ⟨name⟩ = { db with positions := db.positions.erase name } := by
      simp [SceneDatabase.removePosition, h]
    rw [e]
    refine ⟨rfl, ?_, ?_, ?_, ?_⟩
    · simp [StdMap.find_erase]
    · exact length_eraseEntry db.positions.entries name v db.positions.nodup h
    · intro e
      exact mem_eraseEntry db.positions.entries name e
    · intro k hk
      have : ¬ name = k := fun e => hk e.symm
      simp [StdMap.find_erase, this]

/-- C2 at a concrete registry: an absent name and a stored name, for both maps. -/
theorem remove_absent_is_noop_present_removes_one_witness :
    SceneDatabase.sample.removePointCloud ⟨"toy"⟩ = SceneDatabase.sample ∧
    SceneDatabase.sample.removePosition ⟨"toy"⟩ = SceneDatabase.sample ∧
    (SceneDatabase.sample.removePointCloud ⟨"cup"⟩).clouds.find "cup" = none ∧
    (SceneDatabase.sample.removePosition ⟨"cup"⟩).positions.find "cup" = none :=
  ⟨(remove_absent_is_noop_present_removes_one SceneDatabase.sample "toy").1 rfl,
   (remove_absent_is_noop_present_removes_one SceneDatabase.sample "toy").2.1 rfl,
   ((remove_absent_is_noop_present_removes_one SceneDatabase.sample "cup").2.2.1
      { height := 1 } rfl).2.1,
   ((remove_absent_is_noop_present_removes_one SceneDatabase.sample "cup").2.2.2
      { x := 1, y := 2, z := 3 } rfl).2.1⟩

theorem SceneDatabase.find_positionCallback (db : SceneDatabase) (c : PositionCall)
    (n : String) :
    (db.positionCallback c).positions.find n =
      match c with
      | PositionCall.add msg => if msg.name = n then some msg.position else db.positions.find n
      | PositionCall.remove msg => if msg.data = n then none else db.positions.find n := by
  cases c with
  | add msg => simp [positionCallback, addPosition, StdMap.find_assign]
  | remove msg =>
    simp only [positionCallback, removePosition]
    cases h : db.positions.find msg.data with
    | some v => simp [StdMap.find_erase]
    | none =>
      by_cases hn : msg.data = n
      · subst hn; simp [h]
      · simp [hn]

theorem SceneDatabase.find_positionCallbacks_untouched (calls : List PositionCall)
    (n : String) :
    ∀ db : SceneDatabase, (∀ c ∈ calls, c.name ≠ n) →
      (db.positionCallbacks calls).positions.find n = db.positions.find n := by
  induction calls with
  | nil => intro db _; rfl
  | cons c t ih =>
    intro db h
    have hc := h c (List.mem_cons_self c t)
    have ht := ih (db.positionCallback c) (fun c' hc' => h c' (List.mem_cons_of_mem c hc'))
    simp only [positionCallbacks, List.foldl_cons] at ht ⊢
    rw [ht, find_positionCallback]
    cases c <;> simp_all [PositionCall.name]

theorem SceneDatabase.find_positionCallbacks_no_add (calls : List PositionCall)
    (n : String) :
    ∀ db : SceneDatabase, (∀ m, PositionCall.add m ∈ calls → m.name ≠ n) →
      db.positions.find n = none → (db.positionCallbacks calls).positions.find n = none := by
  induction calls with
  | nil => intro db _ h; exact h
  | cons c t ih =>
    intro db h h0
    have ht := ih (db.positionCallback c) (fun m hm => h m (List.mem_cons_of_mem c hm))
    simp only [positionCallbacks, List.foldl_cons] at ht ⊢
    apply ht
    rw [find_positionCallback]
    cases c with
    | add msg =>
      have := h msg (List.mem_cons_self _ t)
      simp [this, h0]
    | remove msg => simp [h0]

theorem SceneDatabase.positionCallbacks_append (db : SceneDatabase)
    (pre : List PositionCall) (c : PositionCall) (post : List PositionCall) :
    db.positionCallbacks (pre ++ c :: post) =
      ((db.positionCallbacks pre).positionCallback c).positionCallbacks post := by
  simp [positionCallbacks, List.foldl_append]

/-- C3: after any sequence of addPosition/removePosition calls on the empty registry,
getPosition returns the point of an add for the name that no later add or remove for the
name follows, and the point (0,0,0) when the name was never added or no add follows a
remove of it. -/
theorem getPosition_reflects_last_write (calls : List PositionCall) (n : String) :
    (∀ pre post msg, calls = pre ++ PositionCall.add msg :: post → msg.name = n →
      (∀ c ∈ post, c.name ≠ n) →
      ((SceneDatabase.init.positionCallbacks calls).getPosition n).2.1 = msg.position) ∧
    ((∀ msg, PositionCall.add msg ∈ calls → msg.name ≠ n) →
      ((SceneDatabase.init.positionCallbacks calls).getPosition n).2.1
        = { x := 0, y := 0, z := 0 }) ∧
    (∀ pre post msg, calls = pre ++ PositionCall.remove msg :: post → msg.data = n →
      (∀ m, PositionCall.add m ∈ post → m.name ≠ n) →
      ((SceneDatabase.init.positionCallbacks calls).getPosition n).2.1
        = { x := 0, y := 0, z := 0 }) := by
  refine ⟨?_, ?_, ?_⟩
  · intro pre post msg hc hn hpost
    subst hc
    simp only [SceneDatabase.getPosition, StdMap.index_fst,
      SceneDatabase.positionCallbacks_append]
    rw [SceneDatabase.find_positionCallbacks_untouched post n _ hpost,
      SceneDatabase.find_positionCallback]
    simp [hn]
  · intro h
    simp only [SceneDatabase.getPosition, StdMap.index_fst]
    rw [SceneDatabase.find_positionCallbacks_no_add calls n SceneDatabase.init h rfl]
    rfl
  · intro pre post msg hc hn hpost
    subst hc
    simp only [SceneDatabase.getPosition, StdMap.index_fst,
      SceneDatabase.positionCallbacks_append]
    rw [SceneDatabase.find_positionCallbacks_no_add post n _ hpost]
    · rfl
    · rw [SceneDatabase.find_positionCallback]
      simp [hn]

/-- C3 at a concrete call sequence: one part for each of the three cases. -/
theorem getPosition_reflects_last_write_witness :
    ((SceneDatabase.init.positionCallbacks
        [PositionCall.add ⟨"cup", { x := 1, y := 2, z := 3 }⟩,
         PositionCall.remove ⟨"box"⟩]).getPosition "cup").2.1
      = { x := 1, y := 2, z := 3 } ∧
    ((SceneDatabase.init.positionCallbacks
        [PositionCall.add ⟨"cup", { x := 1, y := 2, z := 3 }⟩,
         PositionCall.remove ⟨"box"⟩]).getPosition "toy").2.1
      = { x := 0, y := 0, z := 0 } ∧
    ((SceneDatabase.init.positionCallbacks
        [PositionCall.add ⟨"cup", { x := 1, y := 2, z := 3 }⟩,
         PositionCall.remove ⟨"cup"⟩]).getPosition "cup").2.1
      = { x := 0, y := 0, z := 0 } :=
  ⟨(getPosition_reflects_last_write _ "cup").1 [] [PositionCall.remove ⟨"box"⟩]
      ⟨"cup", { x := 1, y := 2, z := 3 }⟩ rfl rfl
      (by simp [PositionCall.name]),
   (getPosition_reflects_last_write _ "toy").2.1 (by simp),
   (getPosition_reflects_last_write _ "cup").2.2
      [PositionCall.add ⟨"cup", { x := 1, y := 2, z := 3 }⟩] [] ⟨"cup"⟩ rfl rfl
      (by simp)⟩

/-! ## Running blocks -/

@[simp] theorem Res.prepend_mk {σ α : Type} (t t' : List Event) (s : σ) (c : Ctl α) :
    Res.prepend t (⟨t', s, c⟩ : Res σ α) = ⟨t ++ t', s, c⟩ := rfl

@[simp] theorem Res.prepend_trace {σ α : Type} (t : List Event) (r : Res σ α) :
    (Res.prepend t r).trace = t ++ r.trace := rfl

@[simp] theorem Res.prepend_state {σ α : Type} (t : List Event) (r : Res σ α) :
    (Res.prepend t r).state = r.state := rfl

@[simp] theorem Res.prepend_ctl {σ α : Type} (t : List Event) (r : Res σ α) :
    (Res.prepend t r).ctl = r.ctl := rfl

@[simp] theorem Res.andThen_next {σ α β : Type} (t : List Event) (s : σ) (a : α)
    (k : α → σ → Res σ β) : Res.andThen ⟨t, s, Ctl.next a⟩ k = Res.prepend t (k a s) := rfl

@[simp] theorem Res.andThen_ret {σ α β : Type} (t : List Event) (s : σ)
    (k : α → σ → Res σ β) : Res.andThen (⟨t, s, Ctl.ret⟩ : Res σ α) k = ⟨t, s, Ctl.ret⟩ := rfl

@[simp] theorem Res.andThen_exit {σ α β : Type} (t : List Event) (s : σ) (code : Int)
    (k : α → σ → Res σ β) :
    Res.andThen (⟨t, s, Ctl.exit code⟩ : Res σ α) k = ⟨t, s, Ctl.exit code⟩ := rfl

@[simp] theorem Res.andThen_timeout {σ α β : Type} (t : List Event) (s : σ)
    (k : α → σ → Res σ β) :
    Res.andThen (⟨t, s, Ctl.timeout⟩ : Res σ α) k = ⟨t, s, Ctl.timeout⟩ := rfl

@[simp] theorem Res.andThen_undefined {σ α β : Type} (t : List Event) (s : σ)
    (k : α → σ → Res σ β) :
    Res.andThen (⟨t, s, Ctl.undefined⟩ : Res σ α) k = ⟨t, s, Ctl.undefined⟩ := rfl

@[simp] theorem Act.bind_apply {σ α β : Type} (m : Act σ α) (f : α → Act σ β) (env : Env)
    (s : σ) : (m >>= f) env s = (m env s).andThen (fun a s1 => f a env s1) := rfl

@[simp] theorem Act.bind_apply' {σ α β : Type} (m : Act σ α) (f : α → Act σ β) (env : Env)
    (s : σ) : Act.bind m f env s = (m env s).andThen (fun a s1 => f a env s1) := rfl

@[simp] theorem Act.pure_apply {σ α : Type} (a : α) (env : Env) (s : σ) :
    (Pure.pure a : Act σ α) env s = ⟨[], s, Ctl.next a⟩ := rfl

@[simp] theorem Act.pure_apply' {σ α : Type} (a : α) (env : Env) (s : σ) :
    (Act.pure a : Act σ α) env s = ⟨[], s, Ctl.next a⟩ := rfl

@[simp] theorem Act.emit_apply {σ : Type} (e : Event) (env : Env) (s : σ) :
    (Act.emit e : Act σ Unit) env s = ⟨[e], s, Ctl.next ()⟩ := rfl

@[simp] theorem Act.env_apply {σ : Type} (env : Env) (s : σ) :
    (Act.env : Act σ Env) env s = ⟨[], s, Ctl.next env⟩ := rfl

@[simp] theorem Act.get_apply {σ : Type} (env : Env) (s : σ) :
    (Act.get : Act σ σ) env s = ⟨[], s, Ctl.next s⟩ := rfl

@[simp] theorem Act.set_apply {σ : Type} (s' : σ) (env : Env) (s : σ) :
    (Act.set s' : Act σ Unit) env s = ⟨[], s', Ctl.next ()⟩ := rfl

@[simp] theorem Act.ret_apply {σ α : Type} (env : Env) (s : σ) :
    (Act.ret : Act σ α) env s = ⟨[], s, Ctl.ret⟩ := rfl

@[simp] theorem Act.exit_apply {σ α : Type} (code : Int) (env : Env) (s : σ) :
    (Act.exit code : Act σ α) env s = ⟨[], s, Ctl.exit code⟩ := rfl

@[simp] theorem Act.undefined_apply {σ α : Type} (env : Env) (s : σ) :
    (Act.undefined : Act σ α) env s = ⟨[], s, Ctl.undefined⟩ := rfl

@[simp] theorem Act.forEach_nil {σ α : Type} (body : α → Act σ Unit) (env : Env) (s : σ) :
    Act.forEach [] body env s = ⟨[], s, Ctl.next ()⟩ := rfl

@[simp] theorem Act.forEach_cons {σ α : Type} (a : α) (t : List α) (body : α → Act σ Unit)
    (env : Env) (s : σ) :
    Act.forEach (a :: t) body env s =
      (body a env s).andThen (fun _ s1 => Act.forEach t body env s1) := rfl

@[simp] theorem Act.forFold_nil {σ α β : Type} (b : β) (body : β → α → Act σ β) (env : Env)
    (s : σ) : Act.forFold [] b body env s = ⟨[], s, Ctl.next b⟩ := rfl

@[simp] theorem Act.forFold_cons {σ α β : Type} (a : α) (t : List α) (b : β)
    (body : β → α → Act σ β) (env : Env) (s : σ) :
    Act.forFold (a :: t) b body env s =
      (body b a env s).andThen (fun b1 s1 => Act.forFold t b1 body env s1) := rfl

@[simp] theorem RPPerceptionAction.publishFeedback_apply (action_id : Int) (status : String)
    (env : Env) (s : PerceptionState) :
    RPPerceptionAction.publishFeedback action_id status env s =
      ⟨[Event.feedback action_id status], s, Ctl.next ()⟩ := rfl

/-! ## Nearest box selection -/

theorem RPPerceptionAction.closestBoxStep_ok (env : Env) (s : PerceptionState) (id : Int)
    (origin : Point) (acc : Closest) (ci : String) (p : PoseStamped) (rest : List PoseStamped)
    (h : env.queryNamedPose (ci ++ "_location") = some (p :: rest)) :
    RPPerceptionAction.closestBoxStep id origin acc ci env s =
      ⟨[Event.queryNamedPose (ci ++ "_location")], s, Ctl.next (pickBox env origin acc ci)⟩ := by
  simp [RPPerceptionAction.closestBoxStep, h, pickBox, boxPose]
  split <;> simp

theorem SimulatedObservePDDLAction.sim_closestBoxStep_ok (env : Env) (s : SimulatedState)
    (id : Int) (origin : Point) (acc : Closest) (ci : String) (p : PoseStamped)
    (rest : List PoseStamped)
    (h : env.queryNamedPose (ci ++ "_location") = some (p :: rest)) :
    SimulatedObservePDDLAction.closestBoxStep id origin acc ci env s =
      ⟨[Event.queryNamedPose (ci ++ "_location")], s, Ctl.next (pickBox env origin acc ci)⟩ := by
  simp [SimulatedObservePDDLAction.closestBoxStep, h, pickBox, boxPose]
  split <;> simp

theorem RPPerceptionAction.forFold_closestBoxStep (env : Env) (s : PerceptionState)
    (id : Int) (origin : Point) (boxes : List String) :
    ∀ acc : Closest,
      (∀ b ∈ boxes, ∃ p rest, env.queryNamedPose (b ++ "_location") = some (p :: rest)) →
      Act.forFold boxes acc (RPPerceptionAction.closestBoxStep id origin) env s =
        ⟨boxes.map (fun b => Event.queryNamedPose (b ++ "_location")), s,
          Ctl.next (boxes.foldl (pickBox env origin) acc)⟩ := by
  induction boxes with
  | nil => intro acc _; rfl
  | cons b t ih =>
    intro acc h
    obtain ⟨p, rest, hp⟩ := h b (List.mem_cons_self b t)
    have ht := ih (pickBox env origin acc b) (fun b' hb' => h b' (List.mem_cons_of_mem b hb'))
    simp [RPPerceptionAction.closestBoxStep_ok env s id origin acc b p rest hp, ht]

theorem SimulatedObservePDDLAction.sim_forFold_closestBoxStep (env : Env) (s : SimulatedState)
    (id : Int) (origin : Point) (boxes : List String) :
    ∀ acc : Closest,
      (∀ b ∈ boxes, ∃ p rest, env.queryNamedPose (b ++ "_location") = some (p :: rest)) →
      Act.forFold boxes acc (SimulatedObservePDDLAction.closestBoxStep id origin) env s =
        ⟨boxes.map (fun b => Event.queryNamedPose (b ++ "_location")), s,
          Ctl.next (boxes.foldl (pickBox env origin) acc)⟩ := by
  induction boxes with
  | nil => intro acc _; rfl
  | cons b t ih =>
    intro acc h
    obtain ⟨p, rest, hp⟩ := h b (List.mem_cons_self b t)
    have ht := ih (pickBox env origin acc b) (fun b' hb' => h b' (List.mem_cons_of_mem b hb'))
    simp [SimulatedObservePDDLAction.sim_closestBoxStep_ok env s id origin acc b p rest hp, ht]

/-- The scan keeps the first box that is strictly closer than the starting bound and at
least as close as every box. -/
theorem foldl_pickBox_spec (env : Env) (origin : Point) (boxes : List String) :
    ∀ acc : Closest,
      (∀ b ∈ boxes, (boxes.foldl (pickBox env origin) acc).min_distance_from_robot
          ≤ boxDistance (boxPose env b) origin) ∧
      ((boxes.foldl (pickBox env origin) acc = acc ∧
          ∀ b ∈ boxes, acc.min_distance_from_robot ≤ boxDistance (boxPose env b) origin) ∨
        ∃ (i : Nat) (b : String), boxes[i]? = some b ∧
          boxes.foldl (pickBox env origin) acc =
            { closest_box := b, closest_box_pose := boxPose env b,
              min_distance_from_robot := boxDistance (boxPose env b) origin } ∧
          boxDistance (boxPose env b) origin < acc.min_distance_from_robot ∧
          ∀ (j : Nat) (b' : String), j < i → boxes[j]? = some b' →
            boxDistance (boxPose env b) origin < boxDistance (boxPose env b') origin) := by
  induction boxes with
  | nil => intro acc; simp
  | cons b t ih =>
    intro acc
    obtain ⟨hmin, hsel⟩ := ih (pickBox env origin acc b)
    simp only [List.foldl_cons]
    by_cases hlt : boxDistance (boxPose env b) origin < acc.min_distance_from_robot
    · have hpick : pickBox env origin acc b =
          { closest_box := b, closest_box_pose := boxPose env b,
            min_distance_from_robot := boxDistance (boxPose env b) origin } := by
        simp [pickBox, hlt]
      rcases hsel with ⟨heq, hall⟩ | ⟨i, b1, hi, heq, hlt1, hfirst⟩
      · refine ⟨?_, Or.inr ⟨0, b, by simp, by rw [heq, hpick], hlt, ?_⟩⟩
        · intro b' hb'
          rcases List.mem_cons.mp hb' with rfl | hb'
          · rw [heq, hpick]
          · exact hmin b' hb'
        · intro j b' hj
          exact absurd hj (Nat.not_lt_zero j)
      · rw [hpick] at hlt1
        simp only at hlt1
        refine ⟨?_, Or.inr ⟨i + 1, b1, by simpa using hi, heq, lt_trans hlt1 hlt, ?_⟩⟩
        · intro b' hb'
          rcases List.mem_cons.mp hb' with rfl | hb'
          · rw [heq]
            exact le_of_lt hlt1
          · exact hmin b' hb'
        · intro j b' hj hb'
          cases j with
          | zero =>
            simp only [List.getElem?_cons_zero, Option.some.injEq] at hb'
            subst hb'
            exact hlt1
          | succ j =>
            simp only [List.getElem?_cons_succ] at hb'
            exact hfirst j b' (Nat.lt_of_succ_lt_succ hj) hb'
    · have hpick : pickBox env origin acc b = acc := by
        simp [pickBox, hlt]
      rw [hpick] at hmin hsel ⊢
      rcases hsel with ⟨heq, hall⟩ | ⟨i, b1, hi, heq, hlt1, hfirst⟩
      · refine ⟨?_, Or.inl ⟨heq, ?_⟩⟩
        · intro b' hb'
          rcases List.mem_cons.mp hb' with rfl | hb'
          · rw [heq]
            exact not_lt.mp hlt
          · exact hmin b' hb'
        · intro b' hb'
          rcases List.mem_cons.mp hb' with rfl | hb'
          · exact not_lt.mp hlt
          · exact hall b' hb'
      · refine ⟨?_, Or.inr ⟨i + 1, b1, by simpa using hi, heq, hlt1, ?_⟩⟩
        · intro b' hb'
          rcases List.mem_cons.mp hb' with rfl | hb'
          · rw [heq]
            exact le_trans (le_of_lt hlt1) (not_lt.mp hlt)
          · exact hmin b' hb'
        · intro j b' hj hb'
          cases j with
          | zero =>
            simp only [List.getElem?_cons_zero, Option.some.injEq] at hb'
            subst hb'
            exact lt_of_lt_of_le hlt1 (not_lt.mp hlt)
          | succ j =>
            simp only [List.getElem?_cons_succ] at hb'
            exact hfirst j b' (Nat.lt_of_succ_lt_succ hj) hb'

theorem squaredDistance_nonneg (box_pose : PoseStamped) (origin : Point) :
    0 ≤ squaredDistance box_pose origin := by
  unfold squaredDistance
  nlinarith [mul_self_nonneg (box_pose.pose.position.x - origin.x),
    mul_self_nonneg (box_pose.pose.position.y - origin.y)]

/-- A box that is nearer in exact terms is not further away after the conversion to float. -/
theorem boxDistance_mono (p p' : PoseStamped) (origin : Point)
    (h : squaredDistance p origin ≤ squaredDistance p' origin) :
    boxDistance p origin ≤ boxDistance p' origin :=
  toFloat_mono (squaredDistance_nonneg p origin) h

theorem boxDistance_three_four : boxDistance (poseAt 3 4) {} = 25 := by
  have h : squaredDistance (poseAt 3 4) {} = 25 := by norm_num [squaredDistance, poseAt]
  rw [boxDistance, h, toFloat_twentyfive]

theorem boxDistance_one_zero : boxDistance (poseAt 1 0) {} = 1 := by
  have h : squaredDistance (poseAt 1 0) {} = 1 := by norm_num [squaredDistance, poseAt]
  rw [boxDistance, h, toFloat_one]

theorem boxDistance_zero_one : boxDistance (poseAt 0 1) {} = 1 := by
  have h : squaredDistance (poseAt 0 1) {} = 1 := by norm_num [squaredDistance, poseAt]
  rw [boxDistance, h, toFloat_one]

theorem boxDistance_zero_zero : boxDistance (poseAt 0 0) {} = 0 := by
  have h : squaredDistance (poseAt 0 0) {} = 0 := by norm_num [squaredDistance, poseAt]
  rw [boxDistance, h, toFloat_zero]

theorem boxDistance_far : boxDistance (poseAt (2 ^ 70) 0) {} = 2 ^ 128 := by
  have h : squaredDistance (poseAt (2 ^ 70) 0) {} = 2 ^ 140 := by
    norm_num [squaredDistance, poseAt]
  rw [boxDistance, h, toFloat_overflow (by norm_num)]

theorem boxDistance_near_one : boxDistance (poseAt (1 + 1 / 2 ^ 31) 0) {} = 1 := by
  have h : squaredDistance (poseAt (1 + 1 / 2 ^ 31) 0) {} =
      (1 + 1 / 2 ^ 31) * (1 + 1 / 2 ^ 31) := by
    norm_num [squaredDistance, poseAt]
  rw [boxDistance, h, toFloat_near_one]

@[simp] theorem feedbacks_nil : feedbacks [] = [] := rfl

@[simp] theorem feedbacks_append (t t' : List Event) :
    feedbacks (t ++ t') = feedbacks t ++ feedbacks t' := by
  simp [feedbacks]

@[simp] theorem feedbacks_cons (e : Event) (t : List Event) :
    feedbacks (e :: t) =
      (match e with
        | Event.feedback i status => [(i, status)]
        | _ => []) ++ feedbacks t := by
  cases e <;> rfl

@[simp] theorem updatesOf_nil : updatesOf [] = [] := rfl

@[simp] theorem updatesOf_append (t t' : List Event) :
    updatesOf (t ++ t') = updatesOf t ++ updatesOf t' := by
  simp [updatesOf]

@[simp] theorem updatesOf_cons (e : Event) (t : List Event) :
    updatesOf (e :: t) =
      (match e with
        | Event.updateKnowledge u k => [(u, k)]
        | _ => []) ++ updatesOf t := by
  cases e <;> rfl

@[simp] theorem recogniseGoalsOf_nil : recogniseGoalsOf [] = [] := rfl

@[simp] theorem recogniseGoalsOf_append (t t' : List Event) :
    recogniseGoalsOf (t ++ t') = recogniseGoalsOf t ++ recogniseGoalsOf t' := by
  simp [recogniseGoalsOf]

@[simp] theorem recogniseGoalsOf_cons (e : Event) (t : List Event) :
    recogniseGoalsOf (e :: t) =
      (match e with
        | Event.recogniseGoal g => [g]
        | _ => []) ++ recogniseGoalsOf t := by
  cases e <;> rfl

/-! ## Failing lookups -/

theorem RPPerceptionAction.forFold_closestBoxStep_fail (env : Env) (s : PerceptionState)
    (id : Int) (origin : Point) (boxes : List String) :
    ∀ acc : Closest,
      (∃ b ∈ boxes, env.queryNamedPose (b ++ "_location") = none ∨
        env.queryNamedPose (b ++ "_location") = some []) →
      ∃ t, Act.forFold boxes acc (RPPerceptionAction.closestBoxStep id origin) env s =
          ⟨t, s, Ctl.ret⟩ ∧
        feedbacks t = [(id, "action failed")] ∧ updatesOf t = [] ∧
        recogniseGoalsOf t = [] := by
  induction boxes with
  | nil => intro acc h; obtain ⟨b, hb, _⟩ := h; cases hb
  | cons b t ih =>
    intro acc h
    cases hq : env.queryNamedPose (b ++ "_location") with
    | none =>
      exact ⟨[Event.queryNamedPose (b ++ "_location"), Event.feedback id "action failed"],
        by simp [RPPerceptionAction.closestBoxStep, hq], by simp, by simp, by simp⟩
    | some results =>
      cases results with
      | nil =>
        exact ⟨[Event.queryNamedPose (b ++ "_location"), Event.feedback id "action failed"],
          by simp [RPPerceptionAction.closestBoxStep, hq], by simp, by simp, by simp⟩
      | cons p rest =>
        have htail : ∃ b' ∈ t, env.queryNamedPose (b' ++ "_location") = none ∨
            env.queryNamedPose (b' ++ "_location") = some [] := by
          obtain ⟨b', hb', hbad⟩ := h
          rcases List.mem_cons.mp hb' with rfl | hb'
          · rw [hq] at hbad
            simp at hbad
          · exact ⟨b', hb', hbad⟩
        obtain ⟨t', ht', hf, hu, hg⟩ := ih (pickBox env origin acc b) htail
        exact ⟨Event.queryNamedPose (b ++ "_location") :: t',
          by simp [RPPerceptionAction.closestBoxStep_ok env s id origin acc b p rest hq, ht'],
          by simp [hf], by simp [hu], by simp [hg]⟩

theorem SimulatedObservePDDLAction.sim_forFold_closestBoxStep_fail (env : Env)
    (s : SimulatedState) (id : Int) (origin : Point) (boxes : List String) :
    ∀ acc : Closest,
      (∃ b ∈ boxes, env.queryNamedPose (b ++ "_location") = none ∨
        env.queryNamedPose (b ++ "_location") = some []) →
      ∃ t, Act.forFold boxes acc (SimulatedObservePDDLAction.closestBoxStep id origin) env s =
          ⟨t, s, Ctl.ret⟩ ∧
        feedbacks t = [(id, "action failed")] ∧ updatesOf t = [] ∧
        recogniseGoalsOf t = [] := by
  induction boxes with
  | nil => intro acc h; obtain ⟨b, hb, _⟩ := h; cases hb
  | cons b t ih =>
    intro acc h
    cases hq : env.queryNamedPose (b ++ "_location") with
    | none =>
      exact ⟨[Event.queryNamedPose (b ++ "_location"), Event.feedback id "action failed"],
        by simp [SimulatedObservePDDLAction.closestBoxStep, hq], by simp, by simp, by simp⟩
    | some results =>
      cases results with
      | nil =>
        exact ⟨[Event.queryNamedPose (b ++ "_location"), Event.feedback id "action failed"],
          by simp [SimulatedObservePDDLAction.closestBoxStep, hq], by simp, by simp, by simp⟩
      | cons p rest =>
        have htail : ∃ b' ∈ t, env.queryNamedPose (b' ++ "_location") = none ∨
            env.queryNamedPose (b' ++ "_location") = some [] := by
          obtain ⟨b', hb', hbad⟩ := h
          rcases List.mem_cons.mp hb' with rfl | hb'
          · rw [hq] at hbad
            simp at hbad
          · exact ⟨b', hb', hbad⟩
        obtain ⟨t', ht', hf, hu, hg⟩ := ih (pickBox env origin acc b) htail
        exact ⟨Event.queryNamedPose (b ++ "_location") :: t',
          by simp [SimulatedObservePDDLAction.sim_closestBoxStep_ok env s id origin acc b p rest hq,
            ht'],
          by simp [hf], by simp [hu], by simp [hg]⟩

/-- C7: in examine_object and in observe-toy_at_right_box, when the transform lookup fails, or
the box instance query fails, or the location lookup of some listed box fails or returns no
record, the feedback is exactly "action enabled" then "action failed" for the action, no
goal is sent to the recognizer and no knowledge base update is issued. -/
theorem lookup_failure_aborts (env : Env) (s : PerceptionState) (s' : SimulatedState)
    (msg msg' : ActionDispatch)
    (hname : SimulatedObservePDDLAction.normalise msg'.name = "observe-toy_at_right_box")
    (hfail : env.lookupTransform = none ∨ env.getInstances "box" = none ∨
      ∃ boxes, env.getInstances "box" = some boxes ∧
        ∃ b ∈ boxes, env.queryNamedPose (b ++ "_location") = none ∨
          env.queryNamedPose (b ++ "_location") = some []) :
    (feedbacks (RPPerceptionAction.examineObject msg env s).trace =
        [(msg.action_id, "action enabled"), (msg.action_id, "action failed")] ∧
      recogniseGoalsOf (RPPerceptionAction.examineObject msg env s).trace = [] ∧
      updatesOf (RPPerceptionAction.examineObject msg env s).trace = []) ∧
    (feedbacks (SimulatedObservePDDLAction.dispatchCallback msg' env s').trace =
        [(msg'.action_id, "action enabled"), (msg'.action_id, "action failed")] ∧
      recogniseGoalsOf (SimulatedObservePDDLAction.dispatchCallback msg' env s').trace = [] ∧
      updatesOf (SimulatedObservePDDLAction.dispatchCallback msg' env s').trace = []) := by
  cases hT : env.lookupTransform with
  | none =>
    simp [RPPerceptionAction.examineObject, SimulatedObservePDDLAction.dispatchCallback,
      SimulatedObservePDDLAction.toyAtRightBox, hname, hT]
  | some origin =>
    cases hI : env.getInstances "box" with
    | none =>
      simp [RPPerceptionAction.examineObject, SimulatedObservePDDLAction.dispatchCallback,
        SimulatedObservePDDLAction.toyAtRightBox, hname, hT, hI]
    | some boxes =>
      have hbad : ∃ b ∈ boxes, env.queryNamedPose (b ++ "_location") = none ∨
          env.queryNamedPose (b ++ "_location") = some [] := by
        rcases hfail with h | h | ⟨boxes', h, hb⟩
        · rw [hT] at h; cases h
        · rw [hI] at h; cases h
        · rw [hI] at h
          cases h
          exact hb
      obtain ⟨t, ht, hf, hu, hg⟩ :=
        RPPerceptionAction.forFold_closestBoxStep_fail env s msg.action_id origin boxes {} hbad
      obtain ⟨t', ht', hf', hu', hg'⟩ :=
        SimulatedObservePDDLAction.sim_forFold_closestBoxStep_fail env s' msg'.action_id origin
          boxes {} hbad
      simp [RPPerceptionAction.examineObject, SimulatedObservePDDLAction.dispatchCallback,
        SimulatedObservePDDLAction.toyAtRightBox, hname, hT, hI,
        RPPerceptionAction.closestBoxLoop, SimulatedObservePDDLAction.closestBoxLoop,
        ht, ht', hf, hu, hg, hf', hu', hg']

/-- C7 at a box list whose second box has no stored location, although the first box is
stored and nearer. -/
theorem lookup_failure_aborts_witness :
    (feedbacks (RPPerceptionAction.examineObject ⟨7, "examine_object", []⟩ Env.missingBox
        PerceptionState.init).trace = [(7, "action enabled"), (7, "action failed")] ∧
      recogniseGoalsOf (RPPerceptionAction.examineObject ⟨7, "examine_object", []⟩
        Env.missingBox PerceptionState.init).trace = [] ∧
      updatesOf (RPPerceptionAction.examineObject ⟨7, "examine_object", []⟩ Env.missingBox
        PerceptionState.init).trace = []) ∧
    (feedbacks (SimulatedObservePDDLAction.dispatchCallback
        ⟨8, "observe-toy_at_right_box", []⟩ Env.missingBox
        (SimulatedObservePDDLAction.init none)).trace
        = [(8, "action enabled"), (8, "action failed")] ∧
      recogniseGoalsOf (SimulatedObservePDDLAction.dispatchCallback
        ⟨8, "observe-toy_at_right_box", []⟩ Env.missingBox
        (SimulatedObservePDDLAction.init none)).trace = [] ∧
      updatesOf (SimulatedObservePDDLAction.dispatchCallback
        ⟨8, "observe-toy_at_right_box", []⟩ Env.missingBox
        (SimulatedObservePDDLAction.init none)).trace = []) :=
  lookup_failure_aborts Env.missingBox PerceptionState.init
    (SimulatedObservePDDLAction.init none) ⟨7, "examine_object", []⟩
    ⟨8, "observe-toy_at_right_box", []⟩ (by decide)
    (Or.inr (Or.inr ⟨["box1", "box2"], rfl, "box2", by simp, Or.inl rfl⟩))

/-! ## Missing parameters -/

theorem foldl_key_absent {β : Type} (key : String) (f : β → KeyValue → β)
    (hf : ∀ acc p, p.key ≠ key → f acc p = acc) :
    ∀ (parameters : List KeyValue) (acc : β), (∀ p ∈ parameters, p.key ≠ key) →
      parameters.foldl f acc = acc := by
  intro parameters
  induction parameters with
  | nil => intro acc _; rfl
  | cons p t ih =>
    intro acc h
    simp only [List.foldl_cons]
    rw [hf acc p (h p (List.mem_cons_self p t))]
    exact ih acc (fun q hq => h q (List.mem_cons_of_mem p hq))

theorem RPPerceptionAction.exploreParams_absent (parameters : List KeyValue)
    (h : ∀ p ∈ parameters, p.key ≠ "wp") :
    RPPerceptionAction.exploreParams parameters = ("", false) := by
  unfold RPPerceptionAction.exploreParams
  apply foldl_key_absent "wp"
  · intro acc p hp
    simp [hp]
  · exact h

theorem RPPerceptionAction.lookAtParams_absent (parameters : List KeyValue)
    (h : ∀ p ∈ parameters, p.key ≠ "o") :
    RPPerceptionAction.lookAtParams parameters = ("", false) := by
  unfold RPPerceptionAction.lookAtParams
  apply foldl_key_absent "o"
  · intro acc p hp
    simp [hp]
  · exact h

theorem RPPerceptionAction.inHandParams_absent (parameters : List KeyValue)
    (h : ∀ p ∈ parameters, p.key ≠ "o") :
    RPPerceptionAction.inHandParams parameters = "" := by
  unfold RPPerceptionAction.inHandParams
  apply foldl_key_absent "o"
  · intro acc p hp
    simp [hp]
  · exact h

theorem RPPerceptionAction.examineParams_absent (parameters : List KeyValue) :
    ∀ acc : RPPerceptionAction.ExamineParams, (∀ p ∈ parameters, p.key ≠ "o") →
      (parameters.foldl
        (fun (acc : RPPerceptionAction.ExamineParams) p =>
          let acc1 := if p.key = "view" then { acc with wpID := p.value } else acc
          let acc2 := if p.key = "from" then { acc1 with fromID := p.value } else acc1
          if p.key = "o" then { acc2 with objectID := p.value, foundObject := true } else acc2)
        acc).foundObject = acc.foundObject := by
  induction parameters with
  | nil => intro acc _; rfl
  | cons p t ih =>
    intro acc h
    simp only [List.foldl_cons]
    rw [ih _ (fun q hq => h q (List.mem_cons_of_mem p hq))]
    have hp := h p (List.mem_cons_self p t)
    simp only [hp, if_false]
    split <;> split <;> rfl

/-- C8: a dispatch event without a pair for the required key ("wp" for explore_waypoint, "o"
for look_at_object, observe-classifiable_from and examine_object_in_hand) makes the handler
return at once: no feedback, no collaborator call, no change of the node. -/
theorem missing_parameter_is_silent (env : Env) (s : PerceptionState) (fuel : Nat)
    (msg : ActionDispatch) :
    ((∀ p ∈ msg.parameters, p.key ≠ "wp") →
      RPPerceptionAction.exploreAction msg env s = ⟨[], s, Ctl.ret⟩) ∧
    ((∀ p ∈ msg.parameters, p.key ≠ "o") →
      RPPerceptionAction.lookAtObject msg env s = ⟨[], s, Ctl.ret⟩ ∧
      RPPerceptionAction.examineAction msg env s = ⟨[], s, Ctl.ret⟩ ∧
      RPPerceptionAction.examineObjectInHandAction fuel msg env s = ⟨[], s, Ctl.ret⟩) := by
  refine ⟨?_, ?_⟩
  · intro h
    simp [RPPerceptionAction.exploreAction, RPPerceptionAction.exploreParams_absent _ h]
  · intro h
    refine ⟨?_, ?_, ?_⟩
    · simp [RPPerceptionAction.lookAtObject, RPPerceptionAction.lookAtParams_absent _ h]
    · have hp : (RPPerceptionAction.examineParams msg.parameters).foundObject = false :=
        RPPerceptionAction.examineParams_absent msg.parameters {} h
      simp [RPPerceptionAction.examineAction, hp]
    · simp [RPPerceptionAction.examineObjectInHandAction,
        RPPerceptionAction.inHandParams_absent _ h]

/-- C8 at events that carry only another key. -/
theorem missing_parameter_is_silent_witness :
    RPPerceptionAction.exploreAction ⟨7, "explore_waypoint", [⟨"o", "cup1"⟩]⟩ Env.threeBoxes
      PerceptionState.init = ⟨[], PerceptionState.init, Ctl.ret⟩ ∧
    (RPPerceptionAction.lookAtObject ⟨7, "look_at_object", [⟨"wp", "wp3"⟩]⟩ Env.threeBoxes
        PerceptionState.init = ⟨[], PerceptionState.init, Ctl.ret⟩ ∧
      RPPerceptionAction.examineAction ⟨7, "look_at_object", [⟨"wp", "wp3"⟩]⟩ Env.threeBoxes
        PerceptionState.init = ⟨[], PerceptionState.init, Ctl.ret⟩ ∧
      RPPerceptionAction.examineObjectInHandAction 5 ⟨7, "look_at_object", [⟨"wp", "wp3"⟩]⟩
        Env.threeBoxes PerceptionState.init = ⟨[], PerceptionState.init, Ctl.ret⟩) :=
  ⟨(missing_parameter_is_silent Env.threeBoxes PerceptionState.init 5
      ⟨7, "explore_waypoint", [⟨"o", "cup1"⟩]⟩).1 (by simp),
   (missing_parameter_is_silent Env.threeBoxes PerceptionState.init 5
      ⟨7, "look_at_object", [⟨"wp", "wp3"⟩]⟩).2 (by simp)⟩

/-! ## Adding objects -/

theorem RPPerceptionAction.updateObject_apply (env : Env) (s : PerceptionState)
    (object : SceneObject) (newWaypoint : String) :
    RPPerceptionAction.updateObject object newWaypoint env s =
      ⟨(objectUpdates object newWaypoint).map (fun u => Event.updateKnowledge u.1 u.2) ++
        [Event.insertNamedPose newWaypoint { header := object.header, pose := object.pose },
         Event.insertNamedObject object.id object],
       afterUpdateObject env s object newWaypoint, Ctl.next ()⟩ := by
  simp [RPPerceptionAction.updateObject, objectUpdates, afterUpdateObject]

theorem RPPerceptionAction.addObject_apply (env : Env) (s : PerceptionState)
    (object : SceneObject) :
    RPPerceptionAction.addObject object env s =
      ⟨(objectUpdates object ("waypoint_" ++ object.id)).map
          (fun u => Event.updateKnowledge u.1 u.2) ++
        [Event.insertNamedPose ("waypoint_" ++ object.id)
          { header := object.header, pose := object.pose },
         Event.insertNamedObject object.id object],
       afterUpdateObject env s object ("waypoint_" ++ object.id), Ctl.next ()⟩ := by
  simp [RPPerceptionAction.addObject, RPPerceptionAction.updateObject_apply]

/-- A loop that adds objects runs to its end; it publishes no feedback and sends no goal. -/
theorem RPPerceptionAction.forEach_addObject (env : Env) (f : SceneObject → SceneObject)
    (l : List SceneObject) :
    ∀ s : PerceptionState, ∃ t s1,
      Act.forEach l (fun ci => RPPerceptionAction.addObject (f ci)) env s
        = ⟨t, s1, Ctl.next ()⟩ ∧
      feedbacks t = [] ∧ recogniseGoalsOf t = [] := by
  induction l with
  | nil => intro s; exact ⟨[], s, rfl, rfl, rfl⟩
  | cons a t ih =>
    intro s
    obtain ⟨t', s1, h, hf, hg⟩ :=
      ih (afterUpdateObject env s (f a) ("waypoint_" ++ (f a).id))
    refine ⟨(objectUpdates (f a) ("waypoint_" ++ (f a).id)).map
          (fun u => Event.updateKnowledge u.1 u.2) ++
        [Event.insertNamedPose ("waypoint_" ++ (f a).id)
          { header := (f a).header, pose := (f a).pose },
         Event.insertNamedObject (f a).id (f a)] ++ t', s1, ?_, ?_, ?_⟩
    · simp only [Act.forEach_cons, RPPerceptionAction.addObject_apply, Res.andThen_next, h,
        Res.prepend_mk]
    · simp [objectUpdates, hf]
    · simp [objectUpdates, hg]

/-- C6, the code at an empty box list: once the robot is located and the knowledge base
lists no box, examine_object still sends one goal to the recognizer, for the default
constructed pose, and the action is reported achieved whenever the recognizer succeeds
with an object. -/
theorem examineObject_empty_box_list_sends_goal (env : Env) (s : PerceptionState)
    (msg : ActionDispatch) (origin : Point)
    (hT : env.lookupTransform = some origin) (hI : env.getInstances "box" = some []) :
    recogniseGoalsOf (RPPerceptionAction.examineObject msg env s).trace =
      [{ look_for_object := LookMode.EXPLORE, look_at_pose := {} }] ∧
    (RPPerceptionAction.goalSuccess
        (env.recognise { look_for_object := LookMode.EXPLORE, look_at_pose := {} }).1
        (env.recognise { look_for_object := LookMode.EXPLORE, look_at_pose := {} }).2 = true →
      feedbacks (RPPerceptionAction.examineObject msg env s).trace =
        [(msg.action_id, "action enabled"), (msg.action_id, "action achieved")]) := by
  rcases hr : env.recognise { look_for_object := LookMode.EXPLORE, look_at_pose := {} }
    with ⟨state, result⟩
  obtain ⟨t, s1, h, hf, hg⟩ := RPPerceptionAction.forEach_addObject env
    (fun ci => { ci with id := ci.category }) result.objects_added s
  by_cases hs : RPPerceptionAction.goalSuccess state result = true
  · simp [RPPerceptionAction.examineObject, RPPerceptionAction.closestBoxLoop, hT, hI, hr,
      hs, h, hf, hg]
  · by_cases hst : state = GoalState.SUCCEEDED
    · subst hst
      simp [RPPerceptionAction.examineObject, RPPerceptionAction.closestBoxLoop, hT, hI, hr,
        hs]
    · simp [RPPerceptionAction.examineObject, RPPerceptionAction.closestBoxLoop, hT, hI, hr,
        hs, hst]

/-- C6 at a knowledge base without boxes and a recognizer that reports one object. -/
theorem examineObject_empty_box_list_sends_goal_witness :
    recogniseGoalsOf (RPPerceptionAction.examineObject ⟨7, "examine_object", []⟩ Env.noBoxes
        PerceptionState.init).trace =
      [{ look_for_object := LookMode.EXPLORE, look_at_pose := {} }] ∧
    feedbacks (RPPerceptionAction.examineObject ⟨7, "examine_object", []⟩ Env.noBoxes
        PerceptionState.init).trace = [(7, "action enabled"), (7, "action achieved")] :=
  ⟨(examineObject_empty_box_list_sends_goal Env.noBoxes PerceptionState.init
      ⟨7, "examine_object", []⟩ {} rfl rfl).1,
   (examineObject_empty_box_list_sends_goal Env.noBoxes PerceptionState.init
      ⟨7, "examine_object", []⟩ {} rfl rfl).2 (by decide)⟩

/-! ## Scenario A -/

/-- C10: dispatching explore_waypoint with the parameter wp = w while the detection service
reports exactly one added object yields the feedback "action enabled", "action achieved" for
the action, exactly one update for an instance of type "object", an ADD named by the
object's id, and exactly one update of the fact "explored", an ADD of positive polarity with
the argument wp = w. -/
theorem explore_one_added_object (a : Int) (w : String) (so : SceneObject) (env : Env)
    (s : PerceptionState) (fuel : Nat)
    (hfd : env.findDynamicObjects.2 = { dynamic_objects_added := [so] }) :
    (RPPerceptionAction.dispatchCallback fuel ⟨a, "explore_waypoint", [⟨"wp", w⟩]⟩ env s).trace =
      [Event.feedback a "action enabled", Event.findDynamicObjects] ++
      (objectUpdates so ("waypoint_" ++ so.id)).map (fun u => Event.updateKnowledge u.1 u.2) ++
      [Event.insertNamedPose ("waypoint_" ++ so.id) { header := so.header, pose := so.pose },
       Event.insertNamedObject so.id so,
       Event.updateKnowledge UpdateType.ADD_KNOWLEDGE
        { knowledge_type := KnowledgeType.FACT, attribute_name := "explored",
          values := [⟨"wp", w⟩], is_negative := false },
       Event.feedback a "action achieved"] ∧
    feedbacks
      (RPPerceptionAction.dispatchCallback fuel ⟨a, "explore_waypoint", [⟨"wp", w⟩]⟩ env s).trace =
      [(a, "action enabled"), (a, "action achieved")] ∧
    instanceUpdates "object"
      (RPPerceptionAction.dispatchCallback fuel ⟨a, "explore_waypoint", [⟨"wp", w⟩]⟩ env s).trace =
      [(UpdateType.ADD_KNOWLEDGE,
        { knowledge_type := KnowledgeType.INSTANCE, instance_type := "object",
          instance_name := so.id })] ∧
    factUpdates "explored"
      (RPPerceptionAction.dispatchCallback fuel ⟨a, "explore_waypoint", [⟨"wp", w⟩]⟩ env s).trace =
      [(UpdateType.ADD_KNOWLEDGE,
        { knowledge_type := KnowledgeType.FACT, attribute_name := "explored",
          values := [⟨"wp", w⟩], is_negative := false })] := by
  have htrace :
      (RPPerceptionAction.dispatchCallback fuel ⟨a, "explore_waypoint", [⟨"wp", w⟩]⟩ env
        s).trace =
      [Event.feedback a "action enabled", Event.findDynamicObjects] ++
      (objectUpdates so ("waypoint_" ++ so.id)).map (fun u => Event.updateKnowledge u.1 u.2) ++
      [Event.insertNamedPose ("waypoint_" ++ so.id) { header := so.header, pose := so.pose },
       Event.insertNamedObject so.id so,
       Event.updateKnowledge UpdateType.ADD_KNOWLEDGE
        { knowledge_type := KnowledgeType.FACT, attribute_name := "explored",
          values := [⟨"wp", w⟩], is_negative := false },
       Event.feedback a "action achieved"] := by
    simp [RPPerceptionAction.dispatchCallback, RPPerceptionAction.exploreAction,
      RPPerceptionAction.exploreParams, hfd, Act.call, RPPerceptionAction.addObject_apply]
  refine ⟨htrace, ?_, ?_, ?_⟩
  · rw [htrace]
    simp [objectUpdates]
  · rw [htrace]
    simp [instanceUpdates, objectUpdates]
  · rw [htrace]
    simp [factUpdates, objectUpdates]

/-- C10 at action 7, waypoint "wp3" and the detected object "obj1". -/
theorem explore_one_added_object_witness :
    feedbacks
      (RPPerceptionAction.dispatchCallback 0 ⟨7, "explore_waypoint", [⟨"wp", "wp3"⟩]⟩
        Env.oneAdded PerceptionState.init).trace =
      [(7, "action enabled"), (7, "action achieved")] ∧
    instanceUpdates "object"
      (RPPerceptionAction.dispatchCallback 0 ⟨7, "explore_waypoint", [⟨"wp", "wp3"⟩]⟩
        Env.oneAdded PerceptionState.init).trace =
      [(UpdateType.ADD_KNOWLEDGE,
        { knowledge_type := KnowledgeType.INSTANCE, instance_type := "object",
          instance_name := "obj1" })] ∧
    factUpdates "explored"
      (RPPerceptionAction.dispatchCallback 0 ⟨7, "explore_waypoint", [⟨"wp", "wp3"⟩]⟩
        Env.oneAdded PerceptionState.init).trace =
      [(UpdateType.ADD_KNOWLEDGE,
        { knowledge_type := KnowledgeType.FACT, attribute_name := "explored",
          values := [⟨"wp", "wp3"⟩], is_negative := false })] :=
  (explore_one_added_object 7 "wp3" { id := "obj1" } Env.oneAdded PerceptionState.init 0
    rfl).2

/-! ## Blocks that make only certain calls -/

theorem factUpdates_nil (n : String) : factUpdates n [] = [] := rfl

theorem factUpdates_append (n : String) (t t' : List Event) :
    factUpdates n (t ++ t') = factUpdates n t ++ factUpdates n t' := by
  simp [factUpdates]

theorem factUpdates_cons (n : String) (e : Event) (t : List Event) :
    factUpdates n (e :: t) =
      (match e with
        | Event.updateKnowledge u k =>
          if k.knowledge_type = KnowledgeType.FACT ∧ k.attribute_name = n then [(u, k)] else []
        | _ => []) ++ factUpdates n t := by
  cases e <;> simp [factUpdates, List.filter_cons]
  split <;> simp

theorem factUpdates_eq_nil (n : String) (t : List Event)
    (h : ∀ e ∈ t, isFactUpdate n e = false) : factUpdates n t = [] := by
  induction t with
  | nil => rfl
  | cons e t ih =>
    rw [factUpdates_cons, ih (fun e' he' => h e' (List.mem_cons_of_mem e he'))]
    have he := h e (List.mem_cons_self e t)
    cases e <;> simp_all [isFactUpdate]

theorem Act.quiet_pure {σ α : Type} (P : Event → Prop) (a : α) :
    Act.Quiet P (Pure.pure a : Act σ α) := by
  intro env s e he
  simp at he

theorem Act.quiet_pure' {σ α : Type} (P : Event → Prop) (a : α) :
    Act.Quiet P (Act.pure a : Act σ α) := by
  intro env s e he
  simp at he

theorem Act.quiet_ret {σ α : Type} (P : Event → Prop) : Act.Quiet P (Act.ret : Act σ α) := by
  intro env s e he
  simp at he

theorem Act.quiet_exit {σ α : Type} (P : Event → Prop) (code : Int) :
    Act.Quiet P (Act.exit code : Act σ α) := by
  intro env s e he
  simp at he

theorem Act.quiet_undefined {σ α : Type} (P : Event → Prop) :
    Act.Quiet P (Act.undefined : Act σ α) := by
  intro env s e he
  simp at he

theorem Act.quiet_env {σ : Type} (P : Event → Prop) : Act.Quiet P (Act.env : Act σ Env) := by
  intro env s e he
  simp at he

theorem Act.quiet_get {σ : Type} (P : Event → Prop) : Act.Quiet P (Act.get : Act σ σ) := by
  intro env s e he
  simp at he

theorem Act.quiet_set {σ : Type} (P : Event → Prop) (s' : σ) :
    Act.Quiet P (Act.set s' : Act σ Unit) := by
  intro env s e he
  simp at he

theorem Act.quiet_emit {σ : Type} (P : Event → Prop) (e : Event) (h : P e) :
    Act.Quiet P (Act.emit e : Act σ Unit) := by
  intro env s e' he
  simp only [Act.emit_apply, List.mem_singleton] at he
  subst he
  exact h

theorem Res.mem_andThen {σ α β : Type} (r : Res σ α) (k : α → σ → Res σ β) (e : Event)
    (he : e ∈ (r.andThen k).trace) : e ∈ r.trace ∨ ∃ a s, e ∈ (k a s).trace := by
  obtain ⟨t, s, c⟩ := r
  cases c with
  | next a =>
    simp only [Res.andThen_next, Res.prepend_trace, List.mem_append] at he
    rcases he with he | he
    · exact Or.inl he
    · exact Or.inr ⟨a, s, he⟩
  | ret => exact Or.inl he
  | exit code => exact Or.inl he
  | timeout => exact Or.inl he
  | undefined => exact Or.inl he

theorem Act.quiet_bind {σ α β : Type} (P : Event → Prop) (m : Act σ α) (f : α → Act σ β)
    (hm : Act.Quiet P m) (hf : ∀ a, Act.Quiet P (f a)) : Act.Quiet P (m >>= f) := by
  intro env s e he
  rw [Act.bind_apply] at he
  rcases Res.mem_andThen _ _ e he with h | ⟨a, s1, h⟩
  · exact hm env s e h
  · exact hf a env s1 e h

theorem Act.quiet_call {σ : Type} (P : Event → Prop) (m : Act σ Unit)
    (hm : Act.Quiet P m) : Act.Quiet P (Act.call m) := by
  intro env s e he
  have ht : (Act.call m env s).trace = (m env s).trace := by
    unfold Act.call
    split <;> rfl
  rw [ht] at he
  exact hm env s e he

theorem Act.quiet_forEach {σ α : Type} (P : Event → Prop) (body : α → Act σ Unit)
    (h : ∀ a, Act.Quiet P (body a)) (l : List α) : Act.Quiet P (Act.forEach l body) := by
  induction l with
  | nil =>
    intro env s e he
    simp at he
  | cons a t ih =>
    intro env s e he
    rw [Act.forEach_cons] at he
    rcases Res.mem_andThen _ _ e he with h1 | ⟨_, s1, h1⟩
    · exact h a env s e h1
    · exact ih env s1 e h1

theorem Act.quiet_forFold {σ α β : Type} (P : Event → Prop) (body : β → α → Act σ β)
    (h : ∀ b a, Act.Quiet P (body b a)) (l : List α) :
    ∀ b, Act.Quiet P (Act.forFold l b body) := by
  induction l with
  | nil =>
    intro b env s e he
    simp at he
  | cons a t ih =>
    intro b env s e he
    rw [Act.forFold_cons] at he
    rcases Res.mem_andThen _ _ e he with h1 | ⟨b1, s1, h1⟩
    · exact h b a env s e h1
    · exact ih b1 env s1 e h1

theorem Act.quiet_ite {σ α : Type} (P : Event → Prop) (c : Prop) [Decidable c]
    (m m' : Act σ α) (hm : Act.Quiet P m) (hm' : Act.Quiet P m') :
    Act.Quiet P (if c then m else m') := by
  split
  · exact hm
  · exact hm'

theorem RPPerceptionAction.quiet_publishFeedback (P : Event → Prop) (id : Int)
    (status : String) (h : P (Event.feedback id status)) :
    Act.Quiet P (RPPerceptionAction.publishFeedback id status) :=
  Act.quiet_emit P _ h

theorem RPPerceptionAction.quiet_updateObject (n : String) (hn : n ≠ "object_at")
    (object : SceneObject) (w : String) :
    Act.Quiet (fun e => isFactUpdate n e = false)
      (RPPerceptionAction.updateObject object w) := by
  intro env s e he
  have hn' : ¬ "object_at" = n := fun h => hn h.symm
  rw [RPPerceptionAction.updateObject_apply] at he
  simp only [objectUpdates, List.map_cons, List.map_nil, List.mem_append, List.mem_cons,
    List.mem_singleton, List.not_mem_nil, or_false] at he
  rcases he with (rfl | rfl | rfl) | rfl | rfl <;> simp [isFactUpdate, hn']

theorem RPPerceptionAction.quiet_addObject (n : String) (hn : n ≠ "object_at")
    (object : SceneObject) :
    Act.Quiet (fun e => isFactUpdate n e = false) (RPPerceptionAction.addObject object) :=
  RPPerceptionAction.quiet_updateObject n hn object _

theorem RPPerceptionAction.quiet_removeObject (n : String) (object : SceneObject) :
    Act.Quiet (fun e => isFactUpdate n e = false)
      (RPPerceptionAction.removeObject object) := by
  intro env s e he
  simp only [RPPerceptionAction.removeObject, Act.bind_apply, Act.emit_apply, Act.get_apply,
    Act.set_apply, Res.andThen_next, Res.prepend_mk, List.append_nil, List.nil_append,
    List.singleton_append, List.mem_cons, List.mem_singleton, List.not_mem_nil,
    or_false] at he
  rcases he with rfl | rfl <;> simp [isFactUpdate]

theorem RPPerceptionAction.quiet_updateType (n : String) (hn : n ≠ "belongs_in")
    (object_id object_rec_name : String) :
    Act.Quiet (fun e => isFactUpdate n e = false)
      (RPPerceptionAction.updateType object_id object_rec_name) := by
  have hn' : ¬ "belongs_in" = n := fun h => hn h.symm
  unfold RPPerceptionAction.updateType
  refine Act.quiet_bind _ _ _ (Act.quiet_env _) (fun env => ?_)
  refine Act.quiet_bind _ _ _ (Act.quiet_emit _ _ rfl) (fun _ => ?_)
  refine Act.quiet_bind _ _ _ ?_ (fun instances => ?_)
  · split
    · exact Act.quiet_pure' _ _
    · exact Act.quiet_ret _
  refine Act.quiet_bind _ _ _ ?_ (fun found_box => ?_)
  · apply Act.quiet_forFold
    intro found_box box
    unfold RPPerceptionAction.updateTypeQuery
    refine Act.quiet_bind _ _ _ (Act.quiet_env _) (fun env => ?_)
    refine Act.quiet_bind _ _ _ (Act.quiet_emit _ _ rfl) (fun _ => ?_)
    split
    · exact Act.quiet_exit _ _
    · split
      · exact Act.quiet_pure' _ _
      · exact Act.quiet_pure' _ _
  · split
    · apply Act.quiet_forEach
      intro box
      unfold RPPerceptionAction.updateTypeAssert
      refine Act.quiet_bind _ _ _ (Act.quiet_emit _ _ ?_) (fun _ => Act.quiet_emit _ _ ?_)
      · simp [isFactUpdate, belongsIn, hn']
      · simp [isFactUpdate, belongsIn, hn']
    · exact Act.quiet_pure _ _

/-! ## Asserting facts -/

theorem examineAction_classifiable (env : Env) (s : PerceptionState) (msg : ActionDispatch)
    (hfound : (RPPerceptionAction.examineParams msg.parameters).foundObject = true)
    (hadd : env.updateKnowledge UpdateType.ADD_KNOWLEDGE (classifiableFrom env msg) = true) :
    factUpdates "classifiable_from" (RPPerceptionAction.examineAction msg env s).trace =
      assertPair (classifiableFrom env msg) := by
  rcases hr : env.examine
    ⟨LookMode.EXPLORE, (RPPerceptionAction.examineParams msg.parameters).objectID⟩
    with ⟨state, result⟩
  simp only [classifiableFrom, hr] at hadd
  cases hrem : env.updateKnowledge UpdateType.REMOVE_KNOWLEDGE
      { classifiableFrom env msg with is_negative := !(classifiableFrom env msg).is_negative }
  · simp only [classifiableFrom, hr] at hrem
    simp at hrem
    simp [RPPerceptionAction.examineAction, hfound, hadd, hrem, hr, factUpdates_cons,
      factUpdates_nil, assertPair, classifiableFrom]
  · simp only [classifiableFrom, hr] at hrem
    simp at hrem
    simp [RPPerceptionAction.examineAction, hfound, hadd, hrem, hr, factUpdates_cons,
      factUpdates_nil, assertPair, classifiableFrom]
    apply factUpdates_eq_nil
    refine (?_ : Act.Quiet (fun e => isFactUpdate "classifiable_from" e = false) _) env s
    repeat' first
      | exact Act.quiet_pure _ _
      | exact Act.quiet_pure' _ _
      | exact Act.quiet_ret _
      | exact RPPerceptionAction.quiet_publishFeedback _ _ _ rfl
      | exact Act.quiet_call _ _ (RPPerceptionAction.quiet_updateType _ (by decide) _ _)
      | exact Act.quiet_forEach _ _
          (fun so => RPPerceptionAction.quiet_addObject _ (by decide) so) _
      | exact Act.quiet_forEach _ _
          (fun so => RPPerceptionAction.quiet_updateObject _ (by decide) so _) _
      | apply Act.quiet_ite
      | apply Act.quiet_bind
      | intro _

theorem sortingDone_pair (env : Env) (s : SimulatedState) (msg : ActionDispatch)
    (hname : SimulatedObservePDDLAction.normalise msg.name = "observe-sorting_done")
    (hadd : env.updateKnowledge UpdateType.ADD_KNOWLEDGE (sortingDoneItem s) = true) :
    updatesOf (SimulatedObservePDDLAction.dispatchCallback msg env s).trace =
      assertPair (sortingDoneItem s) := by
  simp only [sortingDoneItem] at hadd
  simp [SimulatedObservePDDLAction.dispatchCallback, SimulatedObservePDDLAction.sortingDone,
    hname, hadd, assertPair, sortingDoneItem]

/-- A loop whose body always runs to its end does so too. -/
theorem Act.forEach_next {σ α : Type} (P : Event → Prop) (body : α → Act σ Unit) (env : Env)
    (hbody : ∀ a s, (body a env s).ctl = Ctl.next () ∧ ∀ e ∈ (body a env s).trace, P e)
    (l : List α) :
    ∀ s, (Act.forEach l body env s).ctl = Ctl.next () ∧
      ∀ e ∈ (Act.forEach l body env s).trace, P e := by
  induction l with
  | nil => intro s; simp
  | cons a t ih =>
    intro s
    obtain ⟨hc, hp⟩ := hbody a s
    rcases hrun : body a env s with ⟨t1, s1, c1⟩
    rw [hrun] at hc hp
    simp only at hc hp
    subst hc
    obtain ⟨hc2, hp2⟩ := ih s1
    simp only [Act.forEach_cons, hrun, Res.andThen_next, Res.prepend_ctl, Res.prepend_trace,
      List.mem_append]
    refine ⟨hc2, ?_⟩
    rintro e (he | he)
    · exact hp e he
    · exact hp2 e he

theorem exploreAction_explored (env : Env) (s : PerceptionState) (msg : ActionDispatch)
    (w : String) (hp : RPPerceptionAction.exploreParams msg.parameters = (w, true)) :
    factUpdates "explored" (RPPerceptionAction.exploreAction msg env s).trace =
      [(UpdateType.ADD_KNOWLEDGE, exploredItem w)] := by
  have hadd := Act.forEach_next (fun e => isFactUpdate "explored" e = false)
    (fun so => RPPerceptionAction.addObject so) env
    (fun a s => ⟨by simp only [RPPerceptionAction.addObject_apply],
      RPPerceptionAction.quiet_addObject "explored" (by decide) a env s⟩)
    env.findDynamicObjects.2.dynamic_objects_added s
  rcases h1 : Act.forEach env.findDynamicObjects.2.dynamic_objects_added
    (fun so => RPPerceptionAction.addObject so) env s with ⟨t1, s1, c1⟩
  rw [h1] at hadd
  obtain ⟨hc1, hq1⟩ := hadd
  simp only at hc1 hq1
  subst hc1
  have hupd := Act.forEach_next (fun e => isFactUpdate "explored" e = false)
    (fun so => RPPerceptionAction.updateObject so w) env
    (fun a s => ⟨by simp only [RPPerceptionAction.updateObject_apply],
      RPPerceptionAction.quiet_updateObject "explored" (by decide) a w env s⟩)
    env.findDynamicObjects.2.dynamic_objects_updated s1
  rcases h2 : Act.forEach env.findDynamicObjects.2.dynamic_objects_updated
    (fun so => RPPerceptionAction.updateObject so w) env s1 with ⟨t2, s2, c2⟩
  rw [h2] at hupd
  obtain ⟨hc2, hq2⟩ := hupd
  simp only at hc2 hq2
  subst hc2
  have hrem := Act.forEach_next (fun e => isFactUpdate "explored" e = false)
    (fun so => RPPerceptionAction.removeObject so) env
    (fun a s => ⟨by simp [RPPerceptionAction.removeObject],
      RPPerceptionAction.quiet_removeObject "explored" a env s⟩)
    env.findDynamicObjects.2.dynamic_objects_removed s2
  rcases h3 : Act.forEach env.findDynamicObjects.2.dynamic_objects_removed
    (fun so => RPPerceptionAction.removeObject so) env s2 with ⟨t3, s3, c3⟩
  rw [h3] at hrem
  obtain ⟨hc3, hq3⟩ := hrem
  simp only at hc3 hq3
  subst hc3
  simp [RPPerceptionAction.exploreAction, hp, h1, h2, h3, factUpdates_cons, factUpdates_nil,
    factUpdates_append, factUpdates_eq_nil _ t1 hq1, factUpdates_eq_nil _ t2 hq2,
    factUpdates_eq_nil _ t3 hq3, exploredItem]

theorem RPPerceptionAction.forFold_updateTypeQuery (env : Env) (s : PerceptionState)
    (object_rec_name : String) (boxes : List String) :
    ∀ acc : String, ∃ t c,
      Act.forFold boxes acc (RPPerceptionAction.updateTypeQuery object_rec_name) env s =
        ⟨t, s, c⟩ ∧
      updatesOf t = [] ∧ (c = Ctl.exit 1 ∨ ∃ found_box, c = Ctl.next found_box) := by
  induction boxes with
  | nil => intro acc; exact ⟨[], Ctl.next acc, rfl, rfl, Or.inr ⟨acc, rfl⟩⟩
  | cons b t ih =>
    intro acc
    cases hq : env.queryKnowledge [RPPerceptionAction.belongsIn object_rec_name b false] with
    | none =>
      exact ⟨[Event.queryKnowledge [RPPerceptionAction.belongsIn object_rec_name b false]],
        Ctl.exit 1, by simp [RPPerceptionAction.updateTypeQuery, hq], by simp, Or.inl rfl⟩
    | some results =>
      by_cases hres : firstResult results = 1
      · obtain ⟨t', c, h, hu, hc⟩ := ih b
        exact ⟨Event.queryKnowledge [RPPerceptionAction.belongsIn object_rec_name b false]
            :: t', c,
          by simp [RPPerceptionAction.updateTypeQuery, hq, hres, h], by simp [hu], hc⟩
      · obtain ⟨t', c, h, hu, hc⟩ := ih acc
        exact ⟨Event.queryKnowledge [RPPerceptionAction.belongsIn object_rec_name b false]
            :: t', c,
          by simp [RPPerceptionAction.updateTypeQuery, hq, hres, h], by simp [hu], hc⟩

theorem RPPerceptionAction.forEach_updateTypeAssert (env : Env) (s : PerceptionState)
    (object_id found_box : String) (boxes : List String) :
    ∃ t, Act.forEach boxes (RPPerceptionAction.updateTypeAssert object_id found_box) env s =
        ⟨t, s, Ctl.next ()⟩ ∧
      updatesOf t = boxes.flatMap (fun box =>
        assertPair (RPPerceptionAction.belongsIn object_id box (decide (box ≠ found_box)))) := by
  induction boxes with
  | nil => exact ⟨[], rfl, rfl⟩
  | cons b t ih =>
    obtain ⟨t', h, hu⟩ := ih
    refine ⟨Event.updateKnowledge UpdateType.ADD_KNOWLEDGE
        (RPPerceptionAction.belongsIn object_id b (decide (b ≠ found_box))) ::
      Event.updateKnowledge UpdateType.REMOVE_KNOWLEDGE
        (RPPerceptionAction.belongsIn object_id b (decide (b = found_box))) :: t', ?_, ?_⟩
    · simp [RPPerceptionAction.updateTypeAssert, h]
    · simp [hu, assertPair, RPPerceptionAction.belongsIn]

theorem updateType_pairs (env : Env) (s : PerceptionState) (object_id object_rec_name : String) :
    updatesOf (RPPerceptionAction.updateType object_id object_rec_name env s).trace = [] ∨
    ∃ boxes found_box, env.getInstances "box" = some boxes ∧
      updatesOf (RPPerceptionAction.updateType object_id object_rec_name env s).trace =
        boxes.flatMap (fun box =>
          assertPair (RPPerceptionAction.belongsIn object_id box
            (decide (box ≠ found_box)))) := by
  cases hI : env.getInstances "box" with
  | none =>
    left
    simp [RPPerceptionAction.updateType, hI]
  | some boxes =>
    obtain ⟨t, c, h, hu, hc⟩ :=
      RPPerceptionAction.forFold_updateTypeQuery env s object_rec_name boxes ""
    rcases hc with rfl | ⟨found_box, rfl⟩
    · left
      simp [RPPerceptionAction.updateType, hI, h, hu]
    · by_cases hf : found_box = ""
      · left
        simp [RPPerceptionAction.updateType, hI, h, hu, hf]
      · right
        obtain ⟨t', h', hu'⟩ :=
          RPPerceptionAction.forEach_updateTypeAssert env s object_id found_box boxes
        exact ⟨boxes, found_box, rfl, by
          simp [RPPerceptionAction.updateType, hI, h, hu, hf, h', hu']⟩

theorem toyStep_pair (env : Env) (s : SimulatedState) (id : Int) (closest : Closest)
    (tidied_objects : List String) (object_name : String) :
    updatesOf (SimulatedObservePDDLAction.toyStep id closest tidied_objects object_name
      env s).trace = [] ∨
    ∃ query_results,
      updatesOf (SimulatedObservePDDLAction.toyStep id closest tidied_objects object_name
        env s).trace = assertPair (toyAtRightBoxItem query_results) ∨
      (env.updateKnowledge UpdateType.ADD_KNOWLEDGE (toyAtRightBoxItem query_results) = false ∧
        updatesOf (SimulatedObservePDDLAction.toyStep id closest tidied_objects object_name
          env s).trace = [(UpdateType.ADD_KNOWLEDGE, toyAtRightBoxItem query_results)] ∧
        (SimulatedObservePDDLAction.toyStep id closest tidied_objects object_name
          env s).ctl = Ctl.exit (-1)) := by
  by_cases ht : object_name ∈ tidied_objects
  · left
    simp [SimulatedObservePDDLAction.toyStep, ht]
  cases hq : env.queryNamedObject object_name with
  | none =>
    left
    simp [SimulatedObservePDDLAction.toyStep, ht, hq]
  | some results =>
    cases results with
    | nil =>
      left
      simp [SimulatedObservePDDLAction.toyStep, ht, hq]
    | cons r rs =>
      by_cases hnear : SimulatedObservePDDLAction.nearBox r.pose closest.closest_box_pose = true
      · cases hk : env.queryKnowledge
            [{ knowledge_type := KnowledgeType.FACT, attribute_name := "belongs_in",
               values := [⟨"o", object_name⟩, ⟨"b", closest.closest_box⟩] }] with
        | none =>
          left
          simp [SimulatedObservePDDLAction.toyStep, ht, hq, hnear, hk]
        | some query_results =>
          right
          refine ⟨query_results, ?_⟩
          cases hadd : env.updateKnowledge UpdateType.ADD_KNOWLEDGE
              (toyAtRightBoxItem query_results) with
          | false =>
            right
            simp only [toyAtRightBoxItem] at hadd
            simp [SimulatedObservePDDLAction.toyStep, ht, hq, hnear, hk, hadd,
              toyAtRightBoxItem]
          | true =>
            left
            simp only [toyAtRightBoxItem] at hadd
            cases hrem : env.updateKnowledge UpdateType.REMOVE_KNOWLEDGE
                { toyAtRightBoxItem query_results with
                  is_negative := !(toyAtRightBoxItem query_results).is_negative } with
            | false =>
              simp only [toyAtRightBoxItem] at hrem
              simp [SimulatedObservePDDLAction.toyStep, ht, hq, hnear, hk, hadd, hrem,
                toyAtRightBoxItem, assertPair]
            | true =>
              simp only [toyAtRightBoxItem] at hrem
              simp [SimulatedObservePDDLAction.toyStep, ht, hq, hnear, hk, hadd, hrem,
                toyAtRightBoxItem, assertPair]
      · left
        simp [SimulatedObservePDDLAction.toyStep, ht, hq, hnear]

/-- C9, amended: the facts whose polarity is decided at run time are asserted by exactly two
update calls, ADD of the item and REMOVE of the same item (same predicate name, same
arguments) with the opposite polarity: classifiable_from in observe-classifiable_from and
sorting_done in observe-sorting_done when the ADD call succeeds, toy_at_right_box for each
object of observe-toy_at_right_box unless its ADD call fails and ends the process, and
belongs_in for each box in updateType.  The fact explored of explore_waypoint is asserted
by a single ADD call of positive polarity. -/
theorem fact_assertion_calls :
    (∀ (env : Env) (s : PerceptionState) (msg : ActionDispatch),
      (RPPerceptionAction.examineParams msg.parameters).foundObject = true →
      env.updateKnowledge UpdateType.ADD_KNOWLEDGE (classifiableFrom env msg) = true →
      factUpdates "classifiable_from" (RPPerceptionAction.examineAction msg env s).trace =
        assertPair (classifiableFrom env msg)) ∧
    (∀ (env : Env) (s : SimulatedState) (msg : ActionDispatch),
      SimulatedObservePDDLAction.normalise msg.name = "observe-sorting_done" →
      env.updateKnowledge UpdateType.ADD_KNOWLEDGE (sortingDoneItem s) = true →
      updatesOf (SimulatedObservePDDLAction.dispatchCallback msg env s).trace =
        assertPair (sortingDoneItem s)) ∧
    (∀ (env : Env) (s : SimulatedState) (id : Int) (closest : Closest)
        (tidied_objects : List String) (object_name : String),
      updatesOf (SimulatedObservePDDLAction.toyStep id closest tidied_objects object_name
        env s).trace = [] ∨
      ∃ query_results,
        updatesOf (SimulatedObservePDDLAction.toyStep id closest tidied_objects object_name
          env s).trace = assertPair (toyAtRightBoxItem query_results) ∨
        (env.updateKnowledge UpdateType.ADD_KNOWLEDGE (toyAtRightBoxItem query_results)
            = false ∧
          updatesOf (SimulatedObservePDDLAction.toyStep id closest tidied_objects object_name
            env s).trace = [(UpdateType.ADD_KNOWLEDGE, toyAtRightBoxItem query_results)] ∧
          (SimulatedObservePDDLAction.toyStep id closest tidied_objects object_name
            env s).ctl = Ctl.exit (-1))) ∧
    (∀ (env : Env) (s : PerceptionState) (object_id object_rec_name : String),
      updatesOf (RPPerceptionAction.updateType object_id object_rec_name env s).trace = [] ∨
      ∃ boxes found_box, env.getInstances "box" = some boxes ∧
        updatesOf (RPPerceptionAction.updateType object_id object_rec_name env s).trace =
          boxes.flatMap (fun box =>
            assertPair (RPPerceptionAction.belongsIn object_id box
              (decide (box ≠ found_box))))) ∧
    (∀ (env : Env) (s : PerceptionState) (msg : ActionDispatch) (w : String),
      RPPerceptionAction.exploreParams msg.parameters = (w, true) →
      factUpdates "explored" (RPPerceptionAction.exploreAction msg env s).trace =
        [(UpdateType.ADD_KNOWLEDGE, exploredItem w)]) :=
  ⟨examineAction_classifiable, sortingDone_pair, toyStep_pair, updateType_pairs,
    exploreAction_explored⟩

/-- C9, amended, at concrete dispatches of observe-classifiable_from, observe-sorting_done
and explore_waypoint. -/
theorem fact_assertion_calls_witness :
    factUpdates "classifiable_from"
        (RPPerceptionAction.examineAction
          ⟨7, "observe-classifiable_from", [⟨"from", "wp1"⟩, ⟨"view", "wp2"⟩, ⟨"o", "cup1"⟩]⟩
          Env.quiet PerceptionState.init).trace =
      assertPair (classifiableFrom Env.quiet
        ⟨7, "observe-classifiable_from",
          [⟨"from", "wp1"⟩, ⟨"view", "wp2"⟩, ⟨"o", "cup1"⟩]⟩) ∧
    updatesOf (SimulatedObservePDDLAction.dispatchCallback ⟨8, "observe-sorting_done", []⟩
        Env.quiet (SimulatedObservePDDLAction.init none)).trace =
      assertPair (sortingDoneItem (SimulatedObservePDDLAction.init none)) ∧
    factUpdates "explored"
        (RPPerceptionAction.exploreAction ⟨7, "explore_waypoint", [⟨"wp", "wp3"⟩]⟩ Env.quiet
          PerceptionState.init).trace =
      [(UpdateType.ADD_KNOWLEDGE, exploredItem "wp3")] :=
  ⟨fact_assertion_calls.1 Env.quiet PerceptionState.init
      ⟨7, "observe-classifiable_from", [⟨"from", "wp1"⟩, ⟨"view", "wp2"⟩, ⟨"o", "cup1"⟩]⟩
      rfl rfl,
   fact_assertion_calls.2.1 Env.quiet (SimulatedObservePDDLAction.init none)
      ⟨8, "observe-sorting_done", []⟩ (by decide) rfl,
   fact_assertion_calls.2.2.2.2 Env.quiet PerceptionState.init
      ⟨7, "explore_waypoint", [⟨"wp", "wp3"⟩]⟩ "wp3" rfl⟩

/-- C9 as stated fails for explore_waypoint: the dispatch with wp = "wp3", all calls
succeeding and nothing detected, issues one update call in all, the ADD of the positive
fact explored; no call carries the opposite polarity. -/
theorem explored_single_call_counterexample :
    updatesOf (RPPerceptionAction.exploreAction ⟨7, "explore_waypoint", [⟨"wp", "wp3"⟩]⟩
        Env.quiet PerceptionState.init).trace =
      [(UpdateType.ADD_KNOWLEDGE, exploredItem "wp3")] ∧
    (updatesOf (RPPerceptionAction.exploreAction ⟨7, "explore_waypoint", [⟨"wp", "wp3"⟩]⟩
        Env.quiet PerceptionState.init).trace).length ≠ 2 ∧
    ∀ u ∈ updatesOf (RPPerceptionAction.exploreAction
        ⟨7, "explore_waypoint", [⟨"wp", "wp3"⟩]⟩ Env.quiet PerceptionState.init).trace,
      u.2.is_negative = false := by
  have h : updatesOf (RPPerceptionAction.exploreAction
      ⟨7, "explore_waypoint", [⟨"wp", "wp3"⟩]⟩ Env.quiet PerceptionState.init).trace =
      [(UpdateType.ADD_KNOWLEDGE, exploredItem "wp3")] := by
    simp [RPPerceptionAction.exploreAction, RPPerceptionAction.exploreParams, Env.quiet,
      exploredItem]
  rw [h]
  simp [exploredItem]

/-! ## Feedback discipline -/

theorem Act.proto_pure {σ α : Type} (id : Int) (a : α) :
    Act.Proto id [] (Pure.pure a : Act σ α) := by
  refine ⟨fun env s => ?_⟩
  simp

theorem Act.proto_pure' {σ α : Type} (id : Int) (a : α) :
    Act.Proto id [] (Act.pure a : Act σ α) := by
  refine ⟨fun env s => ?_⟩
  simp

theorem Act.proto_env {σ : Type} (id : Int) : Act.Proto id [] (Act.env : Act σ Env) := by
  refine ⟨fun env s => ?_⟩
  simp

theorem Act.proto_get {σ : Type} (id : Int) : Act.Proto id [] (Act.get : Act σ σ) := by
  refine ⟨fun env s => ?_⟩
  simp

theorem Act.proto_set {σ : Type} (id : Int) (s' : σ) :
    Act.Proto id [] (Act.set s' : Act σ Unit) := by
  refine ⟨fun env s => ?_⟩
  simp

theorem Act.proto_exit {σ α : Type} (id : Int) (post : List (Int × String)) (code : Int) :
    Act.Proto id post (Act.exit code : Act σ α) := by
  refine ⟨fun env s => ?_⟩
  simp

theorem Act.proto_undefined {σ α : Type} (id : Int) (post : List (Int × String)) :
    Act.Proto id post (Act.undefined : Act σ α) := by
  refine ⟨fun env s => ?_⟩
  simp

theorem Act.proto_emit {σ : Type} (id : Int) (e : Event) (h : feedbacks [e] = []) :
    Act.Proto id [] (Act.emit e : Act σ Unit) := by
  refine ⟨fun env s => ?_⟩
  simp [h]

theorem Act.proto_bind {σ α β : Type} (id : Int) (post : List (Int × String))
    (m : Act σ α) (f : α → Act σ β)
    (hm : Act.Proto id [] m) (hf : ∀ a, Act.Proto id post (f a)) :
    Act.Proto id post (m >>= f) := by
  refine ⟨fun env s => ?_⟩
  obtain ⟨h1, h2⟩ := hm.run env s
  rw [Act.bind_apply]
  rcases hrun : m env s with ⟨t, s1, c⟩
  rw [hrun] at h1 h2
  cases c with
  | next a =>
    have ht : feedbacks t = [] := h1 a rfl
    obtain ⟨g1, g2⟩ := (hf a).run env s1
    simp only [Res.andThen_next, Res.prepend_ctl, Res.prepend_trace, feedbacks_append, ht,
      List.nil_append]
    exact ⟨g1, g2⟩
  | ret =>
    have ht := h2 rfl
    simp only [Res.andThen_ret] at ht ⊢
    exact ⟨fun a h => (by cases h), fun _ => ht⟩
  | exit code =>
    simp only [Res.andThen_exit]
    exact ⟨fun a h => (by cases h), fun h => (by cases h)⟩
  | timeout =>
    simp only [Res.andThen_timeout]
    exact ⟨fun a h => (by cases h), fun h => (by cases h)⟩
  | undefined =>
    simp only [Res.andThen_undefined]
    exact ⟨fun a h => (by cases h), fun h => (by cases h)⟩


theorem Act.proto_ret_bind {σ α β : Type} (id : Int) (post : List (Int × String))
    (e : Event) (he : feedbacks [e] = [(id, "action failed")]) (f : α → Act σ β) :
    Act.Proto id post (Act.emit e >>= fun _ => (Act.ret : Act σ α) >>= f) := by
  refine ⟨fun env s => ?_⟩
  simp [he]

theorem Act.proto_ret {σ α : Type} (id : Int) (post : List (Int × String))
    (e : Event) (he : feedbacks [e] = [(id, "action failed")]) :
    Act.Proto id post (Act.emit e >>= fun _ => (Act.ret : Act σ α)) := by
  refine ⟨fun env s => ?_⟩
  simp [he]

theorem RPPerceptionAction.proto_failed_bind {α β : Type} (id : Int)
    (post : List (Int × String)) (f : α → Act PerceptionState β) :
    Act.Proto id post (RPPerceptionAction.publishFeedback id "action failed" >>=
      fun _ => (Act.ret : Act PerceptionState α) >>= f) :=
  Act.proto_ret_bind id post (Event.feedback id "action failed") rfl f

theorem RPPerceptionAction.proto_failed {α : Type} (id : Int) (post : List (Int × String)) :
    Act.Proto id post (RPPerceptionAction.publishFeedback id "action failed" >>=
      fun _ => (Act.ret : Act PerceptionState α)) :=
  Act.proto_ret id post (Event.feedback id "action failed") rfl

theorem Act.proto_achieved {σ : Type} (id : Int) (e : Event)
    (he : feedbacks [e] = [(id, "action achieved")]) :
    Act.Proto id [(id, "action achieved")] (Act.emit e : Act σ Unit) := by
  refine ⟨fun env s => ?_⟩
  simp [he]

theorem RPPerceptionAction.proto_publish_achieved (id : Int) :
    Act.Proto id [(id, "action achieved")]
      (RPPerceptionAction.publishFeedback id "action achieved") :=
  Act.proto_achieved id (Event.feedback id "action achieved") rfl

theorem Act.proto_ite {σ α : Type} (id : Int) (post : List (Int × String)) (c : Prop)
    [Decidable c] (m m' : Act σ α) (hm : Act.Proto id post m) (hm' : Act.Proto id post m') :
    Act.Proto id post (if c then m else m') := by
  split
  · exact hm
  · exact hm'

theorem feedbacks_eq_nil (t : List Event) (h : ∀ e ∈ t, feedbacks [e] = []) :
    feedbacks t = [] := by
  induction t with
  | nil => rfl
  | cons e t ih =>
    have he := h e (List.mem_cons_self e t)
    have := ih (fun e' he' => h e' (List.mem_cons_of_mem e he'))
    rw [show e :: t = [e] ++ t from rfl, feedbacks_append, he, this]
    rfl

theorem Act.call_trace {σ : Type} (m : Act σ Unit) (env : Env) (s : σ) :
    (Act.call m env s).trace = (m env s).trace := by
  unfold Act.call
  split <;> rfl

theorem Act.call_ctl_ne_ret {σ : Type} (m : Act σ Unit) (env : Env) (s : σ) :
    (Act.call m env s).ctl ≠ Ctl.ret := by
  unfold Act.call
  split <;> simp

theorem Act.proto_call {σ : Type} (id : Int) (m : Act σ Unit)
    (hm : Act.Quiet (fun e => feedbacks [e] = []) m) : Act.Proto id [] (Act.call m) := by
  refine ⟨fun env s => ?_⟩
  have ht : feedbacks (Act.call m env s).trace = [] := by
    rw [Act.call_trace]
    exact feedbacks_eq_nil _ (hm env s)
  exact ⟨fun _ _ => ht, fun h => absurd h (Act.call_ctl_ne_ret m env s)⟩

theorem Act.proto_forEach {σ α : Type} (id : Int) (body : α → Act σ Unit)
    (h : ∀ a, Act.Proto id [] (body a)) (l : List α) :
    Act.Proto id [] (Act.forEach l body) := by
  induction l with
  | nil => exact Act.proto_pure' id ()
  | cons a t ih =>
    show Act.Proto id [] (body a >>= fun _ => Act.forEach t body)
    exact Act.proto_bind id [] (body a) (fun _ => Act.forEach t body) (h a) (fun _ => ih)

theorem Act.proto_forFold {σ α β : Type} (id : Int) (body : β → α → Act σ β)
    (h : ∀ b a, Act.Proto id [] (body b a)) (l : List α) :
    ∀ b, Act.Proto id [] (Act.forFold l b body) := by
  induction l with
  | nil => intro b; exact Act.proto_pure' id b
  | cons a t ih =>
    intro b
    show Act.Proto id [] (body b a >>= fun b1 => Act.forFold t b1 body)
    exact Act.proto_bind id [] (body b a) (fun b1 => Act.forFold t b1 body) (h b a)
      (fun b1 => ih b1)

theorem RPPerceptionAction.proto_updateObject (id : Int) (object : SceneObject) (w : String) :
    Act.Proto id [] (RPPerceptionAction.updateObject object w) := by
  refine ⟨fun env s => ?_⟩
  rw [RPPerceptionAction.updateObject_apply]
  simp [objectUpdates]

theorem RPPerceptionAction.proto_addObject (id : Int) (object : SceneObject) :
    Act.Proto id [] (RPPerceptionAction.addObject object) :=
  RPPerceptionAction.proto_updateObject id object _

theorem RPPerceptionAction.proto_removeObject (id : Int) (object : SceneObject) :
    Act.Proto id [] (RPPerceptionAction.removeObject object) := by
  refine ⟨fun env s => ?_⟩
  simp [RPPerceptionAction.removeObject]

theorem Act.handler_env {σ α : Type} (id : Int) (f : Env → Act σ α)
    (h : ∀ env, Act.HandlerOK id (f env)) : Act.HandlerOK id (Act.env >>= f) := by
  refine ⟨fun env s => ?_⟩
  have := (h env).run env s
  simpa using this

theorem Act.handler_pure {σ α β : Type} (id : Int) (a : α) (f : α → Act σ β)
    (h : Act.HandlerOK id (f a)) : Act.HandlerOK id (Pure.pure a >>= f) := by
  refine ⟨fun env s => ?_⟩
  have := h.run env s
  simpa using this

theorem Act.handler_enabled {σ α : Type} (id : Int) (e : Event)
    (he : e = Event.feedback id "action enabled") (rest : Act σ α)
    (h : Act.Proto id [(id, "action achieved")] rest) :
    Act.HandlerOK id (Act.emit e >>= fun _ => rest) := by
  refine ⟨fun env s => ?_⟩
  subst he
  obtain ⟨h1, h2⟩ := h.run env s
  simp only [Act.bind_apply, Act.emit_apply, Res.andThen_next, Res.prepend_trace,
    Res.prepend_ctl, List.singleton_append, List.head?_cons, feedbacks_cons, true_and]
  refine ⟨fun a ha => ?_, fun ha => ?_⟩
  · rw [h1 a ha]
  · rw [h2 ha]

theorem RPPerceptionAction.handler_publish_enabled {α : Type} (id : Int)
    (rest : Act PerceptionState α) (h : Act.Proto id [(id, "action achieved")] rest) :
    Act.HandlerOK id (RPPerceptionAction.publishFeedback id "action enabled" >>=
      fun _ => rest) :=
  Act.handler_enabled id (Event.feedback id "action enabled") rfl rest h

theorem exploreAction_handlerOK (msg : ActionDispatch) (w : String)
    (hp : RPPerceptionAction.exploreParams msg.parameters = (w, true)) :
    Act.HandlerOK msg.action_id (RPPerceptionAction.exploreAction msg) := by
  unfold RPPerceptionAction.exploreAction
  simp only [hp, Bool.not_true, Bool.false_eq_true, if_false]
  refine Act.handler_env _ _ (fun env => ?_)
  refine Act.handler_pure _ _ _ ?_
  refine RPPerceptionAction.handler_publish_enabled _ _ ?_
  repeat' first
    | exact RPPerceptionAction.proto_publish_achieved _
    | exact Act.proto_emit _ _ rfl
    | exact Act.proto_forEach _ _ (fun so => RPPerceptionAction.proto_addObject _ so) _
    | exact Act.proto_forEach _ _ (fun so => RPPerceptionAction.proto_updateObject _ so _) _
    | exact Act.proto_forEach _ _ (fun so => RPPerceptionAction.proto_removeObject _ so) _
    | apply Act.proto_bind
    | intro _


theorem RPPerceptionAction.quiet_updateType_feedback (object_id object_rec_name : String) :
    Act.Quiet (fun e => feedbacks [e] = [])
      (RPPerceptionAction.updateType object_id object_rec_name) := by
  unfold RPPerceptionAction.updateType
  refine Act.quiet_bind _ _ _ (Act.quiet_env _) (fun env => ?_)
  refine Act.quiet_bind _ _ _ (Act.quiet_emit _ _ rfl) (fun _ => ?_)
  refine Act.quiet_bind _ _ _ ?_ (fun instances => ?_)
  · split
    · exact Act.quiet_pure' _ _
    · exact Act.quiet_ret _
  refine Act.quiet_bind _ _ _ ?_ (fun found_box => ?_)
  · apply Act.quiet_forFold
    intro found_box box
    unfold RPPerceptionAction.updateTypeQuery
    refine Act.quiet_bind _ _ _ (Act.quiet_env _) (fun env => ?_)
    refine Act.quiet_bind _ _ _ (Act.quiet_emit _ _ rfl) (fun _ => ?_)
    split
    · exact Act.quiet_exit _ _
    · split
      · exact Act.quiet_pure' _ _
      · exact Act.quiet_pure' _ _
  · split
    · apply Act.quiet_forEach
      intro box
      unfold RPPerceptionAction.updateTypeAssert
      exact Act.quiet_bind _ _ _ (Act.quiet_emit _ _ rfl) (fun _ => Act.quiet_emit _ _ rfl)
    · exact Act.quiet_pure _ _

theorem lookAtObject_handlerOK (msg : ActionDispatch) (o : String)
    (hp : RPPerceptionAction.lookAtParams msg.parameters = (o, true)) :
    Act.HandlerOK msg.action_id (RPPerceptionAction.lookAtObject msg) := by
  unfold RPPerceptionAction.lookAtObject
  simp only [hp, Bool.not_true, Bool.false_eq_true, if_false]
  refine Act.handler_env _ _ (fun env => ?_)
  refine Act.handler_pure _ _ _ ?_
  refine RPPerceptionAction.handler_publish_enabled _ _ ?_
  repeat' first
    | intro _
    | exact RPPerceptionAction.proto_failed_bind _ _ _
    | exact RPPerceptionAction.proto_failed _ _
    | apply Act.proto_bind
    | apply Act.proto_ite
    | exact RPPerceptionAction.proto_publish_achieved _
    | exact Act.proto_emit _ _ rfl
    | exact Act.proto_env _
    | exact Act.proto_pure _ _
    | exact Act.proto_pure' _ _
    | exact Act.proto_exit _ _ _
    | exact Act.proto_call _ _ (RPPerceptionAction.quiet_updateType_feedback _ _)
    | exact Act.proto_forEach _ _ (fun so => RPPerceptionAction.proto_addObject _ _) _
    | exact Act.proto_forEach _ _ (fun so => RPPerceptionAction.proto_updateObject _ _ _) _
    | split

theorem RPPerceptionAction.proto_closestBoxLoop (id : Int) (origin : Point)
    (instances : List String) :
    Act.Proto id [] (RPPerceptionAction.closestBoxLoop id origin instances) := by
  unfold RPPerceptionAction.closestBoxLoop
  apply Act.proto_forFold
  intro acc ci
  unfold RPPerceptionAction.closestBoxStep
  repeat' first
    | intro _
    | exact RPPerceptionAction.proto_failed_bind _ _ _
    | exact RPPerceptionAction.proto_failed _ _
    | apply Act.proto_bind
    | apply Act.proto_ite
    | exact RPPerceptionAction.proto_publish_achieved _
    | exact Act.proto_emit _ _ rfl
    | exact Act.proto_env _
    | exact Act.proto_pure _ _
    | exact Act.proto_pure' _ _
    | exact Act.proto_exit _ _ _
    | exact Act.proto_call _ _ (RPPerceptionAction.quiet_updateType_feedback _ _)
    | exact Act.proto_forEach _ _ (fun so => RPPerceptionAction.proto_addObject _ _) _
    | exact Act.proto_forEach _ _ (fun so => RPPerceptionAction.proto_updateObject _ _ _) _
    | split

theorem examineObject_handlerOK (msg : ActionDispatch) :
    Act.HandlerOK msg.action_id (RPPerceptionAction.examineObject msg) := by
  unfold RPPerceptionAction.examineObject
  refine Act.handler_env _ _ (fun env => ?_)
  refine RPPerceptionAction.handler_publish_enabled _ _ ?_
  repeat' first
    | exact RPPerceptionAction.proto_closestBoxLoop _ _ _
    | exact RPPerceptionAction.proto_publish_achieved _
    | exact RPPerceptionAction.proto_failed_bind _ _ _
    | exact RPPerceptionAction.proto_failed _ _
    | exact Act.proto_emit _ _ rfl
    | exact Act.proto_pure _ _
    | exact Act.proto_pure' _ _
    | exact Act.proto_forEach _ _ (fun so => RPPerceptionAction.proto_addObject _ _) _
    | apply Act.proto_bind
    | apply Act.proto_ite
    | split
    | intro _

theorem examineAction_handlerOK (msg : ActionDispatch)
    (hp : (RPPerceptionAction.examineParams msg.parameters).foundObject = true) :
    Act.HandlerOK msg.action_id (RPPerceptionAction.examineAction msg) := by
  unfold RPPerceptionAction.examineAction
  simp only [hp, Bool.not_true, Bool.false_eq_true, if_false]
  refine Act.handler_env _ _ (fun env => ?_)
  refine Act.handler_pure _ _ _ ?_
  refine RPPerceptionAction.handler_publish_enabled _ _ ?_
  repeat' first
    | intro _
    | exact RPPerceptionAction.proto_failed_bind _ _ _
    | exact RPPerceptionAction.proto_failed _ _
    | apply Act.proto_bind
    | apply Act.proto_ite
    | exact RPPerceptionAction.proto_publish_achieved _
    | exact Act.proto_emit _ _ rfl
    | exact Act.proto_env _
    | exact Act.proto_pure _ _
    | exact Act.proto_pure' _ _
    | exact Act.proto_exit _ _ _
    | exact Act.proto_call _ _ (RPPerceptionAction.quiet_updateType_feedback _ _)
    | exact Act.proto_forEach _ _ (fun so => RPPerceptionAction.proto_addObject _ _) _
    | exact Act.proto_forEach _ _ (fun so => RPPerceptionAction.proto_updateObject _ _ _) _

theorem RPPerceptionAction.proto_waitForArm (id : Int) (goal_state : List ℚ) (error : ℚ)
    (fuel : Nat) :
    Act.Proto id [] (RPPerceptionAction.waitForArm goal_state error fuel) := by
  induction fuel with
  | zero =>
    refine ⟨fun env s => ?_⟩
    simp [RPPerceptionAction.waitForArm]
  | succ n ih =>
    unfold RPPerceptionAction.waitForArm
    repeat' first
      | intro _
      | exact ih
      | apply Act.proto_bind
      | apply Act.proto_ite
      | exact Act.proto_emit _ _ rfl
      | exact Act.proto_env _
      | exact Act.proto_get _
      | exact Act.proto_set _ _
      | exact Act.proto_pure _ _

theorem RPPerceptionAction.proto_extendArm (id : Int) (fuel : Nat) :
    Act.Proto id [] (RPPerceptionAction.extendArm fuel) := by
  unfold RPPerceptionAction.extendArm
  repeat' first
    | intro _
    | exact RPPerceptionAction.proto_waitForArm _ _ _ _
    | apply Act.proto_bind
    | apply Act.proto_ite
    | exact Act.proto_undefined _ _
    | exact Act.proto_emit _ _ rfl
    | exact Act.proto_get _
    | exact Act.proto_pure _ _

theorem RPPerceptionAction.proto_retractArm (id : Int) (fuel : Nat) :
    Act.Proto id [] (RPPerceptionAction.retractArm fuel) := by
  unfold RPPerceptionAction.retractArm
  repeat' first
    | intro _
    | exact RPPerceptionAction.proto_waitForArm _ _ _ _
    | apply Act.proto_bind
    | apply Act.proto_ite
    | exact Act.proto_undefined _ _
    | exact Act.proto_emit _ _ rfl
    | exact Act.proto_get _
    | exact Act.proto_pure _ _

theorem examineObjectInHandAction_handlerOK (fuel : Nat) (msg : ActionDispatch)
    (hp : RPPerceptionAction.inHandParams msg.parameters ≠ "") :
    Act.HandlerOK msg.action_id (RPPerceptionAction.examineObjectInHandAction fuel msg) := by
  unfold RPPerceptionAction.examineObjectInHandAction
  simp only [hp, if_false]
  refine Act.handler_env _ _ (fun env => ?_)
  refine Act.handler_pure _ _ _ ?_
  refine RPPerceptionAction.handler_publish_enabled _ _ ?_
  repeat' first
    | intro _
    | exact RPPerceptionAction.proto_failed_bind _ _ _
    | exact RPPerceptionAction.proto_failed _ _
    | exact RPPerceptionAction.proto_extendArm _ _
    | exact RPPerceptionAction.proto_retractArm _ _
    | apply Act.proto_bind
    | apply Act.proto_ite
    | exact RPPerceptionAction.proto_publish_achieved _
    | exact Act.proto_emit _ _ rfl
    | exact Act.proto_env _
    | exact Act.proto_pure _ _
    | exact Act.proto_pure' _ _
    | exact Act.proto_call _ _ (RPPerceptionAction.quiet_updateType_feedback _ _)


theorem SimulatedObservePDDLAction.proto_sortingDone (id : Int) :
    Act.Proto id [] SimulatedObservePDDLAction.sortingDone := by
  unfold SimulatedObservePDDLAction.sortingDone
  repeat' first
    | intro _
    | apply Act.proto_bind
    | apply Act.proto_ite
    | exact Act.proto_emit _ _ rfl
    | exact Act.proto_env _
    | exact Act.proto_get _
    | exact Act.proto_set _ _
    | exact Act.proto_exit _ _ _
    | exact Act.proto_pure _ _

theorem SimulatedObservePDDLAction.sim_proto_closestBoxLoop (id : Int) (origin : Point)
    (instances : List String) :
    Act.Proto id [] (SimulatedObservePDDLAction.closestBoxLoop id origin instances) := by
  unfold SimulatedObservePDDLAction.closestBoxLoop
  apply Act.proto_forFold
  intro acc ci
  unfold SimulatedObservePDDLAction.closestBoxStep
  repeat' first
    | intro _
    | exact Act.proto_ret_bind _ _ _ rfl _
    | exact Act.proto_ret _ _ _ rfl
    | apply Act.proto_bind
    | apply Act.proto_ite
    | exact Act.proto_emit _ _ rfl
    | exact Act.proto_env _
    | exact Act.proto_pure _ _
    | exact Act.proto_pure' _ _
    | split

theorem SimulatedObservePDDLAction.proto_toyStep (id : Int) (closest : Closest)
    (tidied_objects : List String) (object_name : String) :
    Act.Proto id []
      (SimulatedObservePDDLAction.toyStep id closest tidied_objects object_name) := by
  unfold SimulatedObservePDDLAction.toyStep
  repeat' first
    | intro _
    | exact Act.proto_ret_bind _ _ _ rfl _
    | exact Act.proto_ret _ _ _ rfl
    | apply Act.proto_bind
    | apply Act.proto_ite
    | exact Act.proto_emit _ _ rfl
    | exact Act.proto_env _
    | exact Act.proto_exit _ _ _
    | exact Act.proto_pure _ _
    | exact Act.proto_pure' _ _
    | split

theorem SimulatedObservePDDLAction.proto_toyAtRightBox (id : Int) :
    Act.Proto id [] (SimulatedObservePDDLAction.toyAtRightBox id) := by
  unfold SimulatedObservePDDLAction.toyAtRightBox
  repeat' first
    | intro _
    | exact SimulatedObservePDDLAction.sim_proto_closestBoxLoop _ _ _
    | exact Act.proto_forEach _ _ (fun o => SimulatedObservePDDLAction.proto_toyStep _ _ _ o) _
    | exact Act.proto_ret_bind _ _ _ rfl _
    | exact Act.proto_ret _ _ _ rfl
    | apply Act.proto_bind
    | apply Act.proto_ite
    | exact Act.proto_emit _ _ rfl
    | exact Act.proto_env _
    | exact Act.proto_pure _ _
    | exact Act.proto_pure' _ _
    | split

theorem Act.handler_ite_neg {σ α : Type} (id : Int) (c : Prop) [Decidable c] (hc : ¬ c)
    (m m' : Act σ α) (h : Act.HandlerOK id m') : Act.HandlerOK id (if c then m else m') := by
  rw [if_neg hc]
  exact h

theorem simulated_handlerOK (msg : ActionDispatch)
    (hname : SimulatedObservePDDLAction.normalise msg.name ∈
      SimulatedObservePDDLAction.recognised) :
    Act.HandlerOK msg.action_id (SimulatedObservePDDLAction.dispatchCallback msg) := by
  unfold SimulatedObservePDDLAction.dispatchCallback
  refine Act.handler_ite_neg _ _ ?_ _ _ ?_
  · simp only [SimulatedObservePDDLAction.recognised, List.mem_cons, List.mem_singleton,
      List.not_mem_nil, or_false] at hname
    rcases hname with h | h | h | h | h | h | h | h | h | h | h <;> simp [h]
  refine Act.handler_pure _ _ _ ?_
  refine Act.handler_enabled _ _ rfl _ ?_
  repeat' first
    | intro _
    | exact SimulatedObservePDDLAction.proto_sortingDone _
    | exact SimulatedObservePDDLAction.proto_toyAtRightBox _
    | apply Act.proto_bind
    | apply Act.proto_ite
    | exact Act.proto_achieved _ _ rfl
    | exact Act.proto_pure _ _

/-! ## Feedback protocol -/

theorem Act.HandlerOK.discipline {σ : Type} {id : Int} {m : Act σ Unit}
    (h : Act.HandlerOK id m) (env : Env) (s : σ) : FeedbackDiscipline id (m env s) :=
  ⟨(h.run env s).1, (h.run env s).2.1 (), (h.run env s).2.2⟩

theorem foldl_flag_present {β : Type} (key : String) (f : β → KeyValue → β) (flag : β → Bool)
    (hset : ∀ acc p, p.key = key → flag (f acc p) = true)
    (hkeep : ∀ acc p, flag acc = true → flag (f acc p) = true) :
    ∀ (parameters : List KeyValue) (acc : β),
      (flag acc = true ∨ ∃ p ∈ parameters, p.key = key) →
      flag (parameters.foldl f acc) = true := by
  intro parameters
  induction parameters with
  | nil =>
    intro acc h
    rcases h with h | ⟨p, hp, _⟩
    · exact h
    · cases hp
  | cons q t ih =>
    intro acc h
    simp only [List.foldl_cons]
    apply ih
    rcases h with h | ⟨p, hp, hk⟩
    · exact Or.inl (hkeep acc q h)
    · rcases List.mem_cons.mp hp with rfl | hp
      · exact Or.inl (hset acc p hk)
      · exact Or.inr ⟨p, hp, hk⟩

theorem RPPerceptionAction.exploreParams_present (parameters : List KeyValue)
    (h : ∃ p ∈ parameters, p.key = "wp") :
    ∃ w, RPPerceptionAction.exploreParams parameters = (w, true) := by
  have := foldl_flag_present "wp"
    (fun (acc : String × Bool) p => if p.key = "wp" then (p.value, true) else acc)
    (fun acc => acc.2)
    (by intro acc p hp; simp [hp])
    (by intro acc p ha; by_cases hp : p.key = "wp" <;> simp [hp, ha])
    parameters ("", false) (Or.inr h)
  exact ⟨(RPPerceptionAction.exploreParams parameters).1, Prod.ext rfl this⟩

theorem RPPerceptionAction.lookAtParams_present (parameters : List KeyValue)
    (h : ∃ p ∈ parameters, p.key = "o") :
    ∃ o, RPPerceptionAction.lookAtParams parameters = (o, true) := by
  have := foldl_flag_present "o"
    (fun (acc : String × Bool) p => if p.key = "o" then (p.value, true) else acc)
    (fun acc => acc.2)
    (by intro acc p hp; simp [hp])
    (by intro acc p ha; by_cases hp : p.key = "o" <;> simp [hp, ha])
    parameters ("", false) (Or.inr h)
  exact ⟨(RPPerceptionAction.lookAtParams parameters).1, Prod.ext rfl this⟩

theorem RPPerceptionAction.examineParams_present (parameters : List KeyValue)
    (h : ∃ p ∈ parameters, p.key = "o") :
    (RPPerceptionAction.examineParams parameters).foundObject = true := by
  unfold RPPerceptionAction.examineParams
  refine foldl_flag_present "o" _
    (fun acc : RPPerceptionAction.ExamineParams => acc.foundObject) ?_ ?_ parameters {}
    (Or.inr h)
  · intro acc p hp
    simp [hp]
  · intro acc p ha
    by_cases hp : p.key = "o"
    · simp [hp]
    · simp only [hp, if_false]
      split <;> split <;> exact ha

/-- C17, amended: a run of a handler whose required parameter is present (for
examine_object_in_hand: whose last "o" pair has a non-empty value) publishes "action enabled"
as its first call; when the run reaches the end of the handler the feedback is exactly
enabled then achieved, when it returns early exactly enabled then failed, all for the
action id of the event.  Runs that end the process or never finish waiting for the arm are
the only other runs. -/
theorem feedback_protocol (env : Env) (msg : ActionDispatch) (fuel : Nat) :
    (∀ s, (∃ p ∈ msg.parameters, p.key = "wp") →
      FeedbackDiscipline msg.action_id (RPPerceptionAction.exploreAction msg env s)) ∧
    (∀ s, (∃ p ∈ msg.parameters, p.key = "o") →
      FeedbackDiscipline msg.action_id (RPPerceptionAction.lookAtObject msg env s) ∧
      FeedbackDiscipline msg.action_id (RPPerceptionAction.examineAction msg env s)) ∧
    (∀ s, FeedbackDiscipline msg.action_id (RPPerceptionAction.examineObject msg env s)) ∧
    (∀ s, RPPerceptionAction.inHandParams msg.parameters ≠ "" →
      FeedbackDiscipline msg.action_id
        (RPPerceptionAction.examineObjectInHandAction fuel msg env s)) ∧
    (∀ s, SimulatedObservePDDLAction.normalise msg.name ∈
        SimulatedObservePDDLAction.recognised →
      FeedbackDiscipline msg.action_id
        (SimulatedObservePDDLAction.dispatchCallback msg env s)) := by
  refine ⟨?_, ?_, ?_, ?_, ?_⟩
  · intro s h
    obtain ⟨w, hw⟩ := RPPerceptionAction.exploreParams_present _ h
    exact (exploreAction_handlerOK msg w hw).discipline env s
  · intro s h
    obtain ⟨o, ho⟩ := RPPerceptionAction.lookAtParams_present _ h
    exact ⟨(lookAtObject_handlerOK msg o ho).discipline env s,
      (examineAction_handlerOK msg
        (RPPerceptionAction.examineParams_present _ h)).discipline env s⟩
  · intro s
    exact (examineObject_handlerOK msg).discipline env s
  · intro s h
    exact (examineObjectInHandAction_handlerOK fuel msg h).discipline env s
  · intro s h
    exact (simulated_handlerOK msg h).discipline env s

/-- C17, amended, at a look_at_object dispatch whose object has no stored waypoint and at
an observe-holding dispatch. -/
theorem feedback_protocol_witness :
    FeedbackDiscipline 7
      (RPPerceptionAction.lookAtObject ⟨7, "look_at_object", [⟨"o", "cup1"⟩]⟩ Env.quiet
        PerceptionState.init) ∧
    FeedbackDiscipline 7
      (SimulatedObservePDDLAction.dispatchCallback ⟨7, "observe-holding", []⟩ Env.quiet
        (SimulatedObservePDDLAction.init none)) :=
  ⟨((feedback_protocol Env.quiet ⟨7, "look_at_object", [⟨"o", "cup1"⟩]⟩ 0).2.1
      PerceptionState.init ⟨⟨"o", "cup1"⟩, by simp, rfl⟩).1,
   (feedback_protocol Env.quiet ⟨7, "observe-holding", []⟩ 0).2.2.2.2
      (SimulatedObservePDDLAction.init none) (by decide)⟩

/-- C17 as stated fails for examine_object_in_hand: an event that carries the required key
"o" with the empty value makes the handler return without any feedback, and the process
goes on. -/
theorem empty_object_id_counterexample :
    (∃ p ∈ ([⟨"o", ""⟩] : List KeyValue), p.key = "o") ∧
    RPPerceptionAction.examineObjectInHandAction 5 ⟨7, "examine_object_in_hand", [⟨"o", ""⟩]⟩
      Env.quiet PerceptionState.init = ⟨[], PerceptionState.init, Ctl.ret⟩ ∧
    feedbacks (RPPerceptionAction.examineObjectInHandAction 5
      ⟨7, "examine_object_in_hand", [⟨"o", ""⟩]⟩ Env.quiet PerceptionState.init).trace = [] := by
  refine ⟨⟨⟨"o", ""⟩, by simp, rfl⟩, ?_, ?_⟩
  · simp [RPPerceptionAction.examineObjectInHandAction, RPPerceptionAction.inHandParams]
  · simp [RPPerceptionAction.examineObjectInHandAction, RPPerceptionAction.inHandParams]

/-! ## Scenario B and the dispatch tables -/

/-- C11: dispatching look_at_object with o = o while the message store query for o ++ "_wp"
fails or returns no record makes exactly three calls: "action enabled", the query, and
"action failed"; no goal is sent to the recognizer. -/
theorem look_at_object_without_waypoint (a : Int) (o : String) (env : Env)
    (s : PerceptionState) (fuel : Nat)
    (h : env.queryNamedPose (o ++ "_wp") = none ∨ env.queryNamedPose (o ++ "_wp") = some []) :
    (RPPerceptionAction.dispatchCallback fuel ⟨a, "look_at_object", [⟨"o", o⟩]⟩ env s).trace =
      [Event.feedback a "action enabled", Event.queryNamedPose (o ++ "_wp"),
       Event.feedback a "action failed"] ∧
    feedbacks
      (RPPerceptionAction.dispatchCallback fuel ⟨a, "look_at_object", [⟨"o", o⟩]⟩ env s).trace =
      [(a, "action enabled"), (a, "action failed")] ∧
    recogniseGoalsOf
      (RPPerceptionAction.dispatchCallback fuel ⟨a, "look_at_object", [⟨"o", o⟩]⟩ env s).trace =
      [] := by
  have htrace :
      (RPPerceptionAction.dispatchCallback fuel ⟨a, "look_at_object", [⟨"o", o⟩]⟩ env
        s).trace =
      [Event.feedback a "action enabled", Event.queryNamedPose (o ++ "_wp"),
       Event.feedback a "action failed"] := by
    rcases h with h | h <;>
      simp [RPPerceptionAction.dispatchCallback, RPPerceptionAction.lookAtObject,
        RPPerceptionAction.lookAtParams, h, Act.call]
  refine ⟨htrace, ?_, ?_⟩ <;> rw [htrace] <;> simp

/-- C11 at the object "cup1" and a message store without any record. -/
theorem look_at_object_without_waypoint_witness :
    feedbacks
      (RPPerceptionAction.dispatchCallback 0 ⟨7, "look_at_object", [⟨"o", "cup1"⟩]⟩ Env.quiet
        PerceptionState.init).trace = [(7, "action enabled"), (7, "action failed")] ∧
    recogniseGoalsOf
      (RPPerceptionAction.dispatchCallback 0 ⟨7, "look_at_object", [⟨"o", "cup1"⟩]⟩ Env.quiet
        PerceptionState.init).trace = [] :=
  (look_at_object_without_waypoint 7 "cup1" Env.quiet PerceptionState.init 0 (Or.inl rfl)).2

theorem Res.prepend_nil {σ α : Type} (r : Res σ α) : Res.prepend [] r = r := by
  obtain ⟨t, s, c⟩ := r
  rfl

theorem Res.andThen_skip {σ : Type} (r : Res σ Unit) :
    r.andThen (fun _ s1 => (⟨[], s1, Ctl.next ()⟩ : Res σ Unit)) = r := by
  obtain ⟨t, s, c⟩ := r
  cases c <;> simp

theorem Res.andThen_skip' {σ : Type} (r : Res σ PUnit) :
    r.andThen (fun _ s1 => (⟨[], s1, Ctl.next PUnit.unit⟩ : Res σ PUnit)) = r := by
  obtain ⟨t, s, c⟩ := r
  cases c <;> simp

/-- C13: the dispatch callback of the perception node runs the one handler whose table entry
equals the action name exactly, and nothing else; for a name outside the table it makes no
call at all. -/
theorem dispatch_router (fuel : Nat) (msg : ActionDispatch) (env : Env)
    (s : PerceptionState) :
    (msg.name = "explore_waypoint" →
      RPPerceptionAction.dispatchCallback fuel msg env s =
        Act.call (RPPerceptionAction.exploreAction msg) env s) ∧
    (msg.name = "observe-classifiable_from" →
      RPPerceptionAction.dispatchCallback fuel msg env s =
        Act.call (RPPerceptionAction.examineAction msg) env s) ∧
    (msg.name = "look_at_object" →
      RPPerceptionAction.dispatchCallback fuel msg env s =
        Act.call (RPPerceptionAction.lookAtObject msg) env s) ∧
    (msg.name = "examine_object" →
      RPPerceptionAction.dispatchCallback fuel msg env s =
        Act.call (RPPerceptionAction.examineObject msg) env s) ∧
    (msg.name = "examine_object_in_hand" →
      RPPerceptionAction.dispatchCallback fuel msg env s =
        Act.call (RPPerceptionAction.examineObjectInHandAction fuel msg) env s) ∧
    (msg.name ∉ RPPerceptionAction.handled →
      RPPerceptionAction.dispatchCallback fuel msg env s = ⟨[], s, Ctl.next ()⟩) := by
  refine ⟨?_, ?_, ?_, ?_, ?_, ?_⟩
  · intro h
    simp [RPPerceptionAction.dispatchCallback, h, Res.andThen_skip, Res.andThen_skip',
      Res.prepend_nil]
  · intro h
    simp [RPPerceptionAction.dispatchCallback, h, Res.andThen_skip, Res.andThen_skip',
      Res.prepend_nil]
  · intro h
    simp [RPPerceptionAction.dispatchCallback, h, Res.andThen_skip, Res.andThen_skip',
      Res.prepend_nil]
  · intro h
    simp [RPPerceptionAction.dispatchCallback, h, Res.andThen_skip, Res.andThen_skip',
      Res.prepend_nil]
  · intro h
    simp [RPPerceptionAction.dispatchCallback, h, Res.andThen_skip, Res.andThen_skip',
      Res.prepend_nil]
  · intro h
    simp only [RPPerceptionAction.handled, List.mem_cons, List.mem_singleton,
      List.not_mem_nil, or_false, not_or] at h
    simp [RPPerceptionAction.dispatchCallback, h]

/-- C13 at the name of look_at_object and at the same name in another letter case. -/
theorem dispatch_router_witness :
    RPPerceptionAction.dispatchCallback 0 ⟨7, "look_at_object", [⟨"o", "cup1"⟩]⟩ Env.quiet
        PerceptionState.init =
      Act.call (RPPerceptionAction.lookAtObject ⟨7, "look_at_object", [⟨"o", "cup1"⟩]⟩)
        Env.quiet PerceptionState.init ∧
    RPPerceptionAction.dispatchCallback 0 ⟨7, "Look_At_Object", [⟨"o", "cup1"⟩]⟩ Env.quiet
        PerceptionState.init = ⟨[], PerceptionState.init, Ctl.next ()⟩ :=
  ⟨(dispatch_router 0 ⟨7, "look_at_object", [⟨"o", "cup1"⟩]⟩ Env.quiet
      PerceptionState.init).2.2.1 rfl,
   (dispatch_router 0 ⟨7, "Look_At_Object", [⟨"o", "cup1"⟩]⟩ Env.quiet
      PerceptionState.init).2.2.2.2.2 (by decide)⟩

/-- C18: for a name that lower-cases to one of the nine acknowledged names the simulated
observation handler makes exactly two calls, the publication of "action enabled" and of
"action achieved" for the action id; for a name that lower-cases to none of the eleven
recognised names it makes no call. -/
theorem simulated_acknowledges (msg : ActionDispatch) (env : Env) (s : SimulatedState) :
    (SimulatedObservePDDLAction.normalise msg.name ∈
        SimulatedObservePDDLAction.acknowledged →
      SimulatedObservePDDLAction.dispatchCallback msg env s =
        ⟨[Event.feedback msg.action_id "action enabled",
          Event.feedback msg.action_id "action achieved"], s, Ctl.next ()⟩) ∧
    (SimulatedObservePDDLAction.normalise msg.name ∉
        SimulatedObservePDDLAction.recognised →
      SimulatedObservePDDLAction.dispatchCallback msg env s = ⟨[], s, Ctl.ret⟩) := by
  refine ⟨?_, ?_⟩
  · intro h
    simp only [SimulatedObservePDDLAction.acknowledged, List.mem_cons, List.mem_singleton,
      List.not_mem_nil, or_false] at h
    rcases h with h | h | h | h | h | h | h | h | h <;>
      simp [SimulatedObservePDDLAction.dispatchCallback, h]
  · intro h
    simp only [SimulatedObservePDDLAction.recognised, List.mem_cons, List.mem_singleton,
      List.not_mem_nil, or_false, not_or] at h
    simp [SimulatedObservePDDLAction.dispatchCallback, h]

/-- C18 at the names "JUMP" and "observe-unknown". -/
theorem simulated_acknowledges_witness :
    SimulatedObservePDDLAction.dispatchCallback ⟨7, "JUMP", []⟩ Env.quiet
        (SimulatedObservePDDLAction.init none) =
      ⟨[Event.feedback 7 "action enabled", Event.feedback 7 "action achieved"],
        SimulatedObservePDDLAction.init none, Ctl.next ()⟩ ∧
    SimulatedObservePDDLAction.dispatchCallback ⟨7, "observe-unknown", []⟩ Env.quiet
        (SimulatedObservePDDLAction.init none) =
      ⟨[], SimulatedObservePDDLAction.init none, Ctl.ret⟩ :=
  ⟨(simulated_acknowledges ⟨7, "JUMP", []⟩ Env.quiet
      (SimulatedObservePDDLAction.init none)).1 (by decide),
   (simulated_acknowledges ⟨7, "observe-unknown", []⟩ Env.quiet
      (SimulatedObservePDDLAction.init none)).2 (by decide)⟩

/-! ## Scenario C -/

theorem Act.keeps_pure {σ α : Type} (a : α) : Act.Keeps (Pure.pure a : Act σ α) :=
  ⟨fun _ _ => rfl⟩

theorem Act.keeps_pure' {σ α : Type} (a : α) : Act.Keeps (Act.pure a : Act σ α) :=
  ⟨fun _ _ => rfl⟩

theorem Act.keeps_emit {σ : Type} (e : Event) : Act.Keeps (Act.emit e : Act σ Unit) :=
  ⟨fun _ _ => rfl⟩

theorem Act.keeps_env {σ : Type} : Act.Keeps (Act.env : Act σ Env) := ⟨fun _ _ => rfl⟩

theorem Act.keeps_ret {σ α : Type} : Act.Keeps (Act.ret : Act σ α) := ⟨fun _ _ => rfl⟩

theorem Act.keeps_exit {σ α : Type} (code : Int) : Act.Keeps (Act.exit code : Act σ α) :=
  ⟨fun _ _ => rfl⟩

theorem Act.keeps_bind {σ α β : Type} (m : Act σ α) (f : α → Act σ β)
    (hm : Act.Keeps m) (hf : ∀ a, Act.Keeps (f a)) : Act.Keeps (m >>= f) := by
  refine ⟨fun env s => ?_⟩
  have h1 := hm.run env s
  rw [Act.bind_apply]
  rcases hrun : m env s with ⟨t, s1, c⟩
  rw [hrun] at h1
  simp only at h1
  subst h1
  cases c with
  | next a => simpa using (hf a).run env s1
  | ret => rfl
  | exit code => rfl
  | timeout => rfl
  | undefined => rfl

theorem Act.keeps_ite {σ α : Type} (c : Prop) [Decidable c] (m m' : Act σ α)
    (hm : Act.Keeps m) (hm' : Act.Keeps m') : Act.Keeps (if c then m else m') := by
  split
  · exact hm
  · exact hm'

theorem Act.keeps_forEach {σ α : Type} (body : α → Act σ Unit)
    (h : ∀ a, Act.Keeps (body a)) (l : List α) : Act.Keeps (Act.forEach l body) := by
  induction l with
  | nil => exact Act.keeps_pure' ()
  | cons a t ih =>
    show Act.Keeps (body a >>= fun _ => Act.forEach t body)
    exact Act.keeps_bind _ _ (h a) (fun _ => ih)

theorem Act.keeps_forFold {σ α β : Type} (body : β → α → Act σ β)
    (h : ∀ b a, Act.Keeps (body b a)) (l : List α) :
    ∀ b, Act.Keeps (Act.forFold l b body) := by
  induction l with
  | nil => intro b; exact Act.keeps_pure' b
  | cons a t ih =>
    intro b
    show Act.Keeps (body b a >>= fun b1 => Act.forFold t b1 body)
    exact Act.keeps_bind _ _ (h b a) (fun b1 => ih b1)

theorem SimulatedObservePDDLAction.keeps_toyAtRightBox (id : Int) :
    Act.Keeps (SimulatedObservePDDLAction.toyAtRightBox id) := by
  unfold SimulatedObservePDDLAction.toyAtRightBox SimulatedObservePDDLAction.closestBoxLoop
  repeat' first
    | intro _
    | apply Act.keeps_bind
    | apply Act.keeps_ite
    | apply Act.keeps_forEach
    | apply Act.keeps_forFold
    | exact Act.keeps_emit _
    | exact Act.keeps_env
    | exact Act.keeps_ret
    | exact Act.keeps_exit _
    | exact Act.keeps_pure _
    | exact Act.keeps_pure' _
    | unfold SimulatedObservePDDLAction.toyStep
    | unfold SimulatedObservePDDLAction.closestBoxStep
    | split

/-- What a dispatch does to the member variables: an observe-sorting_done dispatch counts
one call, every other dispatch changes nothing. -/
theorem SimulatedObservePDDLAction.dispatchCallback_state (msg : ActionDispatch) (env : Env)
    (s : SimulatedState) :
    (SimulatedObservePDDLAction.dispatchCallback msg env s).state =
      if SimulatedObservePDDLAction.normalise msg.name = "observe-sorting_done" then
        { s with call_counter := wrapInt32 (s.call_counter + 1) }
      else s := by
  by_cases h : SimulatedObservePDDLAction.normalise msg.name = "observe-sorting_done"
  · rw [if_pos h]
    cases hadd : env.updateKnowledge UpdateType.ADD_KNOWLEDGE (sortingDoneItem s) <;>
      · simp only [sortingDoneItem] at hadd
        simp [SimulatedObservePDDLAction.dispatchCallback,
          SimulatedObservePDDLAction.sortingDone, h, hadd]
  · rw [if_neg h]
    have hk : Act.Keeps (SimulatedObservePDDLAction.dispatchCallback msg) := by
      unfold SimulatedObservePDDLAction.dispatchCallback
      simp only [h, if_false]
      repeat' first
        | intro _
        | exact SimulatedObservePDDLAction.keeps_toyAtRightBox _
        | apply Act.keeps_bind
        | apply Act.keeps_ite
        | exact Act.keeps_emit _
        | exact Act.keeps_ret
        | exact Act.keeps_pure _
    exact hk.run env s

theorem Act.call_state {σ : Type} (m : Act σ Unit) (env : Env) (s : σ) :
    (Act.call m env s).state = (m env s).state := by
  unfold Act.call
  split <;> rfl

theorem SimulatedObservePDDLAction.spin_state (env : Env) (pre : List ActionDispatch) :
    ∀ s : SimulatedState, (SimulatedObservePDDLAction.spin pre env s).ctl = Ctl.next () →
      (SimulatedObservePDDLAction.spin pre env s).state =
        { s with
          call_counter :=
            SimulatedObservePDDLAction.counterAfter
              (SimulatedObservePDDLAction.sortingDoneCount pre) s.call_counter } := by
  induction pre with
  | nil =>
    intro s _
    simp [SimulatedObservePDDLAction.spin, SimulatedObservePDDLAction.sortingDoneCount,
      SimulatedObservePDDLAction.counterAfter]
  | cons msg t ih =>
    intro s halive
    have hst := Act.call_state (SimulatedObservePDDLAction.dispatchCallback msg) env s
    rw [SimulatedObservePDDLAction.dispatchCallback_state] at hst
    unfold SimulatedObservePDDLAction.spin at halive ⊢
    rw [Act.forEach_cons] at halive ⊢
    rcases hrun : Act.call (SimulatedObservePDDLAction.dispatchCallback msg) env s
      with ⟨t1, s1, c1⟩
    rw [hrun] at hst halive
    have hst' : s1 = _ := hst
    cases c1 with
    | next u =>
      simp only [Res.andThen_next, Res.prepend_ctl, Res.prepend_state] at halive ⊢
      have := ih s1 halive
      unfold SimulatedObservePDDLAction.spin at this
      rw [this, hst']
      by_cases hn : SimulatedObservePDDLAction.normalise msg.name = "observe-sorting_done"
      · simp [SimulatedObservePDDLAction.sortingDoneCount, hn, List.filter_cons,
          SimulatedObservePDDLAction.counterAfter, Function.iterate_succ_apply]
      · simp [SimulatedObservePDDLAction.sortingDoneCount, hn, List.filter_cons]
    | ret => simp at halive
    | exit code => simp at halive
    | timeout => simp at halive
    | undefined => simp at halive

theorem SimulatedObservePDDLAction.counterAfter_eq (n : Nat) (c : Int) :
    SimulatedObservePDDLAction.counterAfter n c =
      if n = 0 then c else wrapInt32 (c + n) := by
  induction n with
  | zero => simp [SimulatedObservePDDLAction.counterAfter]
  | succ k ih =>
    unfold SimulatedObservePDDLAction.counterAfter at ih ⊢
    rw [Function.iterate_succ_apply', ih]
    by_cases hk : k = 0
    · subst hk
      simp
    · rw [if_neg hk, if_neg (Nat.succ_ne_zero k), wrapInt32_wrapInt32_add]
      congr 1
      push_cast
      ring

theorem SimulatedObservePDDLAction.counterAfter_zero (n : Nat) (h : (n : Int) < 2147483648) :
    SimulatedObservePDDLAction.counterAfter n 0 = n := by
  rw [SimulatedObservePDDLAction.counterAfter_eq]
  by_cases hn : n = 0
  · subst hn
    simp
  · rw [if_neg hn, zero_add]
    exact wrapInt32_of_range (by omega) h

/-- An observe-sorting_done dispatch whose ADD call succeeds runs to the end. -/
theorem SimulatedObservePDDLAction.dispatch_sortingDone (env : Env) (s : SimulatedState)
    (msg : ActionDispatch)
    (hname : SimulatedObservePDDLAction.normalise msg.name = "observe-sorting_done")
    (hadd : env.updateKnowledge UpdateType.ADD_KNOWLEDGE (sortingDoneItem s) = true) :
    SimulatedObservePDDLAction.dispatchCallback msg env s =
      ⟨[Event.feedback msg.action_id "action enabled",
        Event.updateKnowledge UpdateType.ADD_KNOWLEDGE (sortingDoneItem s),
        Event.updateKnowledge UpdateType.REMOVE_KNOWLEDGE
          { sortingDoneItem s with is_negative := !(sortingDoneItem s).is_negative },
        Event.feedback msg.action_id "action achieved"],
       { s with call_counter := wrapInt32 (s.call_counter + 1) }, Ctl.next ()⟩ := by
  simp only [sortingDoneItem] at hadd
  simp [SimulatedObservePDDLAction.dispatchCallback, SimulatedObservePDDLAction.sortingDone,
    hname, hadd, sortingDoneItem]

theorem SimulatedObservePDDLAction.sortingDoneCount_replicate (msg : ActionDispatch)
    (hname : SimulatedObservePDDLAction.normalise msg.name = "observe-sorting_done")
    (n : Nat) :
    SimulatedObservePDDLAction.sortingDoneCount (List.replicate n msg) = n := by
  induction n with
  | zero => rfl
  | succ k ih =>
    unfold SimulatedObservePDDLAction.sortingDoneCount at ih ⊢
    rw [List.replicate_succ, List.filter_cons_of_pos (by simpa using hname), List.length_cons,
      ih]

/-- While every ADD call succeeds, any number of observe-sorting_done dispatches leaves the
process running. -/
theorem SimulatedObservePDDLAction.spin_replicate (env : Env) (msg : ActionDispatch)
    (hname : SimulatedObservePDDLAction.normalise msg.name = "observe-sorting_done")
    (hadd : ∀ k, env.updateKnowledge UpdateType.ADD_KNOWLEDGE k = true) (n : Nat) :
    ∀ s : SimulatedState,
      (SimulatedObservePDDLAction.spin (List.replicate n msg) env s).ctl = Ctl.next () := by
  induction n with
  | zero => intro s; rfl
  | succ k ih =>
    intro s
    have hrun := SimulatedObservePDDLAction.dispatch_sortingDone env s msg hname (hadd _)
    have hcall : Act.call (SimulatedObservePDDLAction.dispatchCallback msg) env s =
        ⟨(SimulatedObservePDDLAction.dispatchCallback msg env s).trace,
         { s with call_counter := wrapInt32 (s.call_counter + 1) }, Ctl.next ()⟩ := by
      unfold Act.call
      rw [hrun]
    have := ih { s with call_counter := wrapInt32 (s.call_counter + 1) }
    unfold SimulatedObservePDDLAction.spin at this ⊢
    rw [List.replicate_succ, Act.forEach_cons, hcall]
    simpa using this

/-- C12, amended: with threshold t, the k-th observe-sorting_done dispatch since the start
of the process, for k below 2^31 (k - 1 such dispatches came before, among any others, and
the process is still running), first issues ADD of the fact sorting_done with
is_negative = (k < t); when that call succeeds its updates are exactly this ADD followed by
REMOVE of the same fact with the opposite polarity. -/
theorem kth_sorting_done (env : Env) (t : Int) (s0 : SimulatedState)
    (pre : List ActionDispatch) (msg : ActionDispatch)
    (hc : s0.call_counter = 0) (ht : s0.sort_for_ = t)
    (halive : (SimulatedObservePDDLAction.spin pre env s0).ctl = Ctl.next ())
    (hname : SimulatedObservePDDLAction.normalise msg.name = "observe-sorting_done")
    (hk : (SimulatedObservePDDLAction.sortingDoneCount pre : Int) + 1 < 2147483648) :
    (updatesOf (SimulatedObservePDDLAction.dispatchCallback msg env
        (SimulatedObservePDDLAction.spin pre env s0).state).trace).head? =
      some (UpdateType.ADD_KNOWLEDGE, sortingDoneFact
        (decide (((SimulatedObservePDDLAction.sortingDoneCount pre : Int) + 1) < t))) ∧
    (env.updateKnowledge UpdateType.ADD_KNOWLEDGE (sortingDoneFact
        (decide (((SimulatedObservePDDLAction.sortingDoneCount pre : Int) + 1) < t))) = true →
      updatesOf (SimulatedObservePDDLAction.dispatchCallback msg env
          (SimulatedObservePDDLAction.spin pre env s0).state).trace =
        assertPair (sortingDoneFact
          (decide (((SimulatedObservePDDLAction.sortingDoneCount pre : Int) + 1) < t)))) := by
  rw [SimulatedObservePDDLAction.spin_state env pre s0 halive, hc,
    SimulatedObservePDDLAction.counterAfter_zero _ (by omega)]
  have hw : wrapInt32 ((SimulatedObservePDDLAction.sortingDoneCount pre : Int) + 1) =
      (SimulatedObservePDDLAction.sortingDoneCount pre : Int) + 1 :=
    wrapInt32_of_range (by omega) hk
  refine ⟨?_, ?_⟩
  · cases hadd : env.updateKnowledge UpdateType.ADD_KNOWLEDGE (sortingDoneFact
        (decide (((SimulatedObservePDDLAction.sortingDoneCount pre : Int) + 1) < t))) <;>
      · simp only [sortingDoneFact] at hadd
        simp [SimulatedObservePDDLAction.dispatchCallback,
          SimulatedObservePDDLAction.sortingDone, hname, hw, ht, hadd, sortingDoneFact]
  · intro hadd
    simp only [sortingDoneFact] at hadd
    simp [SimulatedObservePDDLAction.dispatchCallback,
      SimulatedObservePDDLAction.sortingDone, hname, hw, ht, hadd, sortingDoneFact,
      assertPair]

/-- C12, amended, with threshold 3: the first dispatch asserts sorting_done negative and
retracts positive, the third asserts positive and retracts negative. -/
theorem kth_sorting_done_witness :
    updatesOf (SimulatedObservePDDLAction.dispatchCallback sortingDoneDispatch Env.quiet
        (SimulatedObservePDDLAction.spin [] Env.quiet
          (SimulatedObservePDDLAction.init none)).state).trace =
      assertPair (sortingDoneFact true) ∧
    updatesOf (SimulatedObservePDDLAction.dispatchCallback sortingDoneDispatch Env.quiet
        (SimulatedObservePDDLAction.spin [sortingDoneDispatch, sortingDoneDispatch] Env.quiet
          (SimulatedObservePDDLAction.init none)).state).trace =
      assertPair (sortingDoneFact false) :=
  ⟨(kth_sorting_done Env.quiet 3 (SimulatedObservePDDLAction.init none) []
      sortingDoneDispatch rfl rfl rfl (by decide) (by decide)).2 rfl,
   (kth_sorting_done Env.quiet 3 (SimulatedObservePDDLAction.init none)
      [sortingDoneDispatch, sortingDoneDispatch] sortingDoneDispatch rfl rfl rfl
      (by decide) (by decide)).2 rfl⟩

/-- C12 as stated fails in two ways.  When the ADD call of the first dispatch fails, the
process ends right after it and no REMOVE follows.  And the counter is a 32-bit int: after
2^31 - 1 dispatches it wraps around, so dispatch number 2^31 asserts sorting_done negative
although 2^31 is not below the threshold 3. -/
theorem sorting_done_counterexample :
    updatesOf (SimulatedObservePDDLAction.dispatchCallback sortingDoneDispatch Env.failing
        (SimulatedObservePDDLAction.init none)).trace =
      [(UpdateType.ADD_KNOWLEDGE, sortingDoneFact true)] ∧
    (SimulatedObservePDDLAction.dispatchCallback sortingDoneDispatch Env.failing
        (SimulatedObservePDDLAction.init none)).ctl = Ctl.exit (-1) ∧
    (SimulatedObservePDDLAction.spin (List.replicate 2147483647 sortingDoneDispatch) Env.quiet
        (SimulatedObservePDDLAction.init none)).ctl = Ctl.next () ∧
    updatesOf (SimulatedObservePDDLAction.dispatchCallback sortingDoneDispatch Env.quiet
        (SimulatedObservePDDLAction.spin (List.replicate 2147483647 sortingDoneDispatch)
          Env.quiet (SimulatedObservePDDLAction.init none)).state).trace =
      assertPair (sortingDoneFact true) := by
  have hn : SimulatedObservePDDLAction.normalise sortingDoneDispatch.name =
      "observe-sorting_done" := by decide
  have hn' : SimulatedObservePDDLAction.normalise "observe-sorting_done" =
      "observe-sorting_done" := by decide
  have halive := SimulatedObservePDDLAction.spin_replicate Env.quiet sortingDoneDispatch hn
    (fun _ => rfl) 2147483647 (SimulatedObservePDDLAction.init none)
  refine ⟨?_, ?_, halive, ?_⟩
  · simp [SimulatedObservePDDLAction.dispatchCallback, SimulatedObservePDDLAction.sortingDone,
      sortingDoneDispatch, hn', SimulatedObservePDDLAction.init, Env.failing, Env.quiet,
      sortingDoneFact, wrapInt32]
  · simp [SimulatedObservePDDLAction.dispatchCallback, SimulatedObservePDDLAction.sortingDone,
      sortingDoneDispatch, hn', SimulatedObservePDDLAction.init, Env.failing, Env.quiet,
      wrapInt32]
  · rw [SimulatedObservePDDLAction.spin_state Env.quiet _ _ halive,
      SimulatedObservePDDLAction.sortingDoneCount_replicate sortingDoneDispatch hn,
      show (SimulatedObservePDDLAction.init none).call_counter = 0 from rfl,
      SimulatedObservePDDLAction.counterAfter_zero _ (by norm_num),
      SimulatedObservePDDLAction.dispatch_sortingDone Env.quiet _ sortingDoneDispatch hn rfl]
    simp [sortingDoneItem, SimulatedObservePDDLAction.init, wrapInt32, sortingDoneFact,
      assertPair]

/-- C19, the code with sort_for = 5 configured: the constructor leaves the threshold at 3
whatever the parameter server holds, so the third observe-sorting_done dispatch already
asserts sorting_done positive. -/
theorem sort_for_parameter_is_overwritten :
    (∀ sort_for_param, (SimulatedObservePDDLAction.init sort_for_param).sort_for_ = 3) ∧
    updatesOf (SimulatedObservePDDLAction.dispatchCallback sortingDoneDispatch Env.quiet
        (SimulatedObservePDDLAction.spin [sortingDoneDispatch, sortingDoneDispatch] Env.quiet
          (SimulatedObservePDDLAction.init (some 5))).state).trace =
      assertPair (sortingDoneFact false) := by
  refine ⟨fun _ => rfl, ?_⟩
  have hn : SimulatedObservePDDLAction.normalise sortingDoneDispatch.name =
      "observe-sorting_done" := by decide
  rw [SimulatedObservePDDLAction.spin_state Env.quiet [sortingDoneDispatch, sortingDoneDispatch]
    (SimulatedObservePDDLAction.init (some 5)) rfl,
    show SimulatedObservePDDLAction.sortingDoneCount [sortingDoneDispatch, sortingDoneDispatch]
      = 2 from by decide,
    show (SimulatedObservePDDLAction.init (some 5)).call_counter = 0 from rfl,
    SimulatedObservePDDLAction.counterAfter_zero _ (by norm_num),
    SimulatedObservePDDLAction.dispatch_sortingDone Env.quiet _ sortingDoneDispatch hn rfl]
  simp [sortingDoneItem, SimulatedObservePDDLAction.init, wrapInt32, sortingDoneFact,
    assertPair]

/-! ## Failed calls in the perception handlers -/

theorem Act.runs_pure {σ α : Type} (a : α) : Act.Runs (Pure.pure a : Act σ α) :=
  ⟨fun _ _ => ⟨a, rfl⟩⟩

theorem Act.runs_pure' {σ α : Type} (a : α) : Act.Runs (Act.pure a : Act σ α) :=
  ⟨fun _ _ => ⟨a, rfl⟩⟩

theorem Act.runs_emit {σ : Type} (e : Event) : Act.Runs (Act.emit e : Act σ Unit) :=
  ⟨fun _ _ => ⟨(), rfl⟩⟩

theorem Act.runs_env {σ : Type} : Act.Runs (Act.env : Act σ Env) :=
  ⟨fun env _ => ⟨env, rfl⟩⟩

theorem Act.runs_get {σ : Type} : Act.Runs (Act.get : Act σ σ) := ⟨fun _ s => ⟨s, rfl⟩⟩

theorem Act.runs_set {σ : Type} (s' : σ) : Act.Runs (Act.set s' : Act σ Unit) :=
  ⟨fun _ _ => ⟨(), rfl⟩⟩

theorem Act.runs_bind {σ α β : Type} (m : Act σ α) (f : α → Act σ β)
    (hm : Act.Runs m) (hf : ∀ a, Act.Runs (f a)) : Act.Runs (m >>= f) := by
  refine ⟨fun env s => ?_⟩
  obtain ⟨a, ha⟩ := hm.run env s
  rw [Act.bind_apply]
  rcases hrun : m env s with ⟨t, s1, c⟩
  rw [hrun] at ha
  simp only at ha
  subst ha
  obtain ⟨b, hb⟩ := (hf a).run env s1
  exact ⟨b, by simpa using hb⟩

theorem Act.runs_forEach {σ α : Type} (body : α → Act σ Unit)
    (h : ∀ a, Act.Runs (body a)) (l : List α) : Act.Runs (Act.forEach l body) := by
  induction l with
  | nil => exact Act.runs_pure' ()
  | cons a t ih =>
    show Act.Runs (body a >>= fun _ => Act.forEach t body)
    exact Act.runs_bind _ _ (h a) (fun _ => ih)

theorem RPPerceptionAction.runs_updateObject (object : SceneObject) (w : String) :
    Act.Runs (RPPerceptionAction.updateObject object w) :=
  ⟨fun env s => ⟨(), by rw [RPPerceptionAction.updateObject_apply]⟩⟩

theorem RPPerceptionAction.runs_addObject (object : SceneObject) :
    Act.Runs (RPPerceptionAction.addObject object) :=
  RPPerceptionAction.runs_updateObject object _

theorem RPPerceptionAction.runs_removeObject (object : SceneObject) :
    Act.Runs (RPPerceptionAction.removeObject object) :=
  ⟨fun env s => ⟨(), by simp [RPPerceptionAction.removeObject]⟩⟩

theorem exploreAction_runs (msg : ActionDispatch) (w : String)
    (hp : RPPerceptionAction.exploreParams msg.parameters = (w, true)) :
    Act.Runs (RPPerceptionAction.exploreAction msg) := by
  unfold RPPerceptionAction.exploreAction
  simp only [hp, Bool.not_true, Bool.false_eq_true, if_false]
  repeat' first
    | intro _
    | exact Act.runs_forEach _ (fun so => RPPerceptionAction.runs_addObject _) _
    | exact Act.runs_forEach _ (fun so => RPPerceptionAction.runs_updateObject _ _) _
    | exact Act.runs_forEach _ (fun so => RPPerceptionAction.runs_removeObject _) _
    | apply Act.runs_bind
    | exact Act.runs_emit _
    | exact Act.runs_env
    | exact Act.runs_pure _

theorem exploreAction_feedback (env : Env) (s : PerceptionState) (msg : ActionDispatch)
    (h : ∃ p ∈ msg.parameters, p.key = "wp") :
    feedbacks (RPPerceptionAction.exploreAction msg env s).trace =
      [(msg.action_id, "action enabled"), (msg.action_id, "action achieved")] := by
  obtain ⟨w, hw⟩ := RPPerceptionAction.exploreParams_present _ h
  obtain ⟨a, ha⟩ := (exploreAction_runs msg w hw).run env s
  exact ((exploreAction_handlerOK msg w hw).run env s).2.1 a ha

theorem lookAtObject_query_failure (env : Env) (s : PerceptionState) (msg : ActionDispatch)
    (o : String) (hp : RPPerceptionAction.lookAtParams msg.parameters = (o, true))
    (h : env.queryNamedPose (o ++ "_wp") = none ∨ env.queryNamedPose (o ++ "_wp") = some []) :
    RPPerceptionAction.lookAtObject msg env s =
      ⟨[Event.feedback msg.action_id "action enabled", Event.queryNamedPose (o ++ "_wp"),
        Event.feedback msg.action_id "action failed"], s, Ctl.ret⟩ := by
  rcases h with h | h <;> simp [RPPerceptionAction.lookAtObject, hp, h]

theorem examineObject_lookup_failure (env : Env) (s : PerceptionState) (msg : ActionDispatch)
    (hfail : env.lookupTransform = none ∨ env.getInstances "box" = none ∨
      ∃ boxes, env.getInstances "box" = some boxes ∧
        ∃ b ∈ boxes, env.queryNamedPose (b ++ "_location") = none ∨
          env.queryNamedPose (b ++ "_location") = some []) :
    feedbacks (RPPerceptionAction.examineObject msg env s).trace =
      [(msg.action_id, "action enabled"), (msg.action_id, "action failed")] := by
  cases hT : env.lookupTransform with
  | none => simp [RPPerceptionAction.examineObject, hT]
  | some origin =>
    cases hI : env.getInstances "box" with
    | none => simp [RPPerceptionAction.examineObject, hT, hI]
    | some boxes =>
      have hbad : ∃ b ∈ boxes, env.queryNamedPose (b ++ "_location") = none ∨
          env.queryNamedPose (b ++ "_location") = some [] := by
        rcases hfail with h | h | ⟨boxes', h, hb⟩
        · rw [hT] at h; cases h
        · rw [hI] at h; cases h
        · rw [hI] at h
          cases h
          exact hb
      obtain ⟨t, ht, hf, _, _⟩ :=
        RPPerceptionAction.forFold_closestBoxStep_fail env s msg.action_id origin boxes {} hbad
      simp [RPPerceptionAction.examineObject, hT, hI, RPPerceptionAction.closestBoxLoop, ht,
        hf]

theorem feedbacks_map_eq_nil {α : Type} (f : α → Event) (h : ∀ a, feedbacks [f a] = [])
    (l : List α) : feedbacks (l.map f) = [] := by
  apply feedbacks_eq_nil
  intro e he
  obtain ⟨a, _, rfl⟩ := List.mem_map.1 he
  exact h a

theorem RPPerceptionAction.waitForArm_ctl (goal_state : List ℚ) (error : ℚ) (env : Env) :
    ∀ (fuel : Nat) (s : PerceptionState),
      feedbacks (RPPerceptionAction.waitForArm goal_state error fuel env s).trace = [] ∧
      ((RPPerceptionAction.waitForArm goal_state error fuel env s).ctl = Ctl.next () ∨
       (RPPerceptionAction.waitForArm goal_state error fuel env s).ctl = Ctl.timeout) := by
  intro fuel
  induction fuel with
  | zero => intro s; exact ⟨rfl, Or.inr rfl⟩
  | succ n ih =>
    intro s
    unfold RPPerceptionAction.waitForArm
    by_cases hok : env.rosOk s.polls = true
    · by_cases hd : RPPerceptionAction.armDone goal_state
          ((env.jointState s.polls).getD s.last_joint_state) error = true
      · simp [hok, hd]
      · simpa [hok, hd] using ih _
    · simp [hok]

theorem RPPerceptionAction.extendArm_ctl (fuel : Nat) (env : Env) (s : PerceptionState) :
    (RPPerceptionAction.extendArm fuel env s).ctl = Ctl.next true ∨
    (RPPerceptionAction.extendArm fuel env s).ctl = Ctl.timeout ∨
    (RPPerceptionAction.extendArm fuel env s).ctl = Ctl.undefined := by
  by_cases hlen : s.last_joint_state.length < 8
  · right; right
    simp [RPPerceptionAction.extendArm, hlen]
  · have h := (RPPerceptionAction.waitForArm_ctl
      (((((s.last_joint_state.set 3 (3 / 2)).set 4 (86 / 100)).set 5 0).set 6 (-16 / 10)).set 7
        (-18 / 10)) (toFloat (5 / 100)) env fuel s).2
    rcases hw : RPPerceptionAction.waitForArm
      (((((s.last_joint_state.set 3 (3 / 2)).set 4 (86 / 100)).set 5 0).set 6 (-16 / 10)).set 7
        (-18 / 10)) (toFloat (5 / 100)) fuel env s with ⟨t, s1, c⟩
    rw [hw] at h
    rcases h with h | h <;> simp only at h <;> subst h <;>
      simp [RPPerceptionAction.extendArm, hlen, hw]

theorem RPPerceptionAction.retractArm_ctl (fuel : Nat) (env : Env) (s : PerceptionState) :
    (RPPerceptionAction.retractArm fuel env s).ctl = Ctl.next true ∨
    (RPPerceptionAction.retractArm fuel env s).ctl = Ctl.timeout ∨
    (RPPerceptionAction.retractArm fuel env s).ctl = Ctl.undefined := by
  by_cases hlen : s.last_joint_state.length < 8
  · right; right
    simp [RPPerceptionAction.retractArm, hlen]
  · have h := (RPPerceptionAction.waitForArm_ctl
      (((((s.last_joint_state.set 3 (7 / 10)).set 4 (16 / 10)).set 5 0).set 6 (-17 / 10)).set 7
        (-18 / 10)) (toFloat (5 / 100)) env fuel s).2
    rcases hw : RPPerceptionAction.waitForArm
      (((((s.last_joint_state.set 3 (7 / 10)).set 4 (16 / 10)).set 5 0).set 6 (-17 / 10)).set 7
        (-18 / 10)) (toFloat (5 / 100)) fuel env s with ⟨t, s1, c⟩
    rw [hw] at h
    rcases h with h | h <;> simp only at h <;> subst h <;>
      simp [RPPerceptionAction.retractArm, hlen, hw]

theorem RPPerceptionAction.armDone_self (goal : List ℚ) (error : ℚ) (he : 0 ≤ error) :
    RPPerceptionAction.armDone goal goal error = true := by
  simp [RPPerceptionAction.armDone, he]

/-- One iteration of the polling loop is enough when the first joint state delivered is the
goal. -/
theorem RPPerceptionAction.waitForArm_arrives (goal : List ℚ) (error : ℚ) (fuel : Nat)
    (env : Env) (s : PerceptionState) (hok : env.rosOk s.polls = true)
    (hj : env.jointState s.polls = some goal) (he : 0 ≤ error) :
    RPPerceptionAction.waitForArm goal error (fuel + 1) env s =
      ⟨[Event.spinOnce], { s with last_joint_state := goal, polls := s.polls + 1 },
        Ctl.next ()⟩ := by
  unfold RPPerceptionAction.waitForArm
  simp [hok, hj, RPPerceptionAction.armDone_self goal error he]

theorem RPPerceptionAction.extendArm_arrives (fuel : Nat) (env : Env) (s : PerceptionState)
    (hlen : 8 ≤ s.last_joint_state.length) (hok : env.rosOk s.polls = true)
    (hj : env.jointState s.polls =
      some (RPPerceptionAction.extendedJoints s.last_joint_state)) :
    RPPerceptionAction.extendArm (fuel + 1) env s =
      ⟨[Event.ptpGoal (RPPerceptionAction.extendedJoints s.last_joint_state),
        Event.ptpGoal (RPPerceptionAction.extendedJoints s.last_joint_state),
        Event.spinOnce],
       { s with last_joint_state := RPPerceptionAction.extendedJoints s.last_joint_state,
                polls := s.polls + 1 }, Ctl.next true⟩ := by
  have hw := RPPerceptionAction.waitForArm_arrives
    (RPPerceptionAction.extendedJoints s.last_joint_state) (toFloat (5 / 100)) fuel env s hok hj
    (toFloat_nonneg (by norm_num))
  unfold RPPerceptionAction.extendedJoints at hw ⊢
  simp [RPPerceptionAction.extendArm, not_lt.mpr hlen, hw]

theorem RPPerceptionAction.retractArm_arrives (fuel : Nat) (env : Env) (s : PerceptionState)
    (hlen : 8 ≤ s.last_joint_state.length) (hok : env.rosOk s.polls = true)
    (hj : env.jointState s.polls =
      some (RPPerceptionAction.retractedJoints s.last_joint_state)) :
    RPPerceptionAction.retractArm (fuel + 1) env s =
      ⟨[Event.ptpGoal (RPPerceptionAction.retractedJoints s.last_joint_state),
        Event.ptpGoal (RPPerceptionAction.retractedJoints s.last_joint_state),
        Event.spinOnce],
       { s with last_joint_state := RPPerceptionAction.retractedJoints s.last_joint_state,
                polls := s.polls + 1 }, Ctl.next true⟩ := by
  have hw := RPPerceptionAction.waitForArm_arrives
    (RPPerceptionAction.retractedJoints s.last_joint_state) (toFloat (5 / 100)) fuel env s hok hj
    (toFloat_nonneg (by norm_num))
  unfold RPPerceptionAction.retractedJoints at hw ⊢
  simp [RPPerceptionAction.retractArm, not_lt.mpr hlen, hw]

theorem lookAtObject_goal_failure (env : Env) (s : PerceptionState) (msg : ActionDispatch)
    (o : String) (p : PoseStamped) (rest : List PoseStamped)
    (hp : RPPerceptionAction.lookAtParams msg.parameters = (o, true))
    (hq : env.queryNamedPose (o ++ "_wp") = some (p :: rest))
    (hst : (env.recognise { look_for_object := LookMode.EXPLORE, look_at_pose := p }).1 ≠
      GoalState.SUCCEEDED) :
    feedbacks (RPPerceptionAction.lookAtObject msg env s).trace =
      [(msg.action_id, "action enabled"), (msg.action_id, "action failed")] := by
  rcases hr : env.recognise ⟨LookMode.EXPLORE, p⟩ with ⟨state, result⟩
  rw [hr] at hst
  simp only at hst
  simp [RPPerceptionAction.lookAtObject, hp, hq, hr, RPPerceptionAction.goalSuccess, hst]

theorem examineObject_goal_failure (env : Env) (s : PerceptionState) (msg : ActionDispatch)
    (origin : Point) (boxes : List String)
    (hT : env.lookupTransform = some origin)
    (hI : env.getInstances "box" = some boxes)
    (hB : ∀ b ∈ boxes, ∃ p rest, env.queryNamedPose (b ++ "_location") = some (p :: rest))
    (hst : (env.recognise
        { look_for_object := LookMode.EXPLORE,
          look_at_pose := (boxes.foldl (pickBox env origin) {}).closest_box_pose }).1 ≠
      GoalState.SUCCEEDED) :
    feedbacks (RPPerceptionAction.examineObject msg env s).trace =
      [(msg.action_id, "action enabled"), (msg.action_id, "action failed")] := by
  rcases hr : env.recognise
    ⟨LookMode.EXPLORE, (boxes.foldl (pickBox env origin) {}).closest_box_pose⟩
    with ⟨state, result⟩
  rw [hr] at hst
  simp only at hst
  simp [RPPerceptionAction.examineObject, hT, hI, RPPerceptionAction.closestBoxLoop,
    RPPerceptionAction.forFold_closestBoxStep env s msg.action_id origin boxes {} hB, hr,
    RPPerceptionAction.goalSuccess, hst,
    feedbacks_map_eq_nil (fun b => Event.queryNamedPose (b ++ "_location")) (fun _ => rfl)]

theorem examineAction_goal_failure (env : Env) (s : PerceptionState) (msg : ActionDispatch)
    (hp : (RPPerceptionAction.examineParams msg.parameters).foundObject = true)
    (hst : (env.examine
        { look_for_object := LookMode.EXPLORE,
          id := (RPPerceptionAction.examineParams msg.parameters).objectID }).1 ≠
      GoalState.SUCCEEDED)
    (hadd : env.updateKnowledge UpdateType.ADD_KNOWLEDGE (classifiableFrom env msg) = true)
    (hrem : env.updateKnowledge UpdateType.REMOVE_KNOWLEDGE
      { classifiableFrom env msg with
        is_negative := !(classifiableFrom env msg).is_negative } = true) :
    feedbacks (RPPerceptionAction.examineAction msg env s).trace =
      [(msg.action_id, "action enabled"), (msg.action_id, "action failed")] := by
  rcases hr : env.examine
    ⟨LookMode.EXPLORE, (RPPerceptionAction.examineParams msg.parameters).objectID⟩
    with ⟨state, result⟩
  rw [hr] at hst
  simp only at hst
  simp [classifiableFrom, hr, RPPerceptionAction.goalSuccess, hst] at hadd hrem
  simp [RPPerceptionAction.examineAction, hp, hr, RPPerceptionAction.goalSuccess, hst, hadd,
    hrem]

theorem examineObjectInHandAction_goal_failure (fuel : Nat) (env : Env) (s : PerceptionState)
    (msg : ActionDispatch)
    (hp : RPPerceptionAction.inHandParams msg.parameters ≠ "")
    (hst : (env.examine
        { look_for_object := LookMode.EXPLORE,
          id := RPPerceptionAction.inHandParams msg.parameters }).1 ≠ GoalState.SUCCEEDED)
    (hnt : (RPPerceptionAction.examineObjectInHandAction fuel msg env s).ctl ≠ Ctl.timeout)
    (hnu : (RPPerceptionAction.examineObjectInHandAction fuel msg env s).ctl ≠
      Ctl.undefined) :
    feedbacks (RPPerceptionAction.examineObjectInHandAction fuel msg env s).trace =
      [(msg.action_id, "action enabled"), (msg.action_id, "action failed")] := by
  have hok := (examineObjectInHandAction_handlerOK fuel msg hp).run env s
  apply hok.2.2
  rcases hr : env.examine ⟨LookMode.EXPLORE, RPPerceptionAction.inHandParams msg.parameters⟩
    with ⟨state, result⟩
  rw [hr] at hst
  simp only at hst
  have hc1 := RPPerceptionAction.extendArm_ctl fuel env s
  rcases hE : RPPerceptionAction.extendArm fuel env s with ⟨t1, s1, c1⟩
  rw [hE] at hc1
  rcases hc1 with h1 | h1 | h1 <;> simp only at h1 <;> subst h1
  · simp [RPPerceptionAction.examineObjectInHandAction, hp, hE, hr,
      RPPerceptionAction.goalSuccess, hst]
  · exact absurd (by simp [RPPerceptionAction.examineObjectInHandAction, hp, hE]) hnt
  · exact absurd (by simp [RPPerceptionAction.examineObjectInHandAction, hp, hE]) hnu

/-- C14, amended: in explore_waypoint failed calls are only logged, so whatever the
detection service and the knowledge base answer the feedback is "action enabled" then
"action achieved".  In look_at_object a failed or empty message store query, and in
examine_object a failed transform lookup, instance query or box location query, give
"action enabled" then "action failed".  A perception goal that does not end SUCCEEDED
gives "action enabled" then "action failed" in all four handlers that send one: in
look_at_object and examine_object once the lookups succeeded, in observe-classifiable_from
once its two classifiable_from updates succeeded, and in examine_object_in_hand when the
run neither stays in an arm polling loop nor writes past the end of the joint vector. -/
theorem failed_calls_in_perception_handlers (fuel : Nat) (env : Env) (s : PerceptionState)
    (msg : ActionDispatch) :
    ((∃ p ∈ msg.parameters, p.key = "wp") →
      feedbacks (RPPerceptionAction.exploreAction msg env s).trace =
        [(msg.action_id, "action enabled"), (msg.action_id, "action achieved")]) ∧
    (∀ o, RPPerceptionAction.lookAtParams msg.parameters = (o, true) →
      (env.queryNamedPose (o ++ "_wp") = none ∨ env.queryNamedPose (o ++ "_wp") = some []) →
      feedbacks (RPPerceptionAction.lookAtObject msg env s).trace =
        [(msg.action_id, "action enabled"), (msg.action_id, "action failed")]) ∧
    ((env.lookupTransform = none ∨ env.getInstances "box" = none ∨
        ∃ boxes, env.getInstances "box" = some boxes ∧
          ∃ b ∈ boxes, env.queryNamedPose (b ++ "_location") = none ∨
            env.queryNamedPose (b ++ "_location") = some []) →
      feedbacks (RPPerceptionAction.examineObject msg env s).trace =
        [(msg.action_id, "action enabled"), (msg.action_id, "action failed")]) ∧
    (∀ o p rest, RPPerceptionAction.lookAtParams msg.parameters = (o, true) →
      env.queryNamedPose (o ++ "_wp") = some (p :: rest) →
      (env.recognise { look_for_object := LookMode.EXPLORE, look_at_pose := p }).1 ≠
        GoalState.SUCCEEDED →
      feedbacks (RPPerceptionAction.lookAtObject msg env s).trace =
        [(msg.action_id, "action enabled"), (msg.action_id, "action failed")]) ∧
    (∀ origin boxes, env.lookupTransform = some origin →
      env.getInstances "box" = some boxes →
      (∀ b ∈ boxes, ∃ p rest, env.queryNamedPose (b ++ "_location") = some (p :: rest)) →
      (env.recognise
          { look_for_object := LookMode.EXPLORE,
            look_at_pose := (boxes.foldl (pickBox env origin) {}).closest_box_pose }).1 ≠
        GoalState.SUCCEEDED →
      feedbacks (RPPerceptionAction.examineObject msg env s).trace =
        [(msg.action_id, "action enabled"), (msg.action_id, "action failed")]) ∧
    ((RPPerceptionAction.examineParams msg.parameters).foundObject = true →
      (env.examine
          { look_for_object := LookMode.EXPLORE,
            id := (RPPerceptionAction.examineParams msg.parameters).objectID }).1 ≠
        GoalState.SUCCEEDED →
      env.updateKnowledge UpdateType.ADD_KNOWLEDGE (classifiableFrom env msg) = true →
      env.updateKnowledge UpdateType.REMOVE_KNOWLEDGE
          { classifiableFrom env msg with
            is_negative := !(classifiableFrom env msg).is_negative } = true →
      feedbacks (RPPerceptionAction.examineAction msg env s).trace =
        [(msg.action_id, "action enabled"), (msg.action_id, "action failed")]) ∧
    (RPPerceptionAction.inHandParams msg.parameters ≠ "" →
      (env.examine
          { look_for_object := LookMode.EXPLORE,
            id := RPPerceptionAction.inHandParams msg.parameters }).1 ≠
        GoalState.SUCCEEDED →
      (RPPerceptionAction.examineObjectInHandAction fuel msg env s).ctl ≠ Ctl.timeout →
      (RPPerceptionAction.examineObjectInHandAction fuel msg env s).ctl ≠ Ctl.undefined →
      feedbacks (RPPerceptionAction.examineObjectInHandAction fuel msg env s).trace =
        [(msg.action_id, "action enabled"), (msg.action_id, "action failed")]) := by
  refine ⟨exploreAction_feedback env s msg, ?_, examineObject_lookup_failure env s msg,
    ?_, ?_, ?_, ?_⟩
  · intro o hp h
    rw [lookAtObject_query_failure env s msg o hp h]
    simp
  · intro o p rest hp hq hst
    exact lookAtObject_goal_failure env s msg o p rest hp hq hst
  · intro origin boxes hT hI hB hst
    exact examineObject_goal_failure env s msg origin boxes hT hI hB hst
  · intro hp hst hadd hrem
    exact examineAction_goal_failure env s msg hp hst hadd hrem
  · intro hp hst hnt hnu
    exact examineObjectInHandAction_goal_failure fuel env s msg hp hst hnt hnu

/-- C14, amended: at collaborators whose calls all fail, and at perception servers that
abort every goal while everything else succeeds and the arm arrives at once. -/
theorem failed_calls_in_perception_handlers_witness :
    feedbacks (RPPerceptionAction.exploreAction ⟨7, "explore_waypoint", [⟨"wp", "wp3"⟩]⟩
        Env.failing PerceptionState.init).trace =
      [(7, "action enabled"), (7, "action achieved")] ∧
    feedbacks (RPPerceptionAction.lookAtObject ⟨7, "look_at_object", [⟨"o", "cup1"⟩]⟩
        Env.failing PerceptionState.init).trace =
      [(7, "action enabled"), (7, "action failed")] ∧
    feedbacks (RPPerceptionAction.examineObject ⟨7, "examine_object", []⟩
        Env.failing PerceptionState.init).trace =
      [(7, "action enabled"), (7, "action failed")] ∧
    feedbacks (RPPerceptionAction.lookAtObject ⟨7, "look_at_object", [⟨"o", "cup1"⟩]⟩
        Env.goalAborted PerceptionState.armReady).trace =
      [(7, "action enabled"), (7, "action failed")] ∧
    feedbacks (RPPerceptionAction.examineObject ⟨7, "examine_object", []⟩
        Env.goalAborted PerceptionState.armReady).trace =
      [(7, "action enabled"), (7, "action failed")] ∧
    feedbacks (RPPerceptionAction.examineAction classifyDispatch
        Env.goalAborted PerceptionState.armReady).trace =
      [(7, "action enabled"), (7, "action failed")] ∧
    feedbacks (RPPerceptionAction.examineObjectInHandAction 1 inHandDispatch
        Env.goalAborted PerceptionState.armReady).trace =
      [(7, "action enabled"), (7, "action failed")] := by
  have hrun : (RPPerceptionAction.examineObjectInHandAction 1 inHandDispatch
      Env.goalAborted PerceptionState.armReady).ctl = Ctl.ret := by
    have hE := RPPerceptionAction.extendArm_arrives 0 Env.goalAborted PerceptionState.armReady
      (by decide) rfl rfl
    have he : ∀ g, Env.goalAborted.examine g = (GoalState.ABORTED, {}) := fun _ => rfl
    simp [RPPerceptionAction.examineObjectInHandAction, RPPerceptionAction.inHandParams,
      inHandDispatch, hE, he, RPPerceptionAction.goalSuccess]
  exact
  ⟨(failed_calls_in_perception_handlers 1 Env.failing PerceptionState.init
      ⟨7, "explore_waypoint", [⟨"wp", "wp3"⟩]⟩).1 ⟨⟨"wp", "wp3"⟩, by simp, rfl⟩,
   (failed_calls_in_perception_handlers 1 Env.failing PerceptionState.init
      ⟨7, "look_at_object", [⟨"o", "cup1"⟩]⟩).2.1 "cup1" rfl (Or.inl rfl),
   (failed_calls_in_perception_handlers 1 Env.failing PerceptionState.init
      ⟨7, "examine_object", []⟩).2.2.1 (Or.inl rfl),
   (failed_calls_in_perception_handlers 1 Env.goalAborted PerceptionState.armReady
      ⟨7, "look_at_object", [⟨"o", "cup1"⟩]⟩).2.2.2.1 "cup1" (poseAt 1 1) [] rfl rfl
      (by decide),
   (failed_calls_in_perception_handlers 1 Env.goalAborted PerceptionState.armReady
      ⟨7, "examine_object", []⟩).2.2.2.2.1 {} ["box1", "box2", "box3"] rfl rfl
      (by
        intro b hb
        simp only [List.mem_cons, List.mem_singleton, List.not_mem_nil, or_false] at hb
        rcases hb with rfl | rfl | rfl
        · exact ⟨poseAt 3 4, [], rfl⟩
        · exact ⟨poseAt 1 0, [], rfl⟩
        · exact ⟨poseAt 0 1, [], rfl⟩)
      (by decide),
   (failed_calls_in_perception_handlers 1 Env.goalAborted PerceptionState.armReady
      classifyDispatch).2.2.2.2.2.1 rfl (by decide) rfl rfl,
   (failed_calls_in_perception_handlers 1 Env.goalAborted PerceptionState.armReady
      inHandDispatch).2.2.2.2.2.2 (by decide) (by decide)
      (by rw [hrun]; exact fun h => by cases h) (by rw [hrun]; exact fun h => by cases h)⟩

/-- C14 as stated fails for explore_waypoint: with the find-dynamic-objects call and the
update of the explored fact both failing, the handler still publishes "action achieved"
and never "action failed". -/
theorem explore_failed_calls_counterexample :
    Env.failing.findDynamicObjects.1 = false ∧
    Env.failing.updateKnowledge UpdateType.ADD_KNOWLEDGE (exploredItem "wp3") = false ∧
    (RPPerceptionAction.exploreAction ⟨7, "explore_waypoint", [⟨"wp", "wp3"⟩]⟩ Env.failing
        PerceptionState.init).trace =
      [Event.feedback 7 "action enabled", Event.findDynamicObjects,
       Event.updateKnowledge UpdateType.ADD_KNOWLEDGE (exploredItem "wp3"),
       Event.feedback 7 "action achieved"] ∧
    feedbacks (RPPerceptionAction.exploreAction ⟨7, "explore_waypoint", [⟨"wp", "wp3"⟩]⟩
        Env.failing PerceptionState.init).trace ≠
      [(7, "action enabled"), (7, "action failed")] := by
  have h : (RPPerceptionAction.exploreAction ⟨7, "explore_waypoint", [⟨"wp", "wp3"⟩]⟩
      Env.failing PerceptionState.init).trace =
      [Event.feedback 7 "action enabled", Event.findDynamicObjects,
       Event.updateKnowledge UpdateType.ADD_KNOWLEDGE (exploredItem "wp3"),
       Event.feedback 7 "action achieved"] := by
    simp [RPPerceptionAction.exploreAction, RPPerceptionAction.exploreParams, Env.failing,
      Env.quiet, exploredItem]
  refine ⟨rfl, rfl, h, ?_⟩
  rw [h]
  simp

/-! ## Perception results without objects -/

theorem RPPerceptionAction.goalSuccess_empty (state : GoalState) (r : PerceptionResult)
    (ha : r.objects_added = []) (hu : r.objects_updated = []) :
    RPPerceptionAction.goalSuccess state r = false := by
  simp [RPPerceptionAction.goalSuccess, ha, hu]

theorem lookAtObject_empty_result (env : Env) (s : PerceptionState) (msg : ActionDispatch)
    (o : String) (p : PoseStamped) (rest : List PoseStamped) (r : PerceptionResult)
    (hp : RPPerceptionAction.lookAtParams msg.parameters = (o, true))
    (hq : env.queryNamedPose (o ++ "_wp") = some (p :: rest))
    (hr : env.recognise { look_for_object := LookMode.EXPLORE, look_at_pose := p } =
      (GoalState.SUCCEEDED, r))
    (ha : r.objects_added = []) (hu : r.objects_updated = []) :
    feedbacks (RPPerceptionAction.lookAtObject msg env s).trace =
      [(msg.action_id, "action enabled"), (msg.action_id, "action failed")] := by
  simp [RPPerceptionAction.lookAtObject, hp, hq, hr,
    RPPerceptionAction.goalSuccess_empty _ r ha hu]

theorem examineObject_empty_result (env : Env) (s : PerceptionState) (msg : ActionDispatch)
    (origin : Point) (boxes : List String) (r : PerceptionResult)
    (hT : env.lookupTransform = some origin)
    (hI : env.getInstances "box" = some boxes)
    (hB : ∀ b ∈ boxes, ∃ p rest, env.queryNamedPose (b ++ "_location") = some (p :: rest))
    (hr : env.recognise
        { look_for_object := LookMode.EXPLORE,
          look_at_pose := (boxes.foldl (pickBox env origin) {}).closest_box_pose } =
      (GoalState.SUCCEEDED, r))
    (ha : r.objects_added = []) (hu : r.objects_updated = []) :
    feedbacks (RPPerceptionAction.examineObject msg env s).trace =
      [(msg.action_id, "action enabled"), (msg.action_id, "action failed")] := by
  simp [RPPerceptionAction.examineObject, hT, hI, RPPerceptionAction.closestBoxLoop,
    RPPerceptionAction.forFold_closestBoxStep env s msg.action_id origin boxes {} hB, hr,
    RPPerceptionAction.goalSuccess_empty _ r ha hu,
    feedbacks_map_eq_nil (fun b => Event.queryNamedPose (b ++ "_location")) (fun _ => rfl)]

theorem examineAction_empty_result (env : Env) (s : PerceptionState) (msg : ActionDispatch)
    (r : PerceptionResult)
    (hp : (RPPerceptionAction.examineParams msg.parameters).foundObject = true)
    (hr : env.examine
        { look_for_object := LookMode.EXPLORE,
          id := (RPPerceptionAction.examineParams msg.parameters).objectID } =
      (GoalState.SUCCEEDED, r))
    (ha : r.objects_added = []) (hu : r.objects_updated = [])
    (hadd : env.updateKnowledge UpdateType.ADD_KNOWLEDGE (classifiableFrom env msg) = true)
    (hrem : env.updateKnowledge UpdateType.REMOVE_KNOWLEDGE
      { classifiableFrom env msg with
        is_negative := !(classifiableFrom env msg).is_negative } = true) :
    RPPerceptionAction.examineAction msg env s =
      ⟨[Event.feedback msg.action_id "action enabled",
        Event.waitForServer Server.examine_action_client,
        Event.examineGoal
          { look_for_object := LookMode.EXPLORE,
            id := (RPPerceptionAction.examineParams msg.parameters).objectID },
        Event.updateKnowledge UpdateType.ADD_KNOWLEDGE (classifiableFrom env msg),
        Event.updateKnowledge UpdateType.REMOVE_KNOWLEDGE
          { classifiableFrom env msg with
            is_negative := !(classifiableFrom env msg).is_negative },
        Event.feedback msg.action_id "action achieved"], s, Ctl.next ()⟩ := by
  simp [classifiableFrom, hr, RPPerceptionAction.goalSuccess_empty _ r ha hu] at hadd hrem
  simp [RPPerceptionAction.examineAction, hp, hr, classifiableFrom,
    RPPerceptionAction.goalSuccess_empty _ r ha hu, hadd, hrem]

theorem examineObjectInHandAction_empty_ctl (fuel : Nat) (env : Env) (s : PerceptionState)
    (msg : ActionDispatch) (r : PerceptionResult)
    (hp : RPPerceptionAction.inHandParams msg.parameters ≠ "")
    (hr : env.examine
        { look_for_object := LookMode.EXPLORE,
          id := RPPerceptionAction.inHandParams msg.parameters } = (GoalState.SUCCEEDED, r))
    (ha : r.objects_added = []) (hu : r.objects_updated = []) :
    (RPPerceptionAction.examineObjectInHandAction fuel msg env s).ctl = Ctl.next () ∨
    (RPPerceptionAction.examineObjectInHandAction fuel msg env s).ctl = Ctl.timeout ∨
    (RPPerceptionAction.examineObjectInHandAction fuel msg env s).ctl = Ctl.undefined := by
  have hc1 := RPPerceptionAction.extendArm_ctl fuel env s
  rcases hE : RPPerceptionAction.extendArm fuel env s with ⟨t1, s1, c1⟩
  rw [hE] at hc1
  have hc2 := RPPerceptionAction.retractArm_ctl fuel env s1
  rcases hR : RPPerceptionAction.retractArm fuel env s1 with ⟨t2, s2, c2⟩
  rw [hR] at hc2
  rcases hc1 with h1 | h1 | h1 <;> rcases hc2 with h2 | h2 | h2 <;> simp only at h1 h2 <;>
    subst h1 <;> subst h2 <;>
    simp [RPPerceptionAction.examineObjectInHandAction, hp, hE, hR, hr,
      RPPerceptionAction.goalSuccess_empty _ r ha hu]

theorem examineObjectInHandAction_empty_result (fuel : Nat) (env : Env) (s : PerceptionState)
    (msg : ActionDispatch) (r : PerceptionResult)
    (hp : RPPerceptionAction.inHandParams msg.parameters ≠ "")
    (hr : env.examine
        { look_for_object := LookMode.EXPLORE,
          id := RPPerceptionAction.inHandParams msg.parameters } = (GoalState.SUCCEEDED, r))
    (ha : r.objects_added = []) (hu : r.objects_updated = [])
    (hnt : (RPPerceptionAction.examineObjectInHandAction fuel msg env s).ctl ≠ Ctl.timeout)
    (hnu : (RPPerceptionAction.examineObjectInHandAction fuel msg env s).ctl ≠
      Ctl.undefined) :
    feedbacks (RPPerceptionAction.examineObjectInHandAction fuel msg env s).trace =
      [(msg.action_id, "action enabled"), (msg.action_id, "action achieved")] := by
  have hok := (examineObjectInHandAction_handlerOK fuel msg hp).run env s
  rcases examineObjectInHandAction_empty_ctl fuel env s msg r hp hr ha hu with h | h | h
  · exact hok.2.1 () h
  · exact absurd h hnt
  · exact absurd h hnu

/-- The run of examine_object_in_hand when the arm arrives at once both times and the
examine server reports SUCCEEDED with no object. -/
theorem examineObjectInHandAction_arrives (env : Env) (s : PerceptionState)
    (msg : ActionDispatch) (r : PerceptionResult)
    (hp : RPPerceptionAction.inHandParams msg.parameters ≠ "")
    (hlen : 8 ≤ s.last_joint_state.length)
    (hok1 : env.rosOk s.polls = true) (hok2 : env.rosOk (s.polls + 1) = true)
    (hj1 : env.jointState s.polls =
      some (RPPerceptionAction.extendedJoints s.last_joint_state))
    (hj2 : env.jointState (s.polls + 1) =
      some (RPPerceptionAction.retractedJoints
        (RPPerceptionAction.extendedJoints s.last_joint_state)))
    (hr : env.examine
        { look_for_object := LookMode.EXPLORE,
          id := RPPerceptionAction.inHandParams msg.parameters } = (GoalState.SUCCEEDED, r))
    (ha : r.objects_added = []) (hu : r.objects_updated = []) :
    RPPerceptionAction.examineObjectInHandAction 1 msg env s =
      ⟨[Event.feedback msg.action_id "action enabled",
        Event.waitForServer Server.examine_action_client,
        Event.ptpGoal (RPPerceptionAction.extendedJoints s.last_joint_state),
        Event.ptpGoal (RPPerceptionAction.extendedJoints s.last_joint_state),
        Event.spinOnce,
        Event.examineGoal
          { look_for_object := LookMode.EXPLORE,
            id := RPPerceptionAction.inHandParams msg.parameters },
        Event.ptpGoal (RPPerceptionAction.retractedJoints
          (RPPerceptionAction.extendedJoints s.last_joint_state)),
        Event.ptpGoal (RPPerceptionAction.retractedJoints
          (RPPerceptionAction.extendedJoints s.last_joint_state)),
        Event.spinOnce,
        Event.feedback msg.action_id "action achieved"],
       ⟨s.db_name_map,
        RPPerceptionAction.retractedJoints
          (RPPerceptionAction.extendedJoints s.last_joint_state),
        s.polls + 1 + 1⟩,
       Ctl.next ()⟩ := by
  have hE : RPPerceptionAction.extendArm 1 env s =
      ⟨[Event.ptpGoal (RPPerceptionAction.extendedJoints s.last_joint_state),
        Event.ptpGoal (RPPerceptionAction.extendedJoints s.last_joint_state),
        Event.spinOnce],
       ⟨s.db_name_map, RPPerceptionAction.extendedJoints s.last_joint_state, s.polls + 1⟩,
       Ctl.next true⟩ :=
    RPPerceptionAction.extendArm_arrives 0 env s hlen hok1 hj1
  have hR : RPPerceptionAction.retractArm 1 env
      ⟨s.db_name_map, RPPerceptionAction.extendedJoints s.last_joint_state, s.polls + 1⟩ =
      ⟨[Event.ptpGoal (RPPerceptionAction.retractedJoints
          (RPPerceptionAction.extendedJoints s.last_joint_state)),
        Event.ptpGoal (RPPerceptionAction.retractedJoints
          (RPPerceptionAction.extendedJoints s.last_joint_state)),
        Event.spinOnce],
       ⟨s.db_name_map,
        RPPerceptionAction.retractedJoints
          (RPPerceptionAction.extendedJoints s.last_joint_state),
        s.polls + 1 + 1⟩,
       Ctl.next true⟩ :=
    RPPerceptionAction.retractArm_arrives 0 env
      ⟨s.db_name_map, RPPerceptionAction.extendedJoints s.last_joint_state, s.polls + 1⟩
      (by simpa [RPPerceptionAction.extendedJoints] using hlen) hok2 hj2
  simp [RPPerceptionAction.examineObjectInHandAction, hp, hE, hR, hr,
    RPPerceptionAction.goalSuccess_empty _ r ha hu, RPPerceptionAction.publishFeedback]

/-- The run of examine_object_in_hand at the sample state and servers: the arm arrives at
once both times and the examine server reports SUCCEEDED with no object. -/
theorem examineObjectInHandAction_sample_run :
    RPPerceptionAction.examineObjectInHandAction 1 inHandDispatch Env.emptyResult
        PerceptionState.armReady =
      ⟨[Event.feedback 7 "action enabled",
        Event.waitForServer Server.examine_action_client,
        Event.ptpGoal [0, 0, 0, 3 / 2, 86 / 100, 0, -16 / 10, -18 / 10],
        Event.ptpGoal [0, 0, 0, 3 / 2, 86 / 100, 0, -16 / 10, -18 / 10],
        Event.spinOnce,
        Event.examineGoal { look_for_object := LookMode.EXPLORE, id := "cup1" },
        Event.ptpGoal [0, 0, 0, 7 / 10, 16 / 10, 0, -17 / 10, -18 / 10],
        Event.ptpGoal [0, 0, 0, 7 / 10, 16 / 10, 0, -17 / 10, -18 / 10],
        Event.spinOnce,
        Event.feedback 7 "action achieved"],
       { PerceptionState.armReady with
         last_joint_state := [0, 0, 0, 7 / 10, 16 / 10, 0, -17 / 10, -18 / 10],
         polls := 2 },
       Ctl.next ()⟩ :=
  (examineObjectInHandAction_arrives Env.emptyResult PerceptionState.armReady inHandDispatch
    {} (by decide) (by decide) rfl rfl rfl rfl rfl rfl rfl).trans rfl

theorem RPPerceptionAction.forFold_updateTypeQuery_ok (env : Env) (s : PerceptionState)
    (object_rec_name : String) (boxes : List String) :
    ∀ acc : String,
      (∀ b ∈ boxes, ∃ results,
        env.queryKnowledge [RPPerceptionAction.belongsIn object_rec_name b false] =
          some results) →
      Act.forFold boxes acc (RPPerceptionAction.updateTypeQuery object_rec_name) env s =
        ⟨boxes.map (fun b =>
            Event.queryKnowledge [RPPerceptionAction.belongsIn object_rec_name b false]), s,
          Ctl.next (RPPerceptionAction.foundBox env object_rec_name acc boxes)⟩ := by
  induction boxes with
  | nil => intro acc _; rfl
  | cons b t ih =>
    intro acc h
    obtain ⟨results, hq⟩ := h b (List.mem_cons_self b t)
    have ht := fun acc' => ih acc' (fun b' hb' => h b' (List.mem_cons_of_mem b hb'))
    by_cases hres : firstResult results = 1
    · simp [RPPerceptionAction.updateTypeQuery, hq, hres, ht, RPPerceptionAction.foundBox,
        RPPerceptionAction.holdsFor]
    · simp [RPPerceptionAction.updateTypeQuery, hq, hres, ht, RPPerceptionAction.foundBox,
        RPPerceptionAction.holdsFor]

theorem RPPerceptionAction.forEach_updateTypeAssert_trace (env : Env) (s : PerceptionState)
    (object_id found_box : String) (boxes : List String) :
    Act.forEach boxes (RPPerceptionAction.updateTypeAssert object_id found_box) env s =
      ⟨RPPerceptionAction.belongsInCalls object_id found_box boxes, s, Ctl.next ()⟩ := by
  induction boxes with
  | nil => rfl
  | cons b t ih =>
    simp [RPPerceptionAction.updateTypeAssert, ih, RPPerceptionAction.belongsInCalls]

theorem RPPerceptionAction.foundBox_unique (env : Env) (object_rec_name bstar : String)
    (hstar : RPPerceptionAction.holdsFor env object_rec_name bstar = true)
    (boxes : List String) :
    ∀ acc : String, (acc = bstar ∨ bstar ∈ boxes) →
      (∀ b ∈ boxes, RPPerceptionAction.holdsFor env object_rec_name b = true → b = bstar) →
      RPPerceptionAction.foundBox env object_rec_name acc boxes = bstar := by
  induction boxes with
  | nil =>
    intro acc h _
    rcases h with h | h
    · exact h
    · cases h
  | cons b t ih =>
    intro acc h huniq
    have ht := fun acc' hacc => ih acc' hacc
      (fun b' hb' => huniq b' (List.mem_cons_of_mem b hb'))
    show RPPerceptionAction.foundBox env object_rec_name
      (if RPPerceptionAction.holdsFor env object_rec_name b then b else acc) t = bstar
    by_cases hb : RPPerceptionAction.holdsFor env object_rec_name b = true
    · rw [if_pos hb]
      exact ht b (Or.inl (huniq b (List.mem_cons_self b t) hb))
    · rw [if_neg hb]
      apply ht acc
      rcases h with h | h
      · exact Or.inl h
      · rcases List.mem_cons.1 h with h | h
        · subst h
          exact absurd hstar hb
        · exact Or.inr h

theorem updatesOf_map_eq_nil {α : Type} (f : α → Event) (h : ∀ a, updatesOf [f a] = [])
    (l : List α) : updatesOf (l.map f) = [] := by
  induction l with
  | nil => rfl
  | cons a t ih =>
    have := h a
    simp only [List.map_cons]
    rw [show f a :: t.map f = [f a] ++ t.map f from rfl, updatesOf_append, this, ih]
    rfl

theorem RPPerceptionAction.updatesOf_belongsInCalls (object_id found_box : String)
    (boxes : List String) :
    updatesOf (RPPerceptionAction.belongsInCalls object_id found_box boxes) =
      boxes.flatMap (fun box =>
        assertPair (RPPerceptionAction.belongsIn object_id box (decide (box ≠ found_box)))) := by
  induction boxes with
  | nil => rfl
  | cons b t ih =>
    have hc : RPPerceptionAction.belongsInCalls object_id found_box (b :: t) =
        [Event.updateKnowledge UpdateType.ADD_KNOWLEDGE
           (RPPerceptionAction.belongsIn object_id b (decide (b ≠ found_box))),
         Event.updateKnowledge UpdateType.REMOVE_KNOWLEDGE
           (RPPerceptionAction.belongsIn object_id b (decide (b = found_box)))] ++
        RPPerceptionAction.belongsInCalls object_id found_box t := by
      simp [RPPerceptionAction.belongsInCalls]
    rw [hc, updatesOf_append, ih]
    simp [assertPair, RPPerceptionAction.belongsIn]

theorem examineAction_add_failure (env : Env) (s : PerceptionState) (msg : ActionDispatch)
    (hfound : (RPPerceptionAction.examineParams msg.parameters).foundObject = true)
    (hadd : env.updateKnowledge UpdateType.ADD_KNOWLEDGE (classifiableFrom env msg) = false) :
    RPPerceptionAction.examineAction msg env s =
      ⟨[Event.feedback msg.action_id "action enabled",
        Event.waitForServer Server.examine_action_client,
        Event.examineGoal
          { look_for_object := LookMode.EXPLORE,
            id := (RPPerceptionAction.examineParams msg.parameters).objectID },
        Event.updateKnowledge UpdateType.ADD_KNOWLEDGE (classifiableFrom env msg)],
       s, Ctl.exit (-1)⟩ := by
  rcases hr : env.examine
    ⟨LookMode.EXPLORE, (RPPerceptionAction.examineParams msg.parameters).objectID⟩
    with ⟨state, result⟩
  simp only [classifiableFrom, hr] at hadd
  simp [RPPerceptionAction.examineAction, hfound, hadd, hr, classifiableFrom]

theorem examineAction_remove_failure (env : Env) (s : PerceptionState) (msg : ActionDispatch)
    (hfound : (RPPerceptionAction.examineParams msg.parameters).foundObject = true)
    (hadd : env.updateKnowledge UpdateType.ADD_KNOWLEDGE (classifiableFrom env msg) = true)
    (hrem : env.updateKnowledge UpdateType.REMOVE_KNOWLEDGE
      { classifiableFrom env msg with
        is_negative := !(classifiableFrom env msg).is_negative } = false) :
    RPPerceptionAction.examineAction msg env s =
      ⟨[Event.feedback msg.action_id "action enabled",
        Event.waitForServer Server.examine_action_client,
        Event.examineGoal
          { look_for_object := LookMode.EXPLORE,
            id := (RPPerceptionAction.examineParams msg.parameters).objectID },
        Event.updateKnowledge UpdateType.ADD_KNOWLEDGE (classifiableFrom env msg),
        Event.updateKnowledge UpdateType.REMOVE_KNOWLEDGE
          { classifiableFrom env msg with
            is_negative := !(classifiableFrom env msg).is_negative }],
       s, Ctl.exit (-1)⟩ := by
  rcases hr : env.examine
    ⟨LookMode.EXPLORE, (RPPerceptionAction.examineParams msg.parameters).objectID⟩
    with ⟨state, result⟩
  simp only [classifiableFrom, hr] at hadd hrem
  simp at hrem
  simp [RPPerceptionAction.examineAction, hfound, hadd, hrem, hr, classifiableFrom]

theorem RPPerceptionAction.forFold_updateTypeQuery_env (env : Env)
    (u : UpdateType → KnowledgeItem → Bool) (object_rec_name : String)
    (boxes : List String) :
    ∀ (acc : String) (s : PerceptionState),
      Act.forFold boxes acc (RPPerceptionAction.updateTypeQuery object_rec_name)
        { env with updateKnowledge := u } s =
      Act.forFold boxes acc (RPPerceptionAction.updateTypeQuery object_rec_name) env s := by
  induction boxes with
  | nil => intro acc s; rfl
  | cons b t ih =>
    intro acc s
    have hb : RPPerceptionAction.updateTypeQuery object_rec_name acc b
        { env with updateKnowledge := u } s =
        RPPerceptionAction.updateTypeQuery object_rec_name acc b env s := by
      simp only [RPPerceptionAction.updateTypeQuery, Act.bind_apply, Act.env_apply,
        Act.emit_apply, Res.andThen_next]
      cases env.queryKnowledge [RPPerceptionAction.belongsIn object_rec_name b false] with
      | none => rfl
      | some results =>
        by_cases hres : firstResult results = 1 <;> simp [hres]
    simp only [Act.forFold_cons, hb, ih]

theorem RPPerceptionAction.updateType_env (env : Env) (u : UpdateType → KnowledgeItem → Bool)
    (s : PerceptionState) (object_id object_rec_name : String) :
    RPPerceptionAction.updateType object_id object_rec_name { env with updateKnowledge := u } s =
      RPPerceptionAction.updateType object_id object_rec_name env s := by
  cases hI : env.getInstances "box" with
  | none => simp [RPPerceptionAction.updateType, hI]
  | some boxes =>
    have hk : ∀ (a : String) (s1 : PerceptionState),
        (if a ≠ "" then
          Act.forEach boxes (RPPerceptionAction.updateTypeAssert object_id a)
          else pure PUnit.unit)
          { env with updateKnowledge := u } s1 =
        (if a ≠ "" then
          Act.forEach boxes (RPPerceptionAction.updateTypeAssert object_id a)
          else pure PUnit.unit)
          env s1 := by
      intro a s1
      by_cases ha : a = "" <;>
        simp [ha, RPPerceptionAction.forEach_updateTypeAssert_trace]
    simp only [RPPerceptionAction.updateType, Act.bind_apply, Act.env_apply, Act.emit_apply,
      Res.andThen_next, hI, Act.pure_apply, Act.pure_apply',
      RPPerceptionAction.forFold_updateTypeQuery_env env u object_rec_name boxes, hk]

theorem RPPerceptionAction.updateType_exit (env : Env) (s : PerceptionState)
    (object_id object_rec_name : String) (code : Int)
    (h : (RPPerceptionAction.updateType object_id object_rec_name env s).ctl = Ctl.exit code) :
    code = 1 ∧
    ∃ b, env.queryKnowledge [RPPerceptionAction.belongsIn object_rec_name b false] = none := by
  cases hI : env.getInstances "box" with
  | none => simp [RPPerceptionAction.updateType, hI] at h
  | some boxes =>
    obtain ⟨t, c, hq, _, hc⟩ :=
      RPPerceptionAction.forFold_updateTypeQuery env s object_rec_name boxes ""
    rcases hc with rfl | ⟨found_box, rfl⟩
    · constructor
      · simp [RPPerceptionAction.updateType, hI, hq] at h
        exact h.symm
      · by_contra hall
        have hQ : ∀ b ∈ boxes, ∃ results,
            env.queryKnowledge [RPPerceptionAction.belongsIn object_rec_name b false] =
              some results := by
          intro b _
          cases hb : env.queryKnowledge [RPPerceptionAction.belongsIn object_rec_name b false]
            with
          | none => exact absurd ⟨b, hb⟩ hall
          | some results => exact ⟨results, rfl⟩
        rw [RPPerceptionAction.forFold_updateTypeQuery_ok env s object_rec_name boxes "" hQ] at hq
        simp at hq
    · by_cases hf : found_box = ""
      · simp [RPPerceptionAction.updateType, hI, hq, hf] at h
      · simp [RPPerceptionAction.updateType, hI, hq, hf,
          RPPerceptionAction.forEach_updateTypeAssert_trace] at h

/-- C20, amended: in observe-classifiable_from a failed ADD of classifiable_from, and a
failed REMOVE of its opposite polarity, end the process with code -1 after "action
enabled" and before any terminal feedback.  The belongs_in update calls of `updateType`
are different: their answers are never read, so `updateType` runs the same whatever the
update calls answer, and it ends the process only with code 1 and only when a belongs_in
query call fails. -/
theorem classification_update_failures (env : Env) (s : PerceptionState)
    (msg : ActionDispatch)
    (hfound : (RPPerceptionAction.examineParams msg.parameters).foundObject = true) :
    (env.updateKnowledge UpdateType.ADD_KNOWLEDGE (classifiableFrom env msg) = false →
      (RPPerceptionAction.examineAction msg env s).ctl = Ctl.exit (-1) ∧
      feedbacks (RPPerceptionAction.examineAction msg env s).trace =
        [(msg.action_id, "action enabled")] ∧
      updatesOf (RPPerceptionAction.examineAction msg env s).trace =
        [(UpdateType.ADD_KNOWLEDGE, classifiableFrom env msg)]) ∧
    (env.updateKnowledge UpdateType.ADD_KNOWLEDGE (classifiableFrom env msg) = true →
      env.updateKnowledge UpdateType.REMOVE_KNOWLEDGE
          { classifiableFrom env msg with
            is_negative := !(classifiableFrom env msg).is_negative } = false →
      (RPPerceptionAction.examineAction msg env s).ctl = Ctl.exit (-1) ∧
      feedbacks (RPPerceptionAction.examineAction msg env s).trace =
        [(msg.action_id, "action enabled")] ∧
      updatesOf (RPPerceptionAction.examineAction msg env s).trace =
        assertPair (classifiableFrom env msg)) ∧
    (∀ (u : UpdateType → KnowledgeItem → Bool) (object_id category : String),
      RPPerceptionAction.updateType object_id category { env with updateKnowledge := u } s =
        RPPerceptionAction.updateType object_id category env s) ∧
    (∀ (object_id category : String) (code : Int),
      (RPPerceptionAction.updateType object_id category env s).ctl = Ctl.exit code →
      code = 1 ∧
      ∃ b, env.queryKnowledge [RPPerceptionAction.belongsIn category b false] = none) := by
  refine ⟨?_, ?_, ?_, ?_⟩
  · intro hadd
    rw [examineAction_add_failure env s msg hfound hadd]
    simp
  · intro hadd hrem
    rw [examineAction_remove_failure env s msg hfound hadd hrem]
    simp [assertPair]
  · intro u object_id category
    exact RPPerceptionAction.updateType_env env u s object_id category
  · intro object_id category code h
    exact RPPerceptionAction.updateType_exit env s object_id category code h

/-- C20, amended, at a knowledge base whose update calls all fail. -/
theorem classification_update_failures_witness :
    (RPPerceptionAction.examineAction classifyDispatch Env.failing
      PerceptionState.init).ctl = Ctl.exit (-1) ∧
    feedbacks (RPPerceptionAction.examineAction classifyDispatch Env.failing
      PerceptionState.init).trace = [(7, "action enabled")] ∧
    updatesOf (RPPerceptionAction.examineAction classifyDispatch Env.failing
      PerceptionState.init).trace =
        [(UpdateType.ADD_KNOWLEDGE, classifiableFrom Env.failing classifyDispatch)] :=
  (classification_update_failures Env.failing PerceptionState.init classifyDispatch rfl).1 rfl

/-- C20 as stated fails for the belongs_in updates: both update calls of `updateType` fail,
and observe-classifiable_from carries on, does not end the process and publishes "action
achieved". -/
theorem belongs_in_update_failure_counterexample :
    Env.belongsInUpdatesFail.updateKnowledge UpdateType.ADD_KNOWLEDGE
      (RPPerceptionAction.belongsIn "cup1" "box1" false) = false ∧
    Env.belongsInUpdatesFail.updateKnowledge UpdateType.REMOVE_KNOWLEDGE
      (RPPerceptionAction.belongsIn "cup1" "box1" true) = false ∧
    factUpdates "belongs_in" (RPPerceptionAction.examineAction classifyDispatch
      Env.belongsInUpdatesFail PerceptionState.init).trace =
      [(UpdateType.ADD_KNOWLEDGE, RPPerceptionAction.belongsIn "cup1" "box1" false),
       (UpdateType.REMOVE_KNOWLEDGE, RPPerceptionAction.belongsIn "cup1" "box1" true)] ∧
    (RPPerceptionAction.examineAction classifyDispatch Env.belongsInUpdatesFail
      PerceptionState.init).ctl = Ctl.next () ∧
    feedbacks (RPPerceptionAction.examineAction classifyDispatch Env.belongsInUpdatesFail
      PerceptionState.init).trace = [(7, "action enabled"), (7, "action achieved")] := by
  have hu : RPPerceptionAction.updateType "cup1" "cup" Env.belongsInUpdatesFail
      PerceptionState.init =
      ⟨[Event.getInstances "box",
        Event.queryKnowledge [RPPerceptionAction.belongsIn "cup" "box1" false],
        Event.updateKnowledge UpdateType.ADD_KNOWLEDGE
          (RPPerceptionAction.belongsIn "cup1" "box1" false),
        Event.updateKnowledge UpdateType.REMOVE_KNOWLEDGE
          (RPPerceptionAction.belongsIn "cup1" "box1" true)],
       PerceptionState.init, Ctl.next ()⟩ := by
    simp [RPPerceptionAction.updateType, RPPerceptionAction.updateTypeQuery,
      RPPerceptionAction.updateTypeAssert, Env.belongsInUpdatesFail, Env.quiet, firstResult]
  have hc : Act.call (RPPerceptionAction.updateType "cup1" "cup") Env.belongsInUpdatesFail
      PerceptionState.init =
      ⟨[Event.getInstances "box",
        Event.queryKnowledge [RPPerceptionAction.belongsIn "cup" "box1" false],
        Event.updateKnowledge UpdateType.ADD_KNOWLEDGE
          (RPPerceptionAction.belongsIn "cup1" "box1" false),
        Event.updateKnowledge UpdateType.REMOVE_KNOWLEDGE
          (RPPerceptionAction.belongsIn "cup1" "box1" true)],
       PerceptionState.init, Ctl.next ()⟩ := by
    simp [Act.call, hu]
  have he : ∀ g, Env.belongsInUpdatesFail.examine g =
      (GoalState.SUCCEEDED, { objects_added := [{ id := "obj1", category := "cup" }] }) :=
    fun _ => rfl
  have hk : ∀ v k, Env.belongsInUpdatesFail.updateKnowledge v k =
      decide (k.attribute_name ≠ "belongs_in") := fun _ _ => rfl
  refine ⟨by simp [hk, RPPerceptionAction.belongsIn],
    by simp [hk, RPPerceptionAction.belongsIn], ?_, ?_, ?_⟩
  · simp [RPPerceptionAction.examineAction, RPPerceptionAction.examineParams,
      classifyDispatch, RPPerceptionAction.goalSuccess, RPPerceptionAction.addObject_apply,
      he, hk, hc, objectUpdates, factUpdates_cons, factUpdates_nil,
      RPPerceptionAction.belongsIn]
  · simp [RPPerceptionAction.examineAction, RPPerceptionAction.examineParams,
      classifyDispatch, RPPerceptionAction.goalSuccess, RPPerceptionAction.addObject_apply,
      he, hk, hc, objectUpdates]
  · simp [RPPerceptionAction.examineAction, RPPerceptionAction.examineParams,
      classifyDispatch, RPPerceptionAction.goalSuccess, RPPerceptionAction.addObject_apply,
      he, hk, hc, objectUpdates]

/-! ## Update failures in observe-sorting_done -/

/-- C21: in observe-sorting_done, when the ADD succeeds and the REMOVE of the opposite
polarity fails, the run is: enabled, ADD, REMOVE, achieved, it falls through the end of
the callback and the call counter, a 32-bit int, is one higher; when the ADD fails the
process ends with exit code -1 right after the ADD, so "action enabled" is the only
feedback. -/
theorem sorting_done_update_failures (env : Env) (s : SimulatedState) (msg : ActionDispatch)
    (hname : SimulatedObservePDDLAction.normalise msg.name = "observe-sorting_done") :
    (env.updateKnowledge UpdateType.ADD_KNOWLEDGE (sortingDoneItem s) = true →
      env.updateKnowledge UpdateType.REMOVE_KNOWLEDGE
          { sortingDoneItem s with is_negative := !(sortingDoneItem s).is_negative } = false →
      SimulatedObservePDDLAction.dispatchCallback msg env s =
        ⟨[Event.feedback msg.action_id "action enabled",
          Event.updateKnowledge UpdateType.ADD_KNOWLEDGE (sortingDoneItem s),
          Event.updateKnowledge UpdateType.REMOVE_KNOWLEDGE
            { sortingDoneItem s with is_negative := !(sortingDoneItem s).is_negative },
          Event.feedback msg.action_id "action achieved"],
         { s with call_counter := wrapInt32 (s.call_counter + 1) }, Ctl.next ()⟩) ∧
    (env.updateKnowledge UpdateType.ADD_KNOWLEDGE (sortingDoneItem s) = false →
      SimulatedObservePDDLAction.dispatchCallback msg env s =
        ⟨[Event.feedback msg.action_id "action enabled",
          Event.updateKnowledge UpdateType.ADD_KNOWLEDGE (sortingDoneItem s)],
         { s with call_counter := wrapInt32 (s.call_counter + 1) }, Ctl.exit (-1)⟩) := by
  refine ⟨?_, ?_⟩
  · intro hadd _
    simp only [sortingDoneItem] at hadd
    simp [SimulatedObservePDDLAction.dispatchCallback, SimulatedObservePDDLAction.sortingDone,
      hname, hadd, sortingDoneItem]
  · intro hadd
    simp only [sortingDoneItem] at hadd
    simp [SimulatedObservePDDLAction.dispatchCallback, SimulatedObservePDDLAction.sortingDone,
      hname, hadd, sortingDoneItem]

/-- C21 at the first dispatch after start: with the REMOVE refused the feedback is enabled
then achieved and the counter is 1; with the ADD refused the process exits with only
"action enabled" published. -/
theorem sorting_done_update_failures_witness :
    feedbacks (SimulatedObservePDDLAction.dispatchCallback sortingDoneDispatch Env.removeFails
        (SimulatedObservePDDLAction.init none)).trace =
      [(8, "action enabled"), (8, "action achieved")] ∧
    (SimulatedObservePDDLAction.dispatchCallback sortingDoneDispatch Env.removeFails
        (SimulatedObservePDDLAction.init none)).state.call_counter = 1 ∧
    (SimulatedObservePDDLAction.dispatchCallback sortingDoneDispatch Env.failing
        (SimulatedObservePDDLAction.init none)).ctl = Ctl.exit (-1) ∧
    feedbacks (SimulatedObservePDDLAction.dispatchCallback sortingDoneDispatch Env.failing
        (SimulatedObservePDDLAction.init none)).trace = [(8, "action enabled")] := by
  have h1 := (sorting_done_update_failures Env.removeFails
    (SimulatedObservePDDLAction.init none) sortingDoneDispatch (by decide)).1 rfl rfl
  have h2 := (sorting_done_update_failures Env.failing
    (SimulatedObservePDDLAction.init none) sortingDoneDispatch (by decide)).2 rfl
  rw [h1, h2]
  refine ⟨by simp [sortingDoneDispatch], rfl, rfl, by simp [sortingDoneDispatch]⟩

/-! ## Parameters of observe-classifiable_from -/

theorem RPPerceptionAction.examineParams_no_view (parameters : List KeyValue) :
    ∀ acc : RPPerceptionAction.ExamineParams, (∀ p ∈ parameters, p.key ≠ "view") →
      (parameters.foldl
        (fun (acc : RPPerceptionAction.ExamineParams) p =>
          let acc1 := if p.key = "view" then { acc with wpID := p.value } else acc
          let acc2 := if p.key = "from" then { acc1 with fromID := p.value } else acc1
          if p.key = "o" then { acc2 with objectID := p.value, foundObject := true } else acc2)
        acc).wpID = acc.wpID := by
  induction parameters with
  | nil => intro acc _; rfl
  | cons p t ih =>
    intro acc h
    simp only [List.foldl_cons]
    rw [ih _ (fun q hq => h q (List.mem_cons_of_mem p hq))]
    have hp := h p (List.mem_cons_self p t)
    simp only [hp, if_false]
    split <;> split <;> rfl

theorem RPPerceptionAction.examineParams_no_from (parameters : List KeyValue) :
    ∀ acc : RPPerceptionAction.ExamineParams, (∀ p ∈ parameters, p.key ≠ "from") →
      (parameters.foldl
        (fun (acc : RPPerceptionAction.ExamineParams) p =>
          let acc1 := if p.key = "view" then { acc with wpID := p.value } else acc
          let acc2 := if p.key = "from" then { acc1 with fromID := p.value } else acc1
          if p.key = "o" then { acc2 with objectID := p.value, foundObject := true } else acc2)
        acc).fromID = acc.fromID := by
  induction parameters with
  | nil => intro acc _; rfl
  | cons p t ih =>
    intro acc h
    simp only [List.foldl_cons]
    rw [ih _ (fun q hq => h q (List.mem_cons_of_mem p hq))]
    have hp := h p (List.mem_cons_self p t)
    simp only [hp, if_false]
    split <;> split <;> rfl

theorem examineAction_start (env : Env) (s : PerceptionState) (msg : ActionDispatch)
    (hfound : (RPPerceptionAction.examineParams msg.parameters).foundObject = true) :
    (RPPerceptionAction.examineAction msg env s).trace.take 4 =
      [Event.feedback msg.action_id "action enabled",
       Event.waitForServer Server.examine_action_client,
       Event.examineGoal
         { look_for_object := LookMode.EXPLORE,
           id := (RPPerceptionAction.examineParams msg.parameters).objectID },
       Event.updateKnowledge UpdateType.ADD_KNOWLEDGE (classifiableFrom env msg)] := by
  rcases hr : env.examine
    ⟨LookMode.EXPLORE, (RPPerceptionAction.examineParams msg.parameters).objectID⟩
    with ⟨state, result⟩
  simp [RPPerceptionAction.examineAction, hfound, hr, classifiableFrom]

/-- C22, the code: observe-classifiable_from requires the key "o" only.  A dispatch that
carries "o" but lacks "view" (or lacks "from") is not aborted: the handler publishes
"action enabled", sends the examine goal and calls ADD for a classifiable_from fact whose
"view" (or "from") argument is the empty string. -/
theorem classifiable_from_requires_only_object (env : Env) (s : PerceptionState)
    (msg : ActionDispatch) (ho : ∃ p ∈ msg.parameters, p.key = "o") :
    (RPPerceptionAction.examineAction msg env s).trace.take 4 =
      [Event.feedback msg.action_id "action enabled",
       Event.waitForServer Server.examine_action_client,
       Event.examineGoal
         { look_for_object := LookMode.EXPLORE,
           id := (RPPerceptionAction.examineParams msg.parameters).objectID },
       Event.updateKnowledge UpdateType.ADD_KNOWLEDGE (classifiableFrom env msg)] ∧
    (classifiableFrom env msg).values =
      [⟨"from", (RPPerceptionAction.examineParams msg.parameters).fromID⟩,
       ⟨"view", (RPPerceptionAction.examineParams msg.parameters).wpID⟩,
       ⟨"o", (RPPerceptionAction.examineParams msg.parameters).objectID⟩] ∧
    ((∀ p ∈ msg.parameters, p.key ≠ "view") →
      (RPPerceptionAction.examineParams msg.parameters).wpID = "") ∧
    ((∀ p ∈ msg.parameters, p.key ≠ "from") →
      (RPPerceptionAction.examineParams msg.parameters).fromID = "") :=
  ⟨examineAction_start env s msg (RPPerceptionAction.examineParams_present _ ho), rfl,
   fun h => RPPerceptionAction.examineParams_no_view msg.parameters {} h,
   fun h => RPPerceptionAction.examineParams_no_from msg.parameters {} h⟩

/-- C22, the failing input: the dispatch carries "o" only, the examine server aborts and
the updates succeed.  The handler publishes "action enabled", sends the goal, writes
classifiable_from (negative) with empty "from" and "view" arguments, and ends with "action
failed" because of the aborted goal. -/
theorem classifiable_from_requires_only_object_witness :
    RPPerceptionAction.examineAction objectOnlyDispatch Env.quiet PerceptionState.init =
      ⟨[Event.feedback 7 "action enabled",
        Event.waitForServer Server.examine_action_client,
        Event.examineGoal { look_for_object := LookMode.EXPLORE, id := "cup1" },
        Event.updateKnowledge UpdateType.ADD_KNOWLEDGE
          { knowledge_type := KnowledgeType.FACT, attribute_name := "classifiable_from",
            values := [⟨"from", ""⟩, ⟨"view", ""⟩, ⟨"o", "cup1"⟩], is_negative := true },
        Event.updateKnowledge UpdateType.REMOVE_KNOWLEDGE
          { knowledge_type := KnowledgeType.FACT, attribute_name := "classifiable_from",
            values := [⟨"from", ""⟩, ⟨"view", ""⟩, ⟨"o", "cup1"⟩], is_negative := false },
        Event.feedback 7 "action failed"],
       PerceptionState.init, Ctl.ret⟩ ∧
    (RPPerceptionAction.examineAction objectOnlyDispatch Env.quiet
        PerceptionState.init).trace.take 4 =
      [Event.feedback 7 "action enabled",
       Event.waitForServer Server.examine_action_client,
       Event.examineGoal { look_for_object := LookMode.EXPLORE, id := "cup1" },
       Event.updateKnowledge UpdateType.ADD_KNOWLEDGE
         (classifiableFrom Env.quiet objectOnlyDispatch)] ∧
    (RPPerceptionAction.examineParams objectOnlyDispatch.parameters).wpID = "" ∧
    (RPPerceptionAction.examineParams objectOnlyDispatch.parameters).fromID = "" :=
  ⟨by simp [RPPerceptionAction.examineAction, RPPerceptionAction.examineParams,
      objectOnlyDispatch, RPPerceptionAction.goalSuccess, Env.quiet],
   (classifiable_from_requires_only_object Env.quiet PerceptionState.init objectOnlyDispatch
      ⟨⟨"o", "cup1"⟩, by simp [objectOnlyDispatch], rfl⟩).1,
   (classifiable_from_requires_only_object Env.quiet PerceptionState.init objectOnlyDispatch
      ⟨⟨"o", "cup1"⟩, by simp [objectOnlyDispatch], rfl⟩).2.2.1
      (by simp [objectOnlyDispatch]),
   (classifiable_from_requires_only_object Env.quiet PerceptionState.init objectOnlyDispatch
      ⟨⟨"o", "cup1"⟩, by simp [objectOnlyDispatch], rfl⟩).2.2.2
      (by simp [objectOnlyDispatch])⟩

/-! ## The object loop of observe-toy_at_right_box -/

theorem lastAsserted_flatMap_assertPair {α : Type} (f : α → KnowledgeItem) (l : List α) :
    lastAsserted (l.flatMap (fun o => assertPair (f o))) = l.getLast?.map f := by
  have hfil : (l.flatMap (fun o => assertPair (f o))).filter
      (fun u => decide (u.1 = UpdateType.ADD_KNOWLEDGE)) =
      l.map (fun o => (UpdateType.ADD_KNOWLEDGE, f o)) := by
    induction l with
    | nil => rfl
    | cons a t ih =>
      simp only [List.flatMap_cons, List.filter_append, ih, List.map_cons]
      simp [assertPair]
  simp [lastAsserted, hfil, Function.comp_def]

theorem SimulatedObservePDDLAction.toyStep_ok (env : Env) (s : SimulatedState) (id : Int)
    (closest : Closest) (tidied_objects : List String) (o : String)
    (hP : o ∉ tidied_objects → ∃ r rest, env.queryNamedObject o = some (r :: rest))
    (hQ : ∃ results, env.queryKnowledge
      [RPPerceptionAction.belongsIn o closest.closest_box false] = some results)
    (hU : ∀ u k, env.updateKnowledge u k = true) :
    ∃ t, SimulatedObservePDDLAction.toyStep id closest tidied_objects o env s =
        ⟨t, s, Ctl.next ()⟩ ∧ feedbacks t = [] ∧
      updatesOf t =
        if SimulatedObservePDDLAction.relevant env closest tidied_objects o then
          assertPair (toyAtRightBoxItem
            (SimulatedObservePDDLAction.belongsAnswer env closest.closest_box o))
        else [] := by
  by_cases ht : o ∈ tidied_objects
  · exact ⟨[], by simp [SimulatedObservePDDLAction.toyStep, ht], rfl,
      by simp [SimulatedObservePDDLAction.relevant, ht]⟩
  · obtain ⟨r, rest, hq⟩ := hP ht
    by_cases hnear : SimulatedObservePDDLAction.nearBox r.pose closest.closest_box_pose = true
    · obtain ⟨results, hk⟩ := hQ
      simp only [RPPerceptionAction.belongsIn] at hk
      refine ⟨[Event.queryNamedObject o,
        Event.queryKnowledge [RPPerceptionAction.belongsIn o closest.closest_box false],
        Event.updateKnowledge UpdateType.ADD_KNOWLEDGE (toyAtRightBoxItem results),
        Event.updateKnowledge UpdateType.REMOVE_KNOWLEDGE
          { toyAtRightBoxItem results with
            is_negative := !(toyAtRightBoxItem results).is_negative }], ?_, ?_, ?_⟩
      · simp [SimulatedObservePDDLAction.toyStep, ht, hq, hnear, hk, hU, toyAtRightBoxItem,
          RPPerceptionAction.belongsIn]
      · simp
      · simp [SimulatedObservePDDLAction.relevant, SimulatedObservePDDLAction.objectPose, ht,
          hq, hnear, SimulatedObservePDDLAction.belongsAnswer, RPPerceptionAction.belongsIn,
          hk, assertPair]
    · refine ⟨[Event.queryNamedObject o], ?_, ?_, ?_⟩
      · simp [SimulatedObservePDDLAction.toyStep, ht, hq, hnear]
      · simp
      · simp [SimulatedObservePDDLAction.relevant, SimulatedObservePDDLAction.objectPose, ht,
          hq, hnear]

theorem SimulatedObservePDDLAction.forEach_toyStep (env : Env) (s : SimulatedState) (id : Int)
    (closest : Closest) (tidied_objects : List String)
    (hU : ∀ u k, env.updateKnowledge u k = true) (objects : List String)
    (hP : ∀ o ∈ objects, o ∉ tidied_objects →
      ∃ r rest, env.queryNamedObject o = some (r :: rest))
    (hQ : ∀ o ∈ objects, ∃ results, env.queryKnowledge
      [RPPerceptionAction.belongsIn o closest.closest_box false] = some results) :
    ∃ t, Act.forEach objects (SimulatedObservePDDLAction.toyStep id closest tidied_objects)
        env s = ⟨t, s, Ctl.next ()⟩ ∧ feedbacks t = [] ∧
      updatesOf t = SimulatedObservePDDLAction.toyUpdates env closest tidied_objects objects := by
  induction objects with
  | nil => exact ⟨[], rfl, rfl, rfl⟩
  | cons o rest ih =>
    obtain ⟨t1, h1, hf1, hu1⟩ := SimulatedObservePDDLAction.toyStep_ok env s id closest
      tidied_objects o (hP o (List.mem_cons_self o rest)) (hQ o (List.mem_cons_self o rest)) hU
    obtain ⟨t2, h2, hf2, hu2⟩ := ih (fun o' ho' => hP o' (List.mem_cons_of_mem o ho'))
      (fun o' ho' => hQ o' (List.mem_cons_of_mem o ho'))
    refine ⟨t1 ++ t2, by simp [h1, h2], by simp [hf1, hf2], ?_⟩
    rw [updatesOf_append, hu1, hu2]
    by_cases hr : SimulatedObservePDDLAction.relevant env closest tidied_objects o = true
    · simp [SimulatedObservePDDLAction.toyUpdates, hr, List.filter_cons]
    · simp [SimulatedObservePDDLAction.toyUpdates, hr, List.filter_cons]

theorem toyAtRightBox_run (env : Env) (s : SimulatedState) (msg : ActionDispatch)
    (origin : Point) (boxes objects : List String) (attributes : List KnowledgeItem)
    (hname : SimulatedObservePDDLAction.normalise msg.name = "observe-toy_at_right_box")
    (hT : env.lookupTransform = some origin)
    (hB : env.getInstances "box" = some boxes)
    (hL : ∀ b ∈ boxes, ∃ p rest, env.queryNamedPose (b ++ "_location") = some (p :: rest))
    (hO : env.getInstances "object" = some objects)
    (hA : env.getAttribute "tidy" = some attributes)
    (hP : ∀ o ∈ objects, o ∉ SimulatedObservePDDLAction.tidiedObjects attributes →
      ∃ r rest, env.queryNamedObject o = some (r :: rest))
    (hQ : ∀ o ∈ objects, ∃ results, env.queryKnowledge
      [RPPerceptionAction.belongsIn o (boxes.foldl (pickBox env origin) {}).closest_box false] =
        some results)
    (hU : ∀ u k, env.updateKnowledge u k = true) :
    (SimulatedObservePDDLAction.dispatchCallback msg env s).ctl = Ctl.next () ∧
    feedbacks (SimulatedObservePDDLAction.dispatchCallback msg env s).trace =
      [(msg.action_id, "action enabled"), (msg.action_id, "action achieved")] ∧
    updatesOf (SimulatedObservePDDLAction.dispatchCallback msg env s).trace =
      SimulatedObservePDDLAction.toyUpdates env (boxes.foldl (pickBox env origin) {})
        (SimulatedObservePDDLAction.tidiedObjects attributes) objects := by
  obtain ⟨t, ht, hf, hu⟩ := SimulatedObservePDDLAction.forEach_toyStep env s msg.action_id
    (boxes.foldl (pickBox env origin) {}) (SimulatedObservePDDLAction.tidiedObjects attributes)
    hU objects hP hQ
  have hrun : SimulatedObservePDDLAction.dispatchCallback msg env s =
      ⟨Event.feedback msg.action_id "action enabled" :: Event.lookupTransform ::
        Event.getInstances "box" ::
        (boxes.map (fun b => Event.queryNamedPose (b ++ "_location")) ++
          (Event.getInstances "object" :: Event.getAttribute "tidy" ::
            (t ++ [Event.feedback msg.action_id "action achieved"]))), s, Ctl.next ()⟩ := by
    simp [SimulatedObservePDDLAction.dispatchCallback, hname,
      SimulatedObservePDDLAction.toyAtRightBox, hT, hB, hO, hA,
      SimulatedObservePDDLAction.closestBoxLoop,
      SimulatedObservePDDLAction.sim_forFold_closestBoxStep env s msg.action_id origin boxes
        {} hL, ht]
  rw [hrun]
  refine ⟨rfl, ?_, ?_⟩
  · simp [hf, feedbacks_map_eq_nil (fun b => Event.queryNamedPose (b ++ "_location"))
      (fun _ => rfl)]
  · simp [hu, updatesOf_map_eq_nil (fun b => Event.queryNamedPose (b ++ "_location"))
      (fun _ => rfl)]

/-- C23, the code: the closeness test subtracts the squared y offset instead of adding it.
An object on the box's x coordinate passes the test however far away it lies along the y
axis.  With the only toy 100 units from the box (squared distance 10000) the handler still
queries belongs_in for it and updates toy_at_right_box. -/
theorem proximity_test_subtracts_y :
    (∀ y : ℚ, SimulatedObservePDDLAction.nearBox (toyAt 0 y).pose (poseAt 0 0) = true) ∧
    boxDistance (poseAt 0 0) (toyAt 0 100).pose.position = 10000 ∧
    SimulatedObservePDDLAction.dispatchCallback toyDispatch Env.farToy
        (SimulatedObservePDDLAction.init none) =
      ⟨[Event.feedback 9 "action enabled", Event.lookupTransform, Event.getInstances "box",
        Event.queryNamedPose "box1_location", Event.getInstances "object",
        Event.getAttribute "tidy", Event.queryNamedObject "toy1",
        Event.queryKnowledge [RPPerceptionAction.belongsIn "toy1" "box1" false],
        Event.updateKnowledge UpdateType.ADD_KNOWLEDGE
          { knowledge_type := KnowledgeType.FACT, attribute_name := "toy_at_right_box",
            is_negative := true },
        Event.updateKnowledge UpdateType.REMOVE_KNOWLEDGE
          { knowledge_type := KnowledgeType.FACT, attribute_name := "toy_at_right_box",
            is_negative := false },
        Event.feedback 9 "action achieved"],
       SimulatedObservePDDLAction.init none, Ctl.next ()⟩ := by
  refine ⟨?_, ?_, ?_⟩
  · intro y
    have h : -(y * y) < 3 / 2 := by nlinarith [mul_self_nonneg y]
    simpa [SimulatedObservePDDLAction.nearBox, toyAt, poseAt] using h
  · have h : squaredDistance (poseAt 0 0) (toyAt 0 100).pose.position = 10000 := by
      norm_num [squaredDistance, poseAt, toyAt]
    rw [boxDistance, h, toFloat_tenthousand]
  · have hn : SimulatedObservePDDLAction.normalise "observe-toy_at_right_box" =
        "observe-toy_at_right_box" := by decide
    have hnear : SimulatedObservePDDLAction.nearBox (toyAt 0 100).pose (poseAt 0 0) = true := by
      norm_num [SimulatedObservePDDLAction.nearBox, toyAt, poseAt]
    have hd : boxDistance (poseAt 0 0) {} < FLT_MAX := by
      rw [boxDistance_zero_zero]
      norm_num [FLT_MAX]
    simp [SimulatedObservePDDLAction.dispatchCallback, hn,
      SimulatedObservePDDLAction.toyAtRightBox, SimulatedObservePDDLAction.closestBoxLoop,
      SimulatedObservePDDLAction.closestBoxStep, SimulatedObservePDDLAction.toyStep,
      SimulatedObservePDDLAction.tidiedObjects, Env.farToy, Env.quiet, hnear, hd,
      firstResult, RPPerceptionAction.belongsIn, toyDispatch]

/-! ## Several or no matching boxes -/

theorem RPPerceptionAction.foundBox_none (env : Env) (object_rec_name : String)
    (boxes : List String) :
    ∀ acc : String,
      (∀ b ∈ boxes, RPPerceptionAction.holdsFor env object_rec_name b = false) →
      RPPerceptionAction.foundBox env object_rec_name acc boxes = acc := by
  induction boxes with
  | nil => intro acc _; rfl
  | cons b t ih =>
    intro acc h
    show RPPerceptionAction.foundBox env object_rec_name
      (if RPPerceptionAction.holdsFor env object_rec_name b then b else acc) t = acc
    rw [h b (List.mem_cons_self b t)]
    exact ih acc (fun b' hb' => h b' (List.mem_cons_of_mem b hb'))

theorem RPPerceptionAction.foundBox_append (env : Env) (object_rec_name : String)
    (pre post : List String) (acc : String) :
    RPPerceptionAction.foundBox env object_rec_name acc (pre ++ post) =
      RPPerceptionAction.foundBox env object_rec_name
        (RPPerceptionAction.foundBox env object_rec_name acc pre) post := by
  simp [RPPerceptionAction.foundBox, List.foldl_append]

theorem RPPerceptionAction.foundBox_last (env : Env) (object_rec_name : String)
    (pre post : List String) (blast : String)
    (hlast : RPPerceptionAction.holdsFor env object_rec_name blast = true)
    (hpost : ∀ b ∈ post, RPPerceptionAction.holdsFor env object_rec_name b = false) :
    RPPerceptionAction.foundBox env object_rec_name "" (pre ++ blast :: post) = blast := by
  rw [RPPerceptionAction.foundBox_append]
  show RPPerceptionAction.foundBox env object_rec_name
    (if RPPerceptionAction.holdsFor env object_rec_name blast then blast else _) post = blast
  rw [hlast]
  exact RPPerceptionAction.foundBox_none env object_rec_name post blast hpost

theorem updateType_run (env : Env) (s : PerceptionState) (object_id category : String)
    (boxes : List String)
    (hI : env.getInstances "box" = some boxes)
    (hQ : ∀ b ∈ boxes, ∃ results,
      env.queryKnowledge [RPPerceptionAction.belongsIn category b false] = some results) :
    updatesOf (RPPerceptionAction.updateType object_id category env s).trace =
      if RPPerceptionAction.foundBox env category "" boxes = "" then []
      else boxes.flatMap (fun b => assertPair (RPPerceptionAction.belongsIn object_id b
        (decide (b ≠ RPPerceptionAction.foundBox env category "" boxes)))) := by
  by_cases hf : RPPerceptionAction.foundBox env category "" boxes = ""
  · simp [RPPerceptionAction.updateType, hI,
      RPPerceptionAction.forFold_updateTypeQuery_ok env s category boxes "" hQ, hf,
      updatesOf_map_eq_nil (fun b =>
        Event.queryKnowledge [RPPerceptionAction.belongsIn category b false]) (fun _ => rfl)]
  · simp [RPPerceptionAction.updateType, hI,
      RPPerceptionAction.forFold_updateTypeQuery_ok env s category boxes "" hQ, hf,
      RPPerceptionAction.forEach_updateTypeAssert_trace,
      RPPerceptionAction.updatesOf_belongsInCalls,
      updatesOf_map_eq_nil (fun b =>
        Event.queryKnowledge [RPPerceptionAction.belongsIn category b false]) (fun _ => rfl)]

theorem assignEntry_absent {V : Type} (l : List (String × V)) (k : String) (v : V)
    (h : lookupEntry l k = none) : assignEntry l k v = l ++ [(k, v)] := by
  induction l with
  | nil => rfl
  | cons a t ih =>
    obtain ⟨a, w⟩ := a
    by_cases h' : a = k
    · simp [lookupEntry, h'] at h
    · simp only [lookupEntry, h', if_false] at h
      simp [assignEntry, h', ih h]

theorem StdMap.index_snd_entries {V : Type} [Inhabited V] (m : StdMap V) (k : String) :
    (m.index k).2.entries =
      if (m.find k).isSome then m.entries else m.entries ++ [(k, default)] := by
  unfold StdMap.index
  cases h : m.find k with
  | none => simpa [StdMap.assign] using assignEntry_absent m.entries k default h
  | some v => simp

theorem StdMap.find_index_snd {V : Type} [Inhabited V] (m : StdMap V) (k k' : String) :
    (m.index k).2.find k' =
      if k = k' then some ((m.find k).getD default) else m.find k' := by
  unfold StdMap.index
  cases h : m.find k with
  | none => simp [StdMap.find_assign]
  | some v =>
    by_cases hk : k = k'
    · subst hk
      simp [h]
    · simp [hk]

theorem StdMap.index_index_fst {V : Type} [Inhabited V] (m : StdMap V) (k k' : String) :
    ((m.index k).2.index k').1 = (m.index k').1 := by
  rw [StdMap.index_fst, StdMap.index_fst, StdMap.find_index_snd]
  by_cases hk : k = k'
  · subst hk
    cases h : m.find k <;> simp
  · simp [hk]

/-- C26: the two maps of the registry are independent.  From every registry state,
addPointCloud, removePointCloud and getPointCloud leave the position map as it is, and
addPosition, removePosition and getPosition leave the point cloud map as it is, for every
name, also one stored in both maps. -/
theorem scene_maps_are_independent (db : SceneDatabase) :
    (∀ msg, (db.addPointCloud msg).positions = db.positions) ∧
    (∀ msg, (db.removePointCloud msg).positions = db.positions) ∧
    (∀ name, (db.getPointCloud name).2.2.positions = db.positions) ∧
    (∀ msg, (db.addPosition msg).clouds = db.clouds) ∧
    (∀ msg, (db.removePosition msg).clouds = db.clouds) ∧
    (∀ name, (db.getPosition name).2.2.clouds = db.clouds) := by
  refine ⟨fun _ => rfl, ?_, fun _ => rfl, fun _ => rfl, ?_, fun _ => rfl⟩
  · intro msg
    unfold SceneDatabase.removePointCloud
    split <;> rfl
  · intro msg
    unfold SceneDatabase.removePosition
    split <;> rfl

/-- C26 on the registry that stores a cloud and a position under the same name "cup":
removing the cloud keeps the position readable, and removing the position keeps the cloud
readable. -/
theorem scene_maps_are_independent_witness :
    ((SceneDatabase.sample.removePointCloud ⟨"cup"⟩).getPosition "cup").2.1 =
      { x := 1, y := 2, z := 3 } ∧
    ((SceneDatabase.sample.removePosition ⟨"cup"⟩).getPointCloud "cup").2.1 =
      { height := 1 } := by
  have h := scene_maps_are_independent SceneDatabase.sample
  refine ⟨?_, ?_⟩
  · simp only [SceneDatabase.getPosition, h.2.1 ⟨"cup"⟩, StdMap.index_fst]
    simp [SceneDatabase.sample, SceneDatabase.addPosition, SceneDatabase.addPointCloud,
      StdMap.find_assign]
  · simp only [SceneDatabase.getPointCloud, h.2.2.2.2.1 ⟨"cup"⟩, StdMap.index_fst]
    simp [SceneDatabase.sample, SceneDatabase.addPosition, SceneDatabase.addPointCloud,
      StdMap.find_assign]

/-- C27: a get is observationally read-only.  From every registry state and for all names
n and m, a get for m after a get for n answers what it would have answered without the get
for n.  The stored map after a get for n is the map before when n was stored, and the map
before followed by the entry n -> default (empty cloud, zero point) when it was not; so a
lookup of n finds the old value or the default and every other lookup is unchanged. -/
theorem get_is_observationally_read_only (db : SceneDatabase) (n m : String) :
    ((db.getPointCloud n).2.2.getPointCloud m).1 = (db.getPointCloud m).1 ∧
    ((db.getPointCloud n).2.2.getPointCloud m).2.1 = (db.getPointCloud m).2.1 ∧
    (db.getPointCloud n).2.2.clouds.entries =
      (if (db.clouds.find n).isSome then db.clouds.entries
       else db.clouds.entries ++ [(n, ({} : PointCloud2))]) ∧
    (db.getPointCloud n).2.2.clouds.find m =
      (if n = m then some ((db.clouds.find n).getD {}) else db.clouds.find m) ∧
    ((db.getPosition n).2.2.getPosition m).1 = (db.getPosition m).1 ∧
    ((db.getPosition n).2.2.getPosition m).2.1 = (db.getPosition m).2.1 ∧
    (db.getPosition n).2.2.positions.entries =
      (if (db.positions.find n).isSome then db.positions.entries
       else db.positions.entries ++ [(n, ({} : Point))]) ∧
    (db.getPosition n).2.2.positions.find m =
      (if n = m then some ((db.positions.find n).getD {}) else db.positions.find m) :=
  ⟨rfl, StdMap.index_index_fst db.clouds n m, StdMap.index_snd_entries db.clouds n,
   StdMap.find_index_snd db.clouds n m, rfl, StdMap.index_index_fst db.positions n m,
   StdMap.index_snd_entries db.positions n, StdMap.find_index_snd db.positions n m⟩

/-- C27 on the registry that stores "cup": a get for the absent name "box" adds the entry
"box" with the empty cloud after the stored one, and a get for "cup" afterwards still
answers the stored cloud. -/
theorem get_is_observationally_read_only_witness :
    ((SceneDatabase.sample.getPointCloud "box").2.2.getPointCloud "cup").2.1 =
      { height := 1 } ∧
    (SceneDatabase.sample.getPointCloud "box").2.2.clouds.entries =
      [("cup", { height := 1 }), ("box", {})] ∧
    (SceneDatabase.sample.getPointCloud "cup").2.2.clouds.entries =
      [("cup", { height := 1 })] := by
  have h1 := get_is_observationally_read_only SceneDatabase.sample "box" "cup"
  have h2 := get_is_observationally_read_only SceneDatabase.sample "cup" "cup"
  have hc : SceneDatabase.sample.clouds.entries = [("cup", { height := 1 })] := rfl
  have hf : SceneDatabase.sample.clouds.find "cup" = some { height := 1 } := by
    simp [StdMap.find, hc, lookupEntry]
  have hb : SceneDatabase.sample.clouds.find "box" = none := by
    simp [StdMap.find, hc, lookupEntry]
  refine ⟨?_, ?_, ?_⟩
  · rw [h1.2.1]
    simp [SceneDatabase.getPointCloud, StdMap.index_fst, hf]
  · rw [h1.2.2.1, hb, hc]
    rfl
  · rw [h2.2.2.1, hf, hc]
    rfl

end KCL_rosplan
